import Mathlib

/-!
# Host-side event normalisation of the EZSP/ASH Node-API binding

A shallow embedding of `src/native/binding.cpp`: the stack-callback handlers that
turn raw link-layer frames and Green Power notifications into application events.

Conventions of the embedding.

* A C byte buffer reached through a pointer is a `List Nat`: the cells that may be
  read starting at the pointer.  A cell is read as a `uint8_t`, i.e. modulo 256.
  Cells outside the list are not part of the model: reading one has no defined
  value, and a handler that does so yields `none`.  Writing a cell outside an
  allocation is undefined in the same way and also yields `none`.
  A handler that returns normally yields `some es`, where `es` lists the events it
  handed to the thread-safe callback `tsfn`, oldest first.
* The declared length that travels with a buffer is a separate number: nothing in
  the C code ties it to the size of the buffer.
* Machine integers are natural numbers, reduced explicitly where the C type
  truncates them.
-/

namespace EzspNapi

/-! ## Machine arithmetic -/

/-- Modelled from the spec: the macro `HIGH_LOW_TO_INT` comes from
`platform-header.h`, which is not part of the source tree.  The spec reads every
two-byte field as a 16-bit value with the first byte in memory least significant;
the macro receives the second byte as `high` and the first as `low`. -/
def HIGH_LOW_TO_INT (high low : Nat) : Nat :=
  ((high % 256) * 256 + low % 256) % 65536

/-- The C expression `~c` for an `int` constant `c` (32-bit two's complement),
as the bit pattern it is and-ed with. -/
def intNot (c : Nat) : Nat := 0xFFFFFFFF - c

/-- The `uint8_t` value of `a - b` for `uint8_t` operands. -/
def subU8 (a b : Nat) : Nat := (a % 256 + 256 - b % 256) % 256

/-- Read one `uint8_t` cell at offset `i`; `none` when the cell is outside the buffer. -/
def readU8 (mem : List Nat) (i : Nat) : Option Nat :=
  (mem[i]?).map (fun b => b % 256)

/-- Copy `n` cells starting at offset `off` (`memcpy`/`memmove` out of the buffer);
`none` when the range leaves the buffer. -/
def readBytes (mem : List Nat) (off n : Nat) : Option (List Nat) :=
  if off + n ≤ mem.length then some (((mem.drop off).take n).map (fun b => b % 256)) else none

/-! ## Constants of the Inter-PAN helpers (lines 37-81) -/

def STUB_NWK_SIZE : Nat := 2
def STUB_NWK_FRAME_CONTROL : Nat := 0x000B
def INTERPAN_APS_UNICAST_SIZE : Nat := 5
def INTERPAN_APS_MULTICAST_SIZE : Nat := 7
def MIN_STUB_APS_SIZE : Nat := INTERPAN_APS_UNICAST_SIZE
def INTERPAN_APS_FRAME_TYPE : Nat := 0x03
def INTERPAN_APS_FRAME_CONTROL_NO_DELIVERY_MODE : Nat := INTERPAN_APS_FRAME_TYPE
def INTERPAN_APS_FRAME_DELIVERY_MODE_MASK : Nat := 0x0C
def INTERPAN_APS_FRAME_SECURITY : Nat := 0x20
def SL_ZIGBEE_AF_INTER_PAN_UNICAST : Nat := 0x00
def SL_ZIGBEE_AF_INTER_PAN_BROADCAST : Nat := 0x08
def SL_ZIGBEE_AF_INTER_PAN_MULTICAST : Nat := 0x0C
def MAC_ACK_REQUIRED : Nat := 0x0020
def MAC_FRAME_TYPE_DATA : Nat := 0x0001
def MAC_FRAME_SOURCE_MODE_SHORT : Nat := 0x8000
def MAC_FRAME_SOURCE_MODE_LONG : Nat := 0xC000
def MAC_FRAME_DESTINATION_MODE_SHORT : Nat := 0x0800
def MAC_FRAME_DESTINATION_MODE_LONG : Nat := 0x0C00
def SHORT_DEST_FRAME_CONTROL : Nat :=
  MAC_FRAME_TYPE_DATA ||| MAC_FRAME_DESTINATION_MODE_SHORT ||| MAC_FRAME_SOURCE_MODE_LONG
def LONG_DEST_FRAME_CONTROL : Nat :=
  MAC_FRAME_TYPE_DATA ||| MAC_FRAME_DESTINATION_MODE_LONG ||| MAC_FRAME_SOURCE_MODE_LONG

/-! ## Data model -/

/-- The APS frame descriptor, with the fields `ApsFrameToObject` exposes. -/
structure sl_zigbee_aps_frame_t where
  profileId : Nat
  clusterId : Nat
  sourceEndpoint : Nat
  destinationEndpoint : Nat
  options : Nat
  groupId : Nat
  sequence : Nat
  radius : Nat
deriving DecidableEq, Repr

/-- The packet metadata, with the two fields the handlers read. -/
structure sl_zigbee_rx_packet_info_t where
  sender_short_id : Nat
  last_hop_lqi : Nat
deriving DecidableEq, Repr

/-- The events handed to the application consumer, one constructor per value of
the `name` property the handlers set, carrying the other properties of the object. -/
inductive Event where
  | ncpNeedsResetAndInit (status : Nat)
  | stackStatus (status : Nat)
  | messageSent (status type indexOrDestination : Nat) (apsFrame : sl_zigbee_aps_frame_t)
      (messageTag : Nat) (messageContents : List Nat)
  | zdoResponse (apsFrame : sl_zigbee_aps_frame_t) (sender : Nat) (messageContents : List Nat)
  | incomingMessage (type : Nat) (apsFrame : sl_zigbee_aps_frame_t) (lastHopLqi sender : Nat)
      (messageContents : List Nat)
  | touchlinkMessage (sourcePanId : Nat) (sourceAddress : String) (groupId lastHopLqi : Nat)
      (messageContents : List Nat)
  | trustCenterJoin (newNodeId : Nat) (newNodeEui64 : String)
      (status policyDecision parentOfNewNodeId : Nat)
deriving DecidableEq, Repr

/-! ## `Eui64ToHexString` (lines 236-244) -/

/-- The `printf` conversion `%02x` of an unsigned value: its hexadecimal digits in
lower case, most significant first, left-padded with `0` to a width of two. -/
def fmt02x (v : Nat) : List Char :=
  List.replicate (2 - (Nat.toDigits 16 v).length) '0' ++ Nat.toDigits 16 v

/-- The cell `i` of an 8-byte address array, as the `uint8_t` it holds. -/
def eui64Byte (eui64 : List Nat) (i : Nat) : Nat := eui64.getD i 0 % 256

/-- The call `snprintf(hexString, 19, "0x%02x%02x%02x%02x%02x%02x%02x%02x", eui64[7], ...,
eui64[0])`: the formatted text, cut to the 18 characters that fit before the terminator. -/
def Eui64ToHexString (eui64 : List Nat) : String :=
  String.mk
    ((['0', 'x'] ++ fmt02x (eui64Byte eui64 7) ++ fmt02x (eui64Byte eui64 6)
        ++ fmt02x (eui64Byte eui64 5) ++ fmt02x (eui64Byte eui64 4)
        ++ fmt02x (eui64Byte eui64 3) ++ fmt02x (eui64Byte eui64 2)
        ++ fmt02x (eui64Byte eui64 1) ++ fmt02x (eui64Byte eui64 0)).take 18)

/-! ## `sl_zigbee_ezsp_mac_filter_match_message_handler` (lines 622-768)

The body of the C function is one straight run of reads and early returns.  It is
embedded in four parts, in source order from the last to the first, each part
taking the local variables that are live where it starts; `finger` is kept as an
offset from `messageContents`. -/

/-- Lines 717-766: cluster ID, profile ID, payload offset and length, the payload
copy and the `touchlinkMessage` event. -/
def interPanTail (packetInfo : sl_zigbee_rx_packet_info_t) (messageLength : Nat)
    (mem : List Nat) (panId : Nat) (longAddress : List Nat) (groupId finger : Nat) :
    Option (List Event) := do
  let c1 ← readU8 mem (finger + 1)
  let c0 ← readU8 mem finger
  let clusterId := HIGH_LOW_TO_INT c1 c0
  let finger := finger + 2
  if clusterId ≠ 0x1000 then pure []
  else do
    let p1 ← readU8 mem (finger + 1)
    let p0 ← readU8 mem finger
    let profileId := HIGH_LOW_TO_INT p1 p0
    let finger := finger + 2
    if profileId ≠ 0xc05e then pure []
    else do
      let payloadOffset := finger % 256
      if payloadOffset = 0 then pure []
      else do
        let payloadLength := subU8 messageLength payloadOffset
        let payloadCopy ← readBytes mem payloadOffset payloadLength
        let sourceAddress := Eui64ToHexString longAddress
        pure [Event.touchlinkMessage panId sourceAddress groupId
                packetInfo.last_hop_lqi payloadCopy]

/-- Lines 673-715: the APS frame control, its two validations and the switch on the
delivery mode; then the tail.  The switch yields `none` where the C code returns and
otherwise the group ID with the finger it leaves. -/
def interPanAps (packetInfo : sl_zigbee_rx_packet_info_t) (messageLength : Nat)
    (mem : List Nat) (panId : Nat) (longAddress : List Nat) (finger remainingLength : Nat) :
    Option (List Event) := do
  let apsFrameControl ← readU8 mem finger
  let finger := finger + 1
  if (apsFrameControl &&& intNot INTERPAN_APS_FRAME_DELIVERY_MODE_MASK
        &&& intNot INTERPAN_APS_FRAME_SECURITY)
      ≠ INTERPAN_APS_FRAME_CONTROL_NO_DELIVERY_MODE then pure []
  else if apsFrameControl &&& INTERPAN_APS_FRAME_SECURITY ≠ 0 then pure []
  else do
    let messageType := (apsFrameControl &&& INTERPAN_APS_FRAME_DELIVERY_MODE_MASK) % 256
    let sw : Option (Nat × Nat) ←
      if messageType = SL_ZIGBEE_AF_INTER_PAN_UNICAST
          ∨ messageType = SL_ZIGBEE_AF_INTER_PAN_BROADCAST then
        if remainingLength < INTERPAN_APS_UNICAST_SIZE then pure none
        else pure (some (0, finger))
      else if messageType = SL_ZIGBEE_AF_INTER_PAN_MULTICAST then
        if remainingLength < INTERPAN_APS_MULTICAST_SIZE then pure none
        else do
          let g1 ← readU8 mem (finger + 1)
          let g0 ← readU8 mem finger
          pure (some (HIGH_LOW_TO_INT g1 g0, finger + 2))
      else pure none
    match sw with
    | none => pure []
    | some (groupId, finger) =>
      interPanTail packetInfo messageLength mem panId longAddress groupId finger

/-- Lines 652-671: source PAN ID, long source address, the remaining length and the
stub NWK frame control; then the APS part. -/
def interPanStub (packetInfo : sl_zigbee_rx_packet_info_t) (messageLength : Nat)
    (mem : List Nat) (finger : Nat) : Option (List Event) := do
  let pan1 ← readU8 mem (finger + 1)
  let pan0 ← readU8 mem finger
  let panId := HIGH_LOW_TO_INT pan1 pan0
  let finger := finger + 2
  let longAddress ← readBytes mem finger 8
  let finger := finger + 8
  let remainingLength := subU8 messageLength finger
  if remainingLength < STUB_NWK_SIZE + MIN_STUB_APS_SIZE then pure []
  else do
    let nwk1 ← readU8 mem (finger + 1)
    let nwk0 ← readU8 mem finger
    if HIGH_LOW_TO_INT nwk1 nwk0 ≠ STUB_NWK_FRAME_CONTROL then pure []
    else
      let finger := finger + 2
      let remainingLength := subU8 remainingLength 2
      interPanAps packetInfo messageLength mem panId longAddress finger remainingLength

/-- Lines 622-650 and the call of the rest.  `tsfn` tells whether the thread-safe
callback is set, `packetInfo` and `messageContents` are the two pointers (`none` for
null), `messageLength` is the declared `uint8_t` length.  The arguments
`filterValueMatch` and `legacyPassthroughType` are never read by the C function and
are left out. -/
def sl_zigbee_ezsp_mac_filter_match_message_handler (tsfn : Bool)
    (packetInfo : Option sl_zigbee_rx_packet_info_t) (messageLength : Nat)
    (messageContents : Option (List Nat)) : Option (List Event) :=
  match tsfn, packetInfo, messageContents with
  | true, some packetInfo, some mem => do
    let finger := 0
    let fc1 ← readU8 mem (finger + 1)
    let fc0 ← readU8 mem finger
    let macFrameControl := (HIGH_LOW_TO_INT fc1 fc0 &&& intNot MAC_ACK_REQUIRED) % 65536
    if macFrameControl = LONG_DEST_FRAME_CONTROL then
      -- control, sequence, dest PAN ID, long dest
      interPanStub packetInfo messageLength mem (finger + (2 + 1 + 2 + 8))
    else if macFrameControl = SHORT_DEST_FRAME_CONTROL then
      -- control, sequence, dest PAN ID, short dest
      interPanStub packetInfo messageLength mem (finger + (2 + 1 + 2 + 2))
    else pure []
  | _, _, _ => some []


/-! ## `sl_zigbee_ezsp_gpep_incoming_message_handler` (lines 795-879) -/

/-- The Green Power address, with the two members the handler reads
(`id.sourceId` is a `uint32_t`). -/
structure sl_zigbee_gp_address_t where
  sourceId : Nat
  applicationId : Nat
deriving DecidableEq, Repr

/-- The Green Power parameters, with the members the handler reads.
`gpdCommandPayload` is the buffer behind the pointer, `gpdCommandPayloadLength` the
declared `uint8_t` length. -/
structure sl_zigbee_gp_params_t where
  addr : sl_zigbee_gp_address_t
  sequenceNumber : Nat
  gpdfSecurityLevel : Nat
  gpdfSecurityKeyType : Nat
  bidirectionalInfo : Nat
  gpdSecurityFrameCounter : Nat
  gpdCommandId : Nat
  gpdCommandPayloadLength : Nat
  gpdCommandPayload : List Nat
  packetInfo : sl_zigbee_rx_packet_info_t
deriving DecidableEq, Repr

/-- Lines 830-877: the synthetic APS frame, the serialised message and the
`incomingMessage` event.  `msgCopy` is allocated with `messageLength` cells, where
`messageLength` is a `uint8_t`.  The fifteen header bytes and the payload are written
through `finger` at the offsets 0 to `15 + gpdCommandPayloadLength - 1`: when these do
not fit the `messageLength` cells the writes leave the allocation and the result is
`none`.  The event carries a copy of the `messageLength` cells. -/
def gpepEmit (SL_ZIGBEE_INCOMING_UNICAST : Nat) (param : sl_zigbee_gp_params_t)
    (commandIdentifier options : Nat) : Option (List Event) := do
  let apsFrame : sl_zigbee_aps_frame_t :=
    { profileId := 0xa1e0, clusterId := 0x0021, sourceEndpoint := 0xf2,
      destinationEndpoint := 0xf2, options := 0, groupId := 0x0b84, sequence := 0, radius := 0 }
  let messageLength := (15 + param.gpdCommandPayloadLength) % 256
  let header : List Nat :=
    [0x01,
     param.sequenceNumber % 256,
     commandIdentifier % 256,
     (options &&& 0xFF) % 256,
     ((options >>> 8) &&& 0xFF) % 256,
     (param.addr.sourceId &&& 0xFF) % 256,
     ((param.addr.sourceId >>> 8) &&& 0xFF) % 256,
     ((param.addr.sourceId >>> 16) &&& 0xFF) % 256,
     ((param.addr.sourceId >>> 24) &&& 0xFF) % 256,
     (param.gpdSecurityFrameCounter &&& 0xFF) % 256,
     ((param.gpdSecurityFrameCounter >>> 8) &&& 0xFF) % 256,
     ((param.gpdSecurityFrameCounter >>> 16) &&& 0xFF) % 256,
     ((param.gpdSecurityFrameCounter >>> 24) &&& 0xFF) % 256,
     param.gpdCommandId % 256,
     param.gpdCommandPayloadLength % 256]
  if 15 + param.gpdCommandPayloadLength ≤ messageLength then do
    let payload ← readBytes param.gpdCommandPayload 0 param.gpdCommandPayloadLength
    let msgCopy := (header ++ payload).take messageLength
    let lastHopLqi := param.packetInfo.last_hop_lqi
    let sourceId := (param.addr.sourceId &&& 0xffff) % 65536
    pure [Event.incomingMessage SL_ZIGBEE_INCOMING_UNICAST apsFrame lastHopLqi sourceId msgCopy]
  else none

/-- Lines 795-828 and the call of the rest.  `tsfn` tells whether the thread-safe
callback is set, `param` is the pointer (`none` for null).  The enumeration values
`SL_ZIGBEE_GP_APPLICATION_IEEE_ADDRESS` and `SL_ZIGBEE_INCOMING_UNICAST` are declared
in SDK headers outside the source tree and are taken as parameters. -/
def sl_zigbee_ezsp_gpep_incoming_message_handler
    (SL_ZIGBEE_GP_APPLICATION_IEEE_ADDRESS SL_ZIGBEE_INCOMING_UNICAST : Nat)
    (tsfn : Bool) (param : Option sl_zigbee_gp_params_t) : Option (List Event) :=
  match tsfn, param with
  | true, some param =>
    if param.addr.applicationId = SL_ZIGBEE_GP_APPLICATION_IEEE_ADDRESS then pure []
    else if param.gpdCommandId = 0xe0 then
      -- commissioning
      if param.gpdCommandPayloadLength = 0 then pure []
      else
        gpepEmit SL_ZIGBEE_INCOMING_UNICAST param 0x04
          (((param.addr.applicationId &&& 0x7) ||| ((param.bidirectionalInfo &&& 0x1) <<< 3)
            ||| ((param.gpdfSecurityLevel &&& 0x3) <<< 4)
            ||| ((param.gpdfSecurityKeyType &&& 0x7) <<< 6)) % 65536)
    else
      gpepEmit SL_ZIGBEE_INCOMING_UNICAST param 0x00
        (((param.addr.applicationId &&& 0x7) ||| ((param.gpdfSecurityLevel &&& 0x3) <<< 6)
          ||| ((param.gpdfSecurityKeyType &&& 0x7) <<< 8)
          ||| ((param.bidirectionalInfo &&& 0x1) <<< 11)) % 65536)
  | _, _ => some []

/-- The byte at offset `i` of a buffer, as a `uint8_t`; 0 outside the buffer. -/
def byteAt (mem : List Nat) (i : Nat) : Nat := mem.getD i 0 % 256

/-- The 16-bit value of the two bytes at offsets `i` and `i + 1`, the first least
significant. -/
def le16At (mem : List Nat) (i : Nat) : Nat :=
  HIGH_LOW_TO_INT (byteAt mem (i + 1)) (byteAt mem i)

/-- The `n` bytes of a buffer from offset `off` on. -/
def bytesAt (mem : List Nat) (off n : Nat) : List Nat :=
  ((mem.drop off).take n).map (fun b => b % 256)

/-- The MAC frame control of a frame with the ack-required bit cleared. -/
def macControlOf (mem : List Nat) : Nat :=
  (le16At mem 0 &&& intNot MAC_ACK_REQUIRED) % 65536

/-- The size of the group ID field of a frame whose source PAN ID sits at offset
`hdr`: two bytes when the APS frame control is that of a multicast, else none. -/
def groupSizeAt (mem : List Nat) (hdr : Nat) : Nat :=
  if byteAt mem (hdr + 12) = 0x0F then 2 else 0

/-- The conditions under which the handler accepts a frame whose source PAN ID sits
at offset `hdr`, for the declared length `L`. -/
def InterPanAccepted (L : Nat) (mem : List Nat) (hdr : Nat) : Prop :=
  7 ≤ subU8 L (hdr + 10) ∧
  le16At mem (hdr + 10) = 0x000B ∧
  (byteAt mem (hdr + 12) = 0x03 ∨ byteAt mem (hdr + 12) = 0x0B ∨
    (byteAt mem (hdr + 12) = 0x0F ∧ 9 ≤ subU8 L (hdr + 10))) ∧
  le16At mem (hdr + 13 + groupSizeAt mem hdr) = 0x1000 ∧
  le16At mem (hdr + 15 + groupSizeAt mem hdr) = 0xC05E ∧
  hdr + 17 + groupSizeAt mem hdr + subU8 L (hdr + 17 + groupSizeAt mem hdr) ≤ mem.length

instance (L : Nat) (mem : List Nat) (hdr : Nat) : Decidable (InterPanAccepted L mem hdr) := by
  unfold InterPanAccepted; infer_instance

/-- The event the handler builds from an accepted frame. -/
def touchlinkOf (pkt : sl_zigbee_rx_packet_info_t) (L : Nat) (mem : List Nat) (hdr : Nat) :
    Event :=
  Event.touchlinkMessage (le16At mem hdr) (Eui64ToHexString (bytesAt mem (hdr + 2) 8))
    (if byteAt mem (hdr + 12) = 0x0F then le16At mem (hdr + 13) else 0)
    pkt.last_hop_lqi
    (bytesAt mem (hdr + 17 + groupSizeAt mem hdr) (subU8 L (hdr + 17 + groupSizeAt mem hdr)))

/-- The offset of the source PAN ID: 13 behind a long destination, 7 otherwise. -/
def srcPanOffset (mem : List Nat) : Nat :=
  if macControlOf mem = LONG_DEST_FRAME_CONTROL then 13 else 7

/-- The offset of the APS frame control byte: behind the source PAN ID, the long
source address and the stub NWK frame control. -/
def apsControlOffset (mem : List Nat) : Nat := srcPanOffset mem + 12

/-- One lowercase hexadecimal digit, in the words of the spec ("lowercase hex
digits"). -/
def hexDigitLower (d : Nat) : Char := "0123456789abcdef".toList.getD d '0'

/-- The two-digit lowercase hexadecimal rendering of a byte, zero-padded, in the words
of the spec: the digit of the high four bits, then the digit of the low four bits. -/
def twoHexDigits (b : Nat) : List Char := [hexDigitLower (b / 16), hexDigitLower (b % 16)]


/-- A frame that holds the MAC header of its pattern: the declared length fits one
byte, the buffer holds the declared bytes, and the declared length covers the header
up to and including the long source address. -/
def HoldsMacHeader (L : Nat) (mem : List Nat) : Prop :=
  L < 256 ∧ L ≤ mem.length ∧ 2 ≤ mem.length ∧
  (macControlOf mem = LONG_DEST_FRAME_CONTROL → 23 ≤ L) ∧
  (macControlOf mem = SHORT_DEST_FRAME_CONTROL → 17 ≤ L)

instance (L : Nat) (mem : List Nat) : Decidable (HoldsMacHeader L mem) := by
  unfold HoldsMacHeader; infer_instance

/-! ## Example frames -/

/-- A long-destination Inter-PAN header of 30 bytes: MAC frame control 0xCC01,
sequence number, destination PAN ID and long destination, source PAN ID 0x1234, long
source address, stub NWK frame control, APS frame control 0x03, cluster 0x1000 and
profile 0xC05E. -/
def exampleLongHeader : List Nat :=
  [0x01, 0xCC, 0x55, 0xFF, 0xFF, 1, 2, 3, 4, 5, 6, 7, 8, 0x34, 0x12,
   0x10, 0x21, 0x32, 0x43, 0x54, 0x65, 0x76, 0x87, 0x0B, 0x00, 0x03, 0x00, 0x10, 0x5E, 0xC0]

/-- The header above followed by a payload of one byte: 31 bytes. -/
def exampleLongFrame : List Nat := exampleLongHeader ++ [0xAA]

/-- The header above followed by 248 more bytes. -/
def exampleLongOverrun : List Nat := exampleLongHeader ++ List.replicate 248 0xAA

/-- The fields a Touchlink frame is checked for, laid end to end in nine bytes: MAC
frame control, stub NWK frame control, APS frame control, cluster and profile. -/
def exampleNineBytes : List Nat := [0x01, 0xCC, 0x0B, 0x00, 0x03, 0x00, 0x10, 0x5E, 0xC0]

/-- The packet metadata used with the example frames. -/
def examplePacketInfo : sl_zigbee_rx_packet_info_t := { sender_short_id := 0, last_hop_lqi := 200 }


/-- A long-destination multicast Inter-PAN header of 32 bytes: as the example header,
with APS frame control 0x0F and group ID 0xBEEF before the cluster. -/
def exampleMulticastHeader : List Nat :=
  [0x01, 0xCC, 0x55, 0xFF, 0xFF, 1, 2, 3, 4, 5, 6, 7, 8, 0x34, 0x12,
   0x10, 0x21, 0x32, 0x43, 0x54, 0x65, 0x76, 0x87, 0x0B, 0x00, 0x0F, 0xEF, 0xBE,
   0x00, 0x10, 0x5E, 0xC0]

/-- The example frame with another byte in place of the APS frame control. -/
def exampleFrameWithAps (a : Nat) : List Nat :=
  exampleLongHeader.take 25 ++ a :: exampleLongFrame.drop 26


/-- The example frame with another MAC sequence number and another destination. -/
def exampleLongFrameOtherSeq : List Nat :=
  [0x01, 0xCC, 0x56, 0x34, 0x12, 8, 7, 6, 5, 4, 3, 2, 1] ++ exampleLongFrame.drop 13

/-- An 8-byte address with bytes below 0x10. -/
def exampleEui64 : List Nat := [0x0a, 0x00, 0xff, 0x01, 0x02, 0x03, 0x04, 0x0b]


/-- A commissioning notification (command 0xE0) with a payload of `n` bytes taken
from a buffer of four. -/
def exampleCommissioning (n : Nat) : sl_zigbee_gp_params_t :=
  { addr := { sourceId := 0x01719697, applicationId := 0 }
    sequenceNumber := 0x25
    gpdfSecurityLevel := 2
    gpdfSecurityKeyType := 4
    bidirectionalInfo := 0
    gpdSecurityFrameCounter := 0x00000185
    gpdCommandId := 0xE0
    gpdCommandPayloadLength := n
    gpdCommandPayload := [0x02, 0x85, 0xF2, 0xC9]
    packetInfo := examplePacketInfo }

/-! ## Vocabulary of the statements on the Green Power handler -/

/-- The synthetic APS frame of the spec: profile 0xA1E0, cluster 0x0021, source and
destination endpoint 0xF2, group 0x0B84, sequence 0, options 0, radius 0. -/
def gpApsFrame : sl_zigbee_aps_frame_t :=
  { profileId := 0xA1E0, clusterId := 0x0021, sourceEndpoint := 0xF2,
    destinationEndpoint := 0xF2, options := 0, groupId := 0x0B84, sequence := 0, radius := 0 }

/-- The options of a commissioning notification, in the words of the spec:
applicationId (3 bits), bidirectional (1 bit) shifted by 3, securityLevel (2 bits)
shifted by 4, securityKeyType (3 bits) shifted by 6. -/
def gpOptionsCommissioning (p : sl_zigbee_gp_params_t) : Nat :=
  (p.addr.applicationId &&& 7) ||| ((p.bidirectionalInfo &&& 1) <<< 3)
    ||| ((p.gpdfSecurityLevel &&& 3) <<< 4) ||| ((p.gpdfSecurityKeyType &&& 7) <<< 6)

/-- The options of every other notification, in the words of the spec: applicationId
(3 bits), securityLevel (2 bits) shifted by 6, securityKeyType (3 bits) shifted by 8,
bidirectional (1 bit) shifted by 11. -/
def gpOptionsOther (p : sl_zigbee_gp_params_t) : Nat :=
  (p.addr.applicationId &&& 7) ||| ((p.gpdfSecurityLevel &&& 3) <<< 6)
    ||| ((p.gpdfSecurityKeyType &&& 7) <<< 8) ||| ((p.bidirectionalInfo &&& 1) <<< 11)

/-- The four bytes of a 32-bit value, least significant first. -/
def le32Bytes (x : Nat) : List Nat :=
  [x % 256, x / 256 % 256, x / 65536 % 256, x / 16777216 % 256]

/-- The serialised message of the spec: frame type 0x01, sequence number, command
identifier, options low and high byte, source ID and security frame counter in four
little-endian bytes each, command ID, payload length, then the payload bytes. -/
def gpSerialized (p : sl_zigbee_gp_params_t) (commandIdentifier options : Nat) : List Nat :=
  [0x01, p.sequenceNumber, commandIdentifier, options % 256, options / 256]
    ++ le32Bytes p.addr.sourceId ++ le32Bytes p.gpdSecurityFrameCounter
    ++ [p.gpdCommandId, p.gpdCommandPayloadLength]
    ++ bytesAt p.gpdCommandPayload 0 p.gpdCommandPayloadLength

/-- The members of the parameters lie within their C types: `uint8_t` for the sequence
number, the command ID and the payload length, `uint32_t` for the source ID and the
security frame counter. -/
def GpParamsInRange (p : sl_zigbee_gp_params_t) : Prop :=
  p.sequenceNumber < 256 ∧ p.gpdCommandId < 256 ∧ p.gpdCommandPayloadLength < 256 ∧
  p.addr.sourceId < 4294967296 ∧ p.gpdSecurityFrameCounter < 4294967296

instance (p : sl_zigbee_gp_params_t) : Decidable (GpParamsInRange p) := by
  unfold GpParamsInRange; infer_instance

/-- A notification with command 0x22 and a payload of 241 bytes. -/
def exampleLongPayload : sl_zigbee_gp_params_t :=
  { addr := { sourceId := 0x01719697, applicationId := 0 }
    sequenceNumber := 0x25
    gpdfSecurityLevel := 2
    gpdfSecurityKeyType := 4
    bidirectionalInfo := 0
    gpdSecurityFrameCounter := 0x00000185
    gpdCommandId := 0x22
    gpdCommandPayloadLength := 241
    gpdCommandPayload := List.replicate 241 0x5A
    packetInfo := examplePacketInfo }

/-! ## Process-wide state and the message tag (lines 157-174, 979-1003) -/

/-- The file-scope variables of the binding: whether the thread-safe callback `tsfn`
is set, the flags `initialized` and `tickTimerActive`, and the `uint8_t` counter
`ezspSequenceNumber`. -/
structure Globals where
  tsfn : Bool
  initialized : Bool
  tickTimerActive : Bool
  ezspSequenceNumber : Nat
deriving DecidableEq, Repr

/-- Line 174, `return ((++ezspSequenceNumber) & 0x7F);`: the counter is incremented as
a `uint8_t`, the new value masked to seven bits is returned. -/
def ezspNextSequence (g : Globals) : Globals × Nat :=
  let n := (g.ezspSequenceNumber + 1) % 256
  ({ g with ezspSequenceNumber := n }, (n &&& 0x7F) % 256)

/-- Lines 979-1003.  Without a prior `Init` the function throws (`none`) and touches
nothing.  Otherwise it resets the counter, runs `sl_zigbee_ezsp_init`, whose status is
the argument `initStatus`, starts the tick timer when the status is
`SL_ZIGBEE_EZSP_SUCCESS` (a value declared in an SDK header, taken as a parameter) and
the timer is not active, and returns the status. -/
def Start (SL_ZIGBEE_EZSP_SUCCESS : Nat) (initStatus : Nat) (g : Globals) :
    Globals × Option Nat :=
  if g.initialized = false then (g, none)
  else
    let g := { g with ezspSequenceNumber := 0 }
    let status := initStatus
    let g :=
      if status = SL_ZIGBEE_EZSP_SUCCESS ∧ g.tickTimerActive = false then
        { g with tickTimerActive := true }
      else g
    (g, some status)

/-- The tags returned by `n` successive calls of `ezspNextSequence`, oldest first,
with the globals the last call leaves. -/
def issueTags : Nat → Globals → Globals × List Nat
  | 0, g => (g, [])
  | n + 1, g =>
    let r := ezspNextSequence g
    let rest := issueTags n r.1
    (rest.1, r.2 :: rest.2)

/-! ## `Send` (lines 2204-2303) -/

/-- The values declared in SDK headers outside the source tree that `Send` uses: the
seven outgoing message types, the Green Power endpoint, the APS option bit for the
alias sequence number, the null node ID and the invalid-parameter status. -/
structure SendConstants where
  SL_ZIGBEE_OUTGOING_DIRECT : Nat
  SL_ZIGBEE_OUTGOING_VIA_ADDRESS_TABLE : Nat
  SL_ZIGBEE_OUTGOING_VIA_BINDING : Nat
  SL_ZIGBEE_OUTGOING_MULTICAST : Nat
  SL_ZIGBEE_OUTGOING_MULTICAST_WITH_ALIAS : Nat
  SL_ZIGBEE_OUTGOING_BROADCAST : Nat
  SL_ZIGBEE_OUTGOING_BROADCAST_WITH_ALIAS : Nat
  SL_ZIGBEE_GP_ENDPOINT : Nat
  SL_ZIGBEE_APS_OPTION_USE_ALIAS_SEQUENCE_NUMBER : Nat
  SL_ZIGBEE_NULL_NODE_ID : Nat
  SL_STATUS_INVALID_PARAMETER : Nat
deriving DecidableEq, Repr

/-- The seven case labels of the switch are pairwise different, as C requires of the
labels of one switch. -/
def SendConstants.LabelsDistinct (k : SendConstants) : Prop :=
  [k.SL_ZIGBEE_OUTGOING_VIA_BINDING, k.SL_ZIGBEE_OUTGOING_VIA_ADDRESS_TABLE,
   k.SL_ZIGBEE_OUTGOING_DIRECT, k.SL_ZIGBEE_OUTGOING_MULTICAST,
   k.SL_ZIGBEE_OUTGOING_MULTICAST_WITH_ALIAS, k.SL_ZIGBEE_OUTGOING_BROADCAST,
   k.SL_ZIGBEE_OUTGOING_BROADCAST_WITH_ALIAS].Nodup

instance (k : SendConstants) : Decidable k.LabelsDistinct := by
  unfold SendConstants.LabelsDistinct; infer_instance

/-- A call of one of the three send primitives of the stack, with its arguments in
the order of the C call; `messageContents` is the buffer the pointer leads to, of which
the primitive is told `messageLength` bytes; the trailing pointer `&apsFrame.sequence`
is the place the primitive writes to and is not an input. -/
inductive PrimitiveCall where
  | sl_zigbee_ezsp_send_unicast (type indexOrDestination : Nat)
      (apsFrame : sl_zigbee_aps_frame_t) (messageTag messageLength : Nat)
      (messageContents : List Nat)
  | sl_zigbee_ezsp_send_multicast (apsFrame : sl_zigbee_aps_frame_t)
      (hops nonmemberRadius nwkAlias nwkSequence messageTag messageLength : Nat)
      (messageContents : List Nat)
  | sl_zigbee_ezsp_send_broadcast (nwkAlias destination nwkSequence : Nat)
      (apsFrame : sl_zigbee_aps_frame_t) (radius messageTag messageLength : Nat)
      (messageContents : List Nat)
deriving DecidableEq, Repr

/-- The arguments of a `Send` call once the argument checks of lines 2208-2224 have
passed (a failed check throws before any variable is touched): `info[0]`, `info[1]`,
the APS frame `ApsFrameFromObject` made of `info[2]`, the bytes of the buffer
`info[3]`, `info[4]` and `info[5]`. -/
structure SendArgs where
  type : Nat
  indexOrDestination : Nat
  apsFrame : sl_zigbee_aps_frame_t
  messageBuffer : List Nat
  callerAlias : Nat
  callerSequence : Nat
deriving DecidableEq, Repr

/-- What a `Send` call leaves: the globals, the primitive calls it made in order, the
value it set as `sequence` on the caller's APS frame object (`none` when it set none),
and the two entries `status` and `messageTag` of the returned array. -/
structure SendResult where
  globals : Globals
  calls : List PrimitiveCall
  apsFrameObjSequence : Option Nat
  status : Nat
  messageTag : Nat
deriving DecidableEq, Repr

/-- Lines 2216-2303.  The stack is the function `primitive`: for a call it gives the
status the primitive returns and the value it leaves in `apsFrame.sequence`.  The
conversions to `uint16_t` and `uint8_t` locals are explicit.  Two widths come from
SDK headers outside the source tree: `sl_zigbee_outgoing_message_type_t`, the type of
the local `type`, is a `typedef` of `uint8_t`, and the parameter `messageLength` of the
three primitives is a `uint8_t`, so `info[0]` and `messageBuffer.Length()` are reduced
modulo 256.  The local `status` starts as `SL_STATUS_OK` and is assigned on every path
of the switch, so only the assigned value appears. -/
def Send (k : SendConstants) (primitive : PrimitiveCall → Nat × Nat) (g : Globals)
    (info : SendArgs) : SendResult :=
  let type := info.type % 256
  let indexOrDestination := info.indexOrDestination % 65536
  let apsFrame := info.apsFrame
  let messageBuffer := info.messageBuffer
  let next := ezspNextSequence g
  let g := next.1
  let messageTag := next.2 % 65536
  let nwkRadius := 12 -- ZA_MAX_HOPS
  let nwkAlias := k.SL_ZIGBEE_NULL_NODE_ID
  if type = k.SL_ZIGBEE_OUTGOING_VIA_BINDING ∨ type = k.SL_ZIGBEE_OUTGOING_VIA_ADDRESS_TABLE
      ∨ type = k.SL_ZIGBEE_OUTGOING_DIRECT then
    let call := PrimitiveCall.sl_zigbee_ezsp_send_unicast type indexOrDestination apsFrame
      messageTag (messageBuffer.length % 256) messageBuffer
    let answer := primitive call
    { globals := g, calls := [call], apsFrameObjSequence := some answer.2,
      status := answer.1, messageTag := messageTag }
  else if type = k.SL_ZIGBEE_OUTGOING_MULTICAST
      ∨ type = k.SL_ZIGBEE_OUTGOING_MULTICAST_WITH_ALIAS then
    let sequence := info.callerSequence % 256
    let route : Nat × Nat :=
      if type = k.SL_ZIGBEE_OUTGOING_MULTICAST_WITH_ALIAS ∨
          (apsFrame.sourceEndpoint = k.SL_ZIGBEE_GP_ENDPOINT ∧
            apsFrame.destinationEndpoint = k.SL_ZIGBEE_GP_ENDPOINT ∧
            apsFrame.options &&& k.SL_ZIGBEE_APS_OPTION_USE_ALIAS_SEQUENCE_NUMBER ≠ 0) then
        (apsFrame.radius % 256, info.callerAlias % 65536)
      else (nwkRadius, nwkAlias)
    let call := PrimitiveCall.sl_zigbee_ezsp_send_multicast apsFrame route.1 0 route.2 sequence
      messageTag (messageBuffer.length % 256) messageBuffer
    let answer := primitive call
    { globals := g, calls := [call], apsFrameObjSequence := some answer.2,
      status := answer.1, messageTag := messageTag }
  else if type = k.SL_ZIGBEE_OUTGOING_BROADCAST
      ∨ type = k.SL_ZIGBEE_OUTGOING_BROADCAST_WITH_ALIAS then
    let sequence := info.callerSequence % 256
    let route : Nat × Nat :=
      if type = k.SL_ZIGBEE_OUTGOING_BROADCAST_WITH_ALIAS ∨
          (apsFrame.sourceEndpoint = k.SL_ZIGBEE_GP_ENDPOINT ∧
            apsFrame.destinationEndpoint = k.SL_ZIGBEE_GP_ENDPOINT ∧
            apsFrame.options &&& k.SL_ZIGBEE_APS_OPTION_USE_ALIAS_SEQUENCE_NUMBER ≠ 0) then
        (apsFrame.radius % 256, info.callerAlias % 65536)
      else (nwkRadius, nwkAlias)
    let call := PrimitiveCall.sl_zigbee_ezsp_send_broadcast route.2 indexOrDestination sequence
      apsFrame route.1 messageTag (messageBuffer.length % 256) messageBuffer
    let answer := primitive call
    { globals := g, calls := [call], apsFrameObjSequence := some answer.2,
      status := answer.1, messageTag := messageTag }
  else
    { globals := g, calls := [], apsFrameObjSequence := none,
      status := k.SL_STATUS_INVALID_PARAMETER, messageTag := messageTag }

/-- Example values for the constants of `Send`. -/
def exampleSendConstants : SendConstants :=
  { SL_ZIGBEE_OUTGOING_DIRECT := 0
    SL_ZIGBEE_OUTGOING_VIA_ADDRESS_TABLE := 1
    SL_ZIGBEE_OUTGOING_VIA_BINDING := 2
    SL_ZIGBEE_OUTGOING_MULTICAST := 3
    SL_ZIGBEE_OUTGOING_MULTICAST_WITH_ALIAS := 4
    SL_ZIGBEE_OUTGOING_BROADCAST_WITH_ALIAS := 5
    SL_ZIGBEE_OUTGOING_BROADCAST := 6
    SL_ZIGBEE_GP_ENDPOINT := 0xF2
    SL_ZIGBEE_APS_OPTION_USE_ALIAS_SEQUENCE_NUMBER := 0x1000
    SL_ZIGBEE_NULL_NODE_ID := 0xFFFF
    SL_STATUS_INVALID_PARAMETER := 0x21 }

/-- A stack that accepts every call and numbers the APS frame 0x42. -/
def examplePrimitive : PrimitiveCall → Nat × Nat := fun _ => (0, 0x42)

/-- The globals of a started session before the first `Send`. -/
def exampleGlobals : Globals :=
  { tsfn := true, initialized := true, tickTimerActive := true, ezspSequenceNumber := 0 }

/-- An APS frame outside Green Power (home automation profile, endpoints 1). -/
def exampleApsFrame : sl_zigbee_aps_frame_t :=
  { profileId := 0x0104, clusterId := 0x0006, sourceEndpoint := 1, destinationEndpoint := 1,
    options := 0x0140, groupId := 0, sequence := 0, radius := 30 }

/-- A `Send` call of the given type with the APS frame above. -/
def exampleSendArgs (type : Nat) : SendArgs :=
  { type := type, indexOrDestination := 0xFFFD, apsFrame := exampleApsFrame,
    messageBuffer := [0x01, 0x02, 0x03], callerAlias := 0x1234, callerSequence := 0x17 }

/-- A Direct `Send` call with a payload of 300 bytes. -/
def exampleLongSendArgs : SendArgs :=
  { type := 0, indexOrDestination := 0xFFFD, apsFrame := exampleApsFrame,
    messageBuffer := List.replicate 300 0x5A, callerAlias := 0, callerSequence := 0 }

/-- A `Send` call asks for an alias, in the words of the spec: its type, as the 8-bit
value the dispatcher keeps, is one of the two with-alias types, or its APS frame uses
the Green Power endpoint as source and as destination with the alias-sequence option
bit set. -/
def SendWantsAlias (k : SendConstants) (info : SendArgs) : Prop :=
  (info.type % 256 = k.SL_ZIGBEE_OUTGOING_MULTICAST_WITH_ALIAS ∨
    info.type % 256 = k.SL_ZIGBEE_OUTGOING_BROADCAST_WITH_ALIAS) ∨
  (info.apsFrame.sourceEndpoint = k.SL_ZIGBEE_GP_ENDPOINT ∧
    info.apsFrame.destinationEndpoint = k.SL_ZIGBEE_GP_ENDPOINT ∧
    info.apsFrame.options &&& k.SL_ZIGBEE_APS_OPTION_USE_ALIAS_SEQUENCE_NUMBER ≠ 0)

instance (k : SendConstants) (info : SendArgs) : Decidable (SendWantsAlias k info) := by
  unfold SendWantsAlias; infer_instance

/-- The radius and the alias of the spec for a multicast or broadcast `Send`: those
of the call when it asks for an alias, else 12 and the null node ID. -/
def sendRoute (k : SendConstants) (info : SendArgs) : Nat × Nat :=
  if SendWantsAlias k info then (info.apsFrame.radius % 256, info.callerAlias % 65536)
  else (12, k.SL_ZIGBEE_NULL_NODE_ID)

/-- The type of a `Send` call is one of the seven outgoing message types. -/
def SendTypeRecognised (k : SendConstants) (type : Nat) : Prop :=
  type = k.SL_ZIGBEE_OUTGOING_DIRECT ∨ type = k.SL_ZIGBEE_OUTGOING_VIA_ADDRESS_TABLE ∨
  type = k.SL_ZIGBEE_OUTGOING_VIA_BINDING ∨ type = k.SL_ZIGBEE_OUTGOING_MULTICAST ∨
  type = k.SL_ZIGBEE_OUTGOING_MULTICAST_WITH_ALIAS ∨ type = k.SL_ZIGBEE_OUTGOING_BROADCAST ∨
  type = k.SL_ZIGBEE_OUTGOING_BROADCAST_WITH_ALIAS

instance (k : SendConstants) (type : Nat) : Decidable (SendTypeRecognised k type) := by
  unfold SendTypeRecognised; infer_instance

/-! ## The remaining stack callbacks (lines 488-620, 770-793) -/

/-- One call of the two logging functions of the SDK, in the order the calls are
made. -/
inductive LogCall where
  | sl_zigbee_ezsp_print_elapsed_time
  | ezspDebugPrintf (format : String) (args : List Nat)
deriving DecidableEq, Repr

/-- The three values of `sl_zigbee_ezsp_status_t` the error handler compares with.
They are declared in an SDK header outside the source tree and enter as parameters. -/
structure ErrorCodes where
  SL_ZIGBEE_EZSP_ERROR_SECURITY_PARAMETERS_INVALID : Nat
  SL_ZIGBEE_EZSP_ERROR_OVERFLOW : Nat
  SL_ZIGBEE_EZSP_ERROR_QUEUE_FULL : Nat
deriving DecidableEq, Repr

/-- What one call of the error handler did: the logging calls it made, the final value
of its local `ncpNeedsResetAndInit`, and the events it handed to `tsfn`. -/
structure ErrorHandlerResult where
  log : List LogCall
  ncpNeedsResetAndInit : Bool
  events : List Event
deriving DecidableEq, Repr

/-- Lines 488-526. -/
def sl_zigbee_ezsp_error_handler (k : ErrorCodes) (tsfn : Bool) (status : Nat) :
    ErrorHandlerResult :=
  let log1 :=
    if status ≠ k.SL_ZIGBEE_EZSP_ERROR_QUEUE_FULL then
      [LogCall.sl_zigbee_ezsp_print_elapsed_time,
       LogCall.ezspDebugPrintf "EZSP: ERROR: sl_zigbee_ezsp_error_handler 0x%02X" [status]]
    else []
  let log2 :=
    if status = k.SL_ZIGBEE_EZSP_ERROR_OVERFLOW then
      [LogCall.sl_zigbee_ezsp_print_elapsed_time,
       LogCall.ezspDebugPrintf
         "EZSP: WARNING: the NCP has run out of buffers, causing general malfunction. Remediate network congestion, if present."
         []]
    else []
  let ncpNeedsResetAndInit : Bool :=
    if status ≠ k.SL_ZIGBEE_EZSP_ERROR_SECURITY_PARAMETERS_INVALID ∧
        status ≠ k.SL_ZIGBEE_EZSP_ERROR_OVERFLOW ∧
        status ≠ k.SL_ZIGBEE_EZSP_ERROR_QUEUE_FULL then true
    else false
  let events :=
    if ncpNeedsResetAndInit = true ∧ tsfn = true then [Event.ncpNeedsResetAndInit status]
    else []
  { log := log1 ++ log2, ncpNeedsResetAndInit := ncpNeedsResetAndInit, events := events }

/-- Lines 571-620.  The two loopback values of `sl_zigbee_incoming_message_type_t` are
declared in an SDK header outside the source tree and enter as parameters. -/
def sl_zigbee_ezsp_incoming_message_handler
    (SL_ZIGBEE_INCOMING_BROADCAST_LOOPBACK SL_ZIGBEE_INCOMING_MULTICAST_LOOPBACK : Nat)
    (tsfn : Bool) (type : Nat) (apsFrame : Option sl_zigbee_aps_frame_t)
    (packetInfo : Option sl_zigbee_rx_packet_info_t) (messageLength : Nat)
    (message : Option (List Nat)) : Option (List Event) :=
  match tsfn, apsFrame, packetInfo, message with
  | true, some apsFrame, some packetInfo, some mem =>
    if type ≠ SL_ZIGBEE_INCOMING_BROADCAST_LOOPBACK ∧
        type ≠ SL_ZIGBEE_INCOMING_MULTICAST_LOOPBACK then do
      -- Capture data before async call
      let msgCopy ← readBytes mem 0 messageLength
      let frameCopy := apsFrame
      let packetCopy := packetInfo
      if apsFrame.profileId = 0 then
        -- ZDO
        pure [Event.zdoResponse frameCopy packetCopy.sender_short_id msgCopy]
      else
        -- assumed ZCL
        pure [Event.incomingMessage type frameCopy packetCopy.last_hop_lqi
                packetCopy.sender_short_id msgCopy]
    else some []
  | _, _, _, _ => some []

/-- One effect of `Stop`, in the order of the statements: the two libuv calls, the
assignments to the flags, the ASH shutdown, and the release of `tsfn`. -/
inductive StopEffect where
  | uv_timer_stop
  | uv_close
  | tickTimerActive_false
  | ashStop
  | initialized_false
  | tsfn_Release
deriving DecidableEq, Repr

/-- The globals after `Stop` and the effects of the call, oldest first. -/
structure StopResult where
  globals : Globals
  effects : List StopEffect
deriving DecidableEq, Repr

/-- Lines 1005-1034.  `Stop` assigns nothing to `tsfn`; it calls `tsfn.Release()`, a
member of `Napi::ThreadSafeFunction`, whose code is outside the source tree.  Whether
the handle still tests true after that call is the parameter `handleSetAfterRelease`.
In node-addon-api `Release` is a `const` member that passes the handle to
`napi_release_threadsafe_function` and leaves it as it is, which is the value `true`. -/
def Stop (handleSetAfterRelease : Bool) (g : Globals) : StopResult :=
  -- Stop tick timer
  let (g, e1) :=
    if g.tickTimerActive = true then
      ({ g with tickTimerActive := false },
       [StopEffect.uv_timer_stop, StopEffect.uv_close, StopEffect.tickTimerActive_false])
    else (g, [])
  let (g, e2) :=
    if g.initialized = true then
      -- Stop ASH protocol and cleanup serialPort
      ({ g with initialized := false }, [StopEffect.ashStop, StopEffect.initialized_false])
    else (g, [])
  let (g, e3) :=
    if g.tsfn = true then
      ({ g with tsfn := handleSetAfterRelease }, [StopEffect.tsfn_Release])
    else (g, [])
  { globals := g, effects := e1 ++ e2 ++ e3 }

/-! ## The Event Bridge -/

/-- The UTF-8 encoding of one Unicode scalar value. -/
def utf8Encode (c : Nat) : List Nat :=
  if c < 0x80 then [c]
  else if c < 0x800 then [0xC0 + c / 64, 0x80 + c % 64]
  else if c < 0x10000 then [0xE0 + c / 4096, 0x80 + c / 64 % 64, 0x80 + c % 64]
  else [0xF0 + c / 262144, 0x80 + c / 4096 % 64, 0x80 + c / 64 % 64, 0x80 + c % 64]

/-- The call `hexString.Utf8Value()`: the bytes of the `std::string` that holds the
UTF-8 encoding of the text. -/
def Utf8Value (hexString : String) : List Nat :=
  (hexString.data.map (fun c => utf8Encode c.toNat)).flatten

/-- The C library test `isspace` in the "C" locale: space, and tab to carriage return. -/
def isspace (c : Nat) : Bool := c = 32 ∨ (9 ≤ c ∧ c ≤ 13)

/-- The value of a character as a digit in base 16, as `strtol` reads it: `0`-`9`,
`a`-`f` and `A`-`F`; none for every other character, the terminator included. -/
def hexDigitValue (c : Nat) : Option Nat :=
  if 48 ≤ c ∧ c ≤ 57 then some (c - 48)
  else if 97 ≤ c ∧ c ≤ 102 then some (c - 87)
  else if 65 ≤ c ∧ c ≤ 70 then some (c - 55)
  else none

/-- The digit loop of `strtol` in base 16: it accumulates digits until the first
character that is not one. -/
def strtolDigits16 : Nat → List Nat → Nat
  | acc, [] => acc
  | acc, c :: cs =>
    match hexDigitValue c with
    | some d => strtolDigits16 (acc * 16 + d) cs
    | none => acc

/-- The C library call `strtol(s, nullptr, 16)` on a zero-terminated string too short
to leave the range of `long`: white space is skipped, then come an optional sign, an
optional `0x` or `0X` when a digit follows it, and the digits; without a digit the
value is 0. -/
def strtol16 (s : List Nat) : Int :=
  let s := s.dropWhile isspace
  let signed : Bool × List Nat :=
    match s with
    | [] => (false, s)
    | c :: t => if c = 45 then (true, t) else if c = 43 then (false, t) else (false, s)
  let s :=
    match signed.2 with
    | z :: x :: d :: t =>
      if z = 48 ∧ (x = 120 ∨ x = 88) ∧ (hexDigitValue d).isSome = true then d :: t
      else signed.2
    | _ => signed.2
  let v : Int := (strtolDigits16 0 s : Nat)
  if signed.1 = true then -v else v

/-- Lines 253-272.  The result `false` is `none`; the result `true` is `some` of the
eight cells written to `eui64`.  Cell `i` is the `uint8_t` of the `strtol` value of the
two characters at offset `2 + (14 - i * 2)`. -/
def Eui64FromHexString (hexString : String) : Option (List Nat) :=
  let str := Utf8Value hexString
  -- Expected format: "0x" + 16 hex chars
  if str.length ≠ 18 ∨ str.getD 0 0 ≠ '0'.toNat ∨ str.getD 1 0 ≠ 'x'.toNat then none
  else
    -- Parse in reverse order (little-endian)
    some ((List.range 8).map (fun i =>
      let hexByte := 2 + (14 - i * 2)
      let temp := [str.getD hexByte 0, str.getD (hexByte + 1) 0, 0]
      (strtol16 temp % 256).toNat))

/-- A lowercase hexadecimal digit, in the words of the spec. -/
def IsLowerHexDigit (c : Char) : Prop := c ∈ "0123456789abcdef".toList

instance (c : Char) : Decidable (IsLowerHexDigit c) := by
  unfold IsLowerHexDigit; infer_instance

/-- A string in the format of the documentation of `Eui64FromHexString`: `0x`
followed by exactly 16 hexadecimal digits, of either case. -/
def IsEui64Text (s : String) : Prop :=
  s.data.length = 18 ∧ s.data.take 2 = ['0', 'x'] ∧
    ∀ c ∈ s.data.drop 2, c ∈ "0123456789abcdefABCDEF".toList

instance (s : String) : Decidable (IsEui64Text s) := by
  unfold IsEui64Text; infer_instance

/-- A string that is `0x` followed by exactly 16 lowercase hexadecimal digits. -/
def IsLowerEui64Text (s : String) : Prop :=
  s.data.length = 18 ∧ s.data.take 2 = ['0', 'x'] ∧ ∀ c ∈ s.data.drop 2, IsLowerHexDigit c

instance (s : String) : Decidable (IsLowerEui64Text s) := by
  unfold IsLowerEui64Text; infer_instance

/-- The `uint8_t` that `Eui64FromHexString` stores for the two characters `hi`, `lo`:
the value of `(uint8_t)strtol(temp, nullptr, 16)` for `temp = {hi, lo, 0}`. -/
def parsedByte (hi lo : Nat) : Nat := (strtol16 [hi, lo, 0] % 256).toNat

/-! ## Examples and vocabulary for the callbacks -/

/-- The three codes are pairwise different, as enumerators of one C enumeration with
different values are. -/
def ErrorCodes.Distinct (k : ErrorCodes) : Prop :=
  k.SL_ZIGBEE_EZSP_ERROR_SECURITY_PARAMETERS_INVALID ≠ k.SL_ZIGBEE_EZSP_ERROR_OVERFLOW ∧
  k.SL_ZIGBEE_EZSP_ERROR_SECURITY_PARAMETERS_INVALID ≠ k.SL_ZIGBEE_EZSP_ERROR_QUEUE_FULL ∧
  k.SL_ZIGBEE_EZSP_ERROR_OVERFLOW ≠ k.SL_ZIGBEE_EZSP_ERROR_QUEUE_FULL

instance (k : ErrorCodes) : Decidable k.Distinct := by
  unfold ErrorCodes.Distinct; infer_instance

/-- An assignment of three different values to the codes. -/
def exampleErrorCodes : ErrorCodes :=
  { SL_ZIGBEE_EZSP_ERROR_SECURITY_PARAMETERS_INVALID := 0x45
    SL_ZIGBEE_EZSP_ERROR_OVERFLOW := 0x34
    SL_ZIGBEE_EZSP_ERROR_QUEUE_FULL := 0x41 }

/-- The logging calls of the error entry for a status. -/
def errorEntry (status : Nat) : List LogCall :=
  [LogCall.sl_zigbee_ezsp_print_elapsed_time,
   LogCall.ezspDebugPrintf "EZSP: ERROR: sl_zigbee_ezsp_error_handler 0x%02X" [status]]

/-- The logging calls of the congestion warning. -/
def congestionWarning : List LogCall :=
  [LogCall.sl_zigbee_ezsp_print_elapsed_time,
   LogCall.ezspDebugPrintf
     "EZSP: WARNING: the NCP has run out of buffers, causing general malfunction. Remediate network congestion, if present."
     []]

/-- A ZDO response frame (profile 0) and a payload of four bytes. -/
def exampleZdoFrame : sl_zigbee_aps_frame_t :=
  { profileId := 0, clusterId := 0x8031, sourceEndpoint := 0, destinationEndpoint := 0,
    options := 0x0100, groupId := 0, sequence := 0x21, radius := 0 }

/-- The offset of the payload of a frame: behind the source PAN ID, the long source
address, the stub NWK frame control, the APS frame control, the group ID when the
frame is a multicast, the cluster ID and the profile ID. -/
def payloadOffsetAt (mem : List Nat) : Nat :=
  srcPanOffset mem + 17 + groupSizeAt mem (srcPanOffset mem)

/-! ## Reading the buffer -/

set_option maxRecDepth 100000
theorem readU8_bind {β : Type} (mem : List Nat) (i : Nat) (k : Nat → Option β) :
    (readU8 mem i).bind k = if i < mem.length then k (byteAt mem i) else none := by
  unfold readU8 byteAt
  by_cases h : i < mem.length
  · simp [h, List.getD, List.getElem?_eq_getElem]
  · simp [h, List.getD, List.getElem?_eq_none (not_lt.mp h)]

theorem readBytes_bind {β : Type} (mem : List Nat) (off n : Nat) (k : List Nat → Option β) :
    (readBytes mem off n).bind k =
      if off + n ≤ mem.length then k (bytesAt mem off n) else none := by
  unfold readBytes bytesAt
  split <;> simp

theorem interPanTail_eq (pkt : sl_zigbee_rx_packet_info_t) (L : Nat) (mem : List Nat)
    (panId : Nat) (la : List Nat) (g f : Nat) (hf : f + 4 < 256) :
    interPanTail pkt L mem panId la g f =
      if f + 2 ≤ mem.length then
        if le16At mem f = 0x1000 then
          if f + 4 ≤ mem.length then
            if le16At mem (f + 2) = 0xC05E then
              if f + 4 + subU8 L (f + 4) ≤ mem.length then
                some [Event.touchlinkMessage panId (Eui64ToHexString la) g pkt.last_hop_lqi
                        (bytesAt mem (f + 4) (subU8 L (f + 4)))]
              else none
            else some []
          else none
        else some []
      else none := by
  unfold interPanTail
  simp only [Option.bind_eq_bind, readU8_bind, readBytes_bind, Option.pure_def, le16At]
  have e : (f + 2 + 2) % 256 = f + 4 := by omega
  simp only [e]
  split_ifs <;> first | rfl | (exfalso; omega) | simp_all

theorem byteAt_lt (mem : List Nat) (i : Nat) : byteAt mem i < 256 := Nat.mod_lt _ (by norm_num)

theorem apsFrameControl_cases : ∀ a, a < 256 →
    ((a = 0x03 ∨ a = 0x0B) ∧
      ¬ (a &&& intNot INTERPAN_APS_FRAME_DELIVERY_MODE_MASK &&& intNot INTERPAN_APS_FRAME_SECURITY
          ≠ INTERPAN_APS_FRAME_CONTROL_NO_DELIVERY_MODE) ∧
      ¬ (a &&& INTERPAN_APS_FRAME_SECURITY ≠ 0) ∧
      ((a &&& INTERPAN_APS_FRAME_DELIVERY_MODE_MASK) % 256 = SL_ZIGBEE_AF_INTER_PAN_UNICAST ∨
        (a &&& INTERPAN_APS_FRAME_DELIVERY_MODE_MASK) % 256 = SL_ZIGBEE_AF_INTER_PAN_BROADCAST)) ∨
    (a = 0x0F ∧
      ¬ (a &&& intNot INTERPAN_APS_FRAME_DELIVERY_MODE_MASK &&& intNot INTERPAN_APS_FRAME_SECURITY
          ≠ INTERPAN_APS_FRAME_CONTROL_NO_DELIVERY_MODE) ∧
      ¬ (a &&& INTERPAN_APS_FRAME_SECURITY ≠ 0) ∧
      ¬ ((a &&& INTERPAN_APS_FRAME_DELIVERY_MODE_MASK) % 256 = SL_ZIGBEE_AF_INTER_PAN_UNICAST ∨
        (a &&& INTERPAN_APS_FRAME_DELIVERY_MODE_MASK) % 256 = SL_ZIGBEE_AF_INTER_PAN_BROADCAST) ∧
      (a &&& INTERPAN_APS_FRAME_DELIVERY_MODE_MASK) % 256 = SL_ZIGBEE_AF_INTER_PAN_MULTICAST) ∨
    ((a ≠ 0x03 ∧ a ≠ 0x0B ∧ a ≠ 0x0F) ∧
      ((a &&& intNot INTERPAN_APS_FRAME_DELIVERY_MODE_MASK &&& intNot INTERPAN_APS_FRAME_SECURITY
          ≠ INTERPAN_APS_FRAME_CONTROL_NO_DELIVERY_MODE) ∨
       (a &&& INTERPAN_APS_FRAME_SECURITY ≠ 0) ∨
       (¬ ((a &&& INTERPAN_APS_FRAME_DELIVERY_MODE_MASK) % 256 = SL_ZIGBEE_AF_INTER_PAN_UNICAST ∨
          (a &&& INTERPAN_APS_FRAME_DELIVERY_MODE_MASK) % 256 = SL_ZIGBEE_AF_INTER_PAN_BROADCAST) ∧
        ¬ (a &&& INTERPAN_APS_FRAME_DELIVERY_MODE_MASK) % 256 = SL_ZIGBEE_AF_INTER_PAN_MULTICAST))) := by
  decide

theorem interPanAps_eq (pkt : sl_zigbee_rx_packet_info_t) (L : Nat) (mem : List Nat)
    (panId : Nat) (la : List Nat) (f rem : Nat) :
    interPanAps pkt L mem panId la f rem =
      if f + 1 ≤ mem.length then
        if byteAt mem f = 0x03 ∨ byteAt mem f = 0x0B then
          if rem < 5 then some [] else interPanTail pkt L mem panId la 0 (f + 1)
        else if byteAt mem f = 0x0F then
          if rem < 7 then some []
          else if f + 3 ≤ mem.length then
            interPanTail pkt L mem panId la (le16At mem (f + 1)) (f + 3)
          else none
        else some []
      else none := by
  unfold interPanAps
  simp only [Option.bind_eq_bind, readU8_bind, Option.pure_def, le16At]
  by_cases hlen : f < mem.length
  swap
  · rw [if_neg hlen, if_neg (show ¬ f + 1 ≤ mem.length by omega)]
  rw [if_pos hlen, if_pos (show f + 1 ≤ mem.length by omega)]
  rcases apsFrameControl_cases (byteAt mem f) (byteAt_lt mem f) with
    ⟨h, c1, c2, c3⟩ | ⟨h, c1, c2, c3, c4⟩ | ⟨⟨h3, hB, hF⟩, c⟩
  · rw [if_neg c1, if_neg c2, if_pos c3, if_pos h]
    simp only [INTERPAN_APS_UNICAST_SIZE]
    split_ifs <;> rfl
  · have h' : ¬ (byteAt mem f = 0x03 ∨ byteAt mem f = 0x0B) := by rw [h]; decide
    rw [if_neg c1, if_neg c2, if_neg c3, if_pos c4, if_neg h', if_pos h]
    simp only [INTERPAN_APS_MULTICAST_SIZE]
    split_ifs <;> first | rfl | omega
  · have h' : ¬ (byteAt mem f = 0x03 ∨ byteAt mem f = 0x0B) := by
      rintro (h | h)
      · exact h3 h
      · exact hB h
    rw [if_neg h', if_neg hF]
    by_cases c1 : (byteAt mem f &&& intNot INTERPAN_APS_FRAME_DELIVERY_MODE_MASK
        &&& intNot INTERPAN_APS_FRAME_SECURITY ≠ INTERPAN_APS_FRAME_CONTROL_NO_DELIVERY_MODE)
    · rw [if_pos c1]
    rw [if_neg c1]
    by_cases c2 : byteAt mem f &&& INTERPAN_APS_FRAME_SECURITY ≠ 0
    · rw [if_pos c2]
    rw [if_neg c2]
    rcases c with c | c | ⟨c3, c4⟩
    · exact absurd c c1
    · exact absurd c c2
    · rw [if_neg c3, if_neg c4]
      rfl

theorem interPanStub_eq (pkt : sl_zigbee_rx_packet_info_t) (L : Nat) (mem : List Nat) (f : Nat) :
    interPanStub pkt L mem f =
      if f + 10 ≤ mem.length then
        if subU8 L (f + 10) < 7 then some []
        else if f + 12 ≤ mem.length then
          if le16At mem (f + 10) = 0x000B then
            interPanAps pkt L mem (le16At mem f) (bytesAt mem (f + 2) 8) (f + 12)
              (subU8 (subU8 L (f + 10)) 2)
          else some []
        else none
      else none := by
  unfold interPanStub
  simp only [Option.bind_eq_bind, readU8_bind, readBytes_bind, Option.pure_def, le16At,
    STUB_NWK_SIZE, MIN_STUB_APS_SIZE, INTERPAN_APS_UNICAST_SIZE, STUB_NWK_FRAME_CONTROL,
    Nat.add_assoc, Nat.reduceAdd]
  split_ifs <;> first | rfl | omega


theorem handler_eq (pkt : sl_zigbee_rx_packet_info_t) (L : Nat) (mem : List Nat) :
    sl_zigbee_ezsp_mac_filter_match_message_handler true (some pkt) L (some mem) =
      if 2 ≤ mem.length then
        if macControlOf mem = LONG_DEST_FRAME_CONTROL then interPanStub pkt L mem 13
        else if macControlOf mem = SHORT_DEST_FRAME_CONTROL then interPanStub pkt L mem 7
        else some []
      else none := by
  unfold sl_zigbee_ezsp_mac_filter_match_message_handler
  simp only [Option.bind_eq_bind, readU8_bind, Option.pure_def, macControlOf, le16At,
    Nat.zero_add, Nat.reduceAdd]
  split_ifs <;> first | rfl | omega


theorem interPanTail_emits_iff (pkt : sl_zigbee_rx_packet_info_t) (L : Nat) (mem : List Nat)
    (panId : Nat) (la : List Nat) (g f : Nat) (hf : f + 4 < 256) (e : Event) (es : List Event) :
    interPanTail pkt L mem panId la g f = some (e :: es) ↔
      le16At mem f = 0x1000 ∧ le16At mem (f + 2) = 0xC05E ∧
      f + 4 + subU8 L (f + 4) ≤ mem.length ∧
      e = Event.touchlinkMessage panId (Eui64ToHexString la) g pkt.last_hop_lqi
            (bytesAt mem (f + 4) (subU8 L (f + 4))) ∧ es = [] := by
  rw [interPanTail_eq _ _ _ _ _ _ _ hf]
  constructor
  · intro h
    split_ifs at h with h1 h2 h3 h4 h5
    · simp only [Option.some.injEq, List.cons.injEq] at h
      exact ⟨h2, h4, h5, h.1.symm, h.2.symm⟩
    all_goals simp at h
  · rintro ⟨h2, h4, h5, rfl, rfl⟩
    rw [if_pos (show f + 2 ≤ mem.length by omega), if_pos h2,
      if_pos (show f + 4 ≤ mem.length by omega), if_pos h4, if_pos h5]

theorem interPanAps_emits_iff (pkt : sl_zigbee_rx_packet_info_t) (L : Nat) (mem : List Nat)
    (panId : Nat) (la : List Nat) (f rem : Nat) (hf : f + 7 < 256) (e : Event) (es : List Event) :
    interPanAps pkt L mem panId la f rem = some (e :: es) ↔
      ((byteAt mem f = 0x03 ∨ byteAt mem f = 0x0B) ∧ 5 ≤ rem ∧
        interPanTail pkt L mem panId la 0 (f + 1) = some (e :: es)) ∨
      (byteAt mem f = 0x0F ∧ 7 ≤ rem ∧
        interPanTail pkt L mem panId la (le16At mem (f + 1)) (f + 3) = some (e :: es)) := by
  rw [interPanAps_eq]
  constructor
  · intro h
    split_ifs at h with h1 h2 h3 h4 h5 h6
    · simp at h
    · exact Or.inl ⟨h2, by omega, h⟩
    · simp at h
    · exact Or.inr ⟨h4, by omega, h⟩
    all_goals simp at h
  · rintro (⟨h2, h3, h⟩ | ⟨h4, h5, h⟩)
    · have hl : f + 1 ≤ mem.length := by
        rw [interPanTail_eq _ _ _ _ _ _ _ (by omega)] at h
        split_ifs at h <;> omega
      rw [if_pos hl, if_pos h2, if_neg (show ¬ rem < 5 by omega)]
      exact h
    · have hl : f + 3 ≤ mem.length := by
        rw [interPanTail_eq _ _ _ _ _ _ _ (by omega)] at h
        split_ifs at h <;> omega
      have h2 : ¬ (byteAt mem f = 0x03 ∨ byteAt mem f = 0x0B) := by omega
      rw [if_pos (show f + 1 ≤ mem.length by omega), if_neg h2, if_pos h4,
        if_neg (show ¬ rem < 7 by omega), if_pos hl]
      exact h


theorem groupSizeAt_of_multicast {mem : List Nat} {hdr : Nat} (h : byteAt mem (hdr + 12) = 0x0F) :
    groupSizeAt mem hdr = 2 := by
  unfold groupSizeAt; rw [if_pos h]

theorem groupSizeAt_of_not_multicast {mem : List Nat} {hdr : Nat}
    (h : ¬ byteAt mem (hdr + 12) = 0x0F) : groupSizeAt mem hdr = 0 := by
  unfold groupSizeAt; rw [if_neg h]

theorem interPanStub_emits_iff (pkt : sl_zigbee_rx_packet_info_t) (L : Nat) (mem : List Nat)
    (hdr : Nat) (hhdr : hdr ≤ 13) (e : Event) (es : List Event) :
    interPanStub pkt L mem hdr = some (e :: es) ↔
      InterPanAccepted L mem hdr ∧ e = touchlinkOf pkt L mem hdr ∧ es = [] := by
  rw [interPanStub_eq]
  constructor
  · intro h
    split_ifs at h with h1 h2 h3 h4
    · simp at h
    · rw [interPanAps_emits_iff _ _ _ _ _ _ _ (by omega)] at h
      rcases h with ⟨hA, hrem, ht⟩ | ⟨hF, hrem, ht⟩
      · rw [interPanTail_emits_iff _ _ _ _ _ _ _ (by omega)] at ht
        obtain ⟨hc, hp, hl, he, hes⟩ := ht
        have hnF : ¬ byteAt mem (hdr + 12) = 0x0F := by omega
        have hg := groupSizeAt_of_not_multicast hnF
        refine ⟨⟨by omega, h4, ?_, ?_, ?_, ?_⟩, ?_, hes⟩
        · omega
        · rw [hg]; exact hc
        · rw [hg]; exact hp
        · rw [hg]; exact hl
        · unfold touchlinkOf; rw [hg, if_neg hnF]; exact he
      · rw [interPanTail_emits_iff _ _ _ _ _ _ _ (by omega)] at ht
        obtain ⟨hc, hp, hl, he, hes⟩ := ht
        have hg := groupSizeAt_of_multicast hF
        have hrem9 : 9 ≤ subU8 L (hdr + 10) := by
          unfold subU8 at hrem h2 ⊢; omega
        refine ⟨⟨by omega, h4, Or.inr (Or.inr ⟨hF, hrem9⟩), ?_, ?_, ?_⟩, ?_, hes⟩
        · rw [hg]; exact hc
        · rw [hg]; exact hp
        · rw [hg]; exact hl
        · unfold touchlinkOf; rw [hg, if_pos hF]; exact he
    all_goals simp at h
  · rintro ⟨⟨h7, hn, ha, hc, hp, hl⟩, he, hes⟩
    have hlen : hdr + 17 ≤ mem.length := by omega
    rw [if_pos (show hdr + 10 ≤ mem.length by omega), if_neg (show ¬ subU8 L (hdr + 10) < 7 by omega),
      if_pos (show hdr + 12 ≤ mem.length by omega), if_pos hn,
      interPanAps_emits_iff _ _ _ _ _ _ _ (by omega)]
    have hrem : subU8 (subU8 L (hdr + 10)) 2 + 2 = subU8 L (hdr + 10) := by
      unfold subU8 at h7 ⊢; omega
    by_cases hF : byteAt mem (hdr + 12) = 0x0F
    · have hg := groupSizeAt_of_multicast hF
      rw [hg] at hc hp hl
      have h9 : 9 ≤ subU8 L (hdr + 10) := by omega
      refine Or.inr ⟨hF, by omega, ?_⟩
      rw [interPanTail_emits_iff _ _ _ _ _ _ _ (by omega)]
      refine ⟨hc, hp, hl, ?_, hes⟩
      rw [he]; unfold touchlinkOf; rw [hg, if_pos hF]
    · have hg := groupSizeAt_of_not_multicast hF
      rw [hg] at hc hp hl
      refine Or.inl ⟨by omega, by omega, ?_⟩
      rw [interPanTail_emits_iff _ _ _ _ _ _ _ (by omega)]
      refine ⟨hc, hp, hl, ?_, hes⟩
      rw [he]; unfold touchlinkOf; rw [hg, if_neg hF]

theorem handler_emits_iff (pkt : sl_zigbee_rx_packet_info_t) (L : Nat) (mem : List Nat)
    (e : Event) (es : List Event) :
    sl_zigbee_ezsp_mac_filter_match_message_handler true (some pkt) L (some mem) = some (e :: es) ↔
      ((macControlOf mem = LONG_DEST_FRAME_CONTROL ∧ InterPanAccepted L mem 13 ∧
          e = touchlinkOf pkt L mem 13) ∨
       (macControlOf mem = SHORT_DEST_FRAME_CONTROL ∧ InterPanAccepted L mem 7 ∧
          e = touchlinkOf pkt L mem 7)) ∧ es = [] := by
  have hne : LONG_DEST_FRAME_CONTROL ≠ SHORT_DEST_FRAME_CONTROL := by decide
  rw [handler_eq]
  constructor
  · intro h
    split_ifs at h with h1 h2 h3
    · rw [interPanStub_emits_iff _ _ _ _ (by omega)] at h
      exact ⟨Or.inl ⟨h2, h.1, h.2.1⟩, h.2.2⟩
    · rw [interPanStub_emits_iff _ _ _ _ (by omega)] at h
      exact ⟨Or.inr ⟨h3, h.1, h.2.1⟩, h.2.2⟩
    all_goals simp at h
  · rintro ⟨⟨hm, ha, he⟩ | ⟨hm, ha, he⟩, hes⟩
    · have hl : 2 ≤ mem.length := by
        have := ha.2.2.2.2.2; omega
      rw [if_pos hl, if_pos hm, interPanStub_emits_iff _ _ _ _ (by omega)]
      exact ⟨ha, he, hes⟩
    · have hl : 2 ≤ mem.length := by
        have := ha.2.2.2.2.2; omega
      rw [if_pos hl, if_neg (by rw [hm]; exact fun h => hne h.symm), if_pos hm,
        interPanStub_emits_iff _ _ _ _ (by omega)]
      exact ⟨ha, he, hes⟩

/-! ## The handler returns on frames that hold their MAC header -/

theorem interPanTail_returns (pkt : sl_zigbee_rx_packet_info_t) (L : Nat) (mem : List Nat)
    (panId : Nat) (la : List Nat) (g f : Nat) (hf : f + 4 ≤ L) (hL : L < 256)
    (hbuf : L ≤ mem.length) : ∃ es, interPanTail pkt L mem panId la g f = some es := by
  rw [interPanTail_eq _ _ _ _ _ _ _ (by omega)]
  have hp : f + 4 + subU8 L (f + 4) ≤ mem.length := by unfold subU8; omega
  rw [if_pos (show f + 2 ≤ mem.length by omega), if_pos (show f + 4 ≤ mem.length by omega),
    if_pos hp]
  split_ifs <;> exact ⟨_, rfl⟩

theorem interPanAps_returns (pkt : sl_zigbee_rx_packet_info_t) (L : Nat) (mem : List Nat)
    (panId : Nat) (la : List Nat) (f rem : Nat) (hf : f < L) (hrem : rem = L - f)
    (hL : L < 256) (hbuf : L ≤ mem.length) :
    ∃ es, interPanAps pkt L mem panId la f rem = some es := by
  rw [interPanAps_eq, if_pos (show f + 1 ≤ mem.length by omega)]
  split_ifs with h1 h2 h3 h4 h5
  · exact ⟨_, rfl⟩
  · exact interPanTail_returns _ _ _ _ _ _ _ (by omega) hL hbuf
  · exact ⟨_, rfl⟩
  · exact interPanTail_returns _ _ _ _ _ _ _ (by omega) hL hbuf
  · omega
  · exact ⟨_, rfl⟩

theorem interPanStub_returns (pkt : sl_zigbee_rx_packet_info_t) (L : Nat) (mem : List Nat)
    (hdr : Nat) (hhdr : hdr + 10 ≤ L) (hL : L < 256) (hbuf : L ≤ mem.length) :
    ∃ es, interPanStub pkt L mem hdr = some es := by
  rw [interPanStub_eq, if_pos (show hdr + 10 ≤ mem.length by omega)]
  have h1 : subU8 L (hdr + 10) = L - (hdr + 10) := by unfold subU8; omega
  by_cases h7 : subU8 L (hdr + 10) < 7
  · rw [if_pos h7]; exact ⟨_, rfl⟩
  rw [if_neg h7, if_pos (show hdr + 12 ≤ mem.length by omega)]
  split_ifs
  · exact interPanAps_returns _ _ _ _ _ _ _ (by omega) (by unfold subU8 at *; omega) hL hbuf
  · exact ⟨_, rfl⟩

theorem handler_returns (tsfn : Bool) (pi : Option sl_zigbee_rx_packet_info_t) (L : Nat)
    (mem : List Nat) (hwf : HoldsMacHeader L mem) :
    ∃ es, sl_zigbee_ezsp_mac_filter_match_message_handler tsfn pi L (some mem) = some es := by
  obtain ⟨hL, hbuf, h2, hlong, hshort⟩ := hwf
  cases tsfn
  · exact ⟨_, rfl⟩
  cases pi with
  | none => exact ⟨_, rfl⟩
  | some pkt =>
    rw [handler_eq, if_pos h2]
    split_ifs with h3 h4
    · exact interPanStub_returns _ _ _ _ (by have := hlong h3; omega) hL hbuf
    · exact interPanStub_returns _ _ _ _ (by have := hshort h4; omega) hL hbuf
    · exact ⟨_, rfl⟩

theorem handler_emits_available (tsfn : Bool) (pi : Option sl_zigbee_rx_packet_info_t) (L : Nat)
    (mc : Option (List Nat)) (e : Event) (es : List Event)
    (h : sl_zigbee_ezsp_mac_filter_match_message_handler tsfn pi L mc = some (e :: es)) :
    tsfn = true ∧ ∃ pkt mem, pi = some pkt ∧ mc = some mem := by
  cases tsfn
  · simp [sl_zigbee_ezsp_mac_filter_match_message_handler] at h
  cases pi with
  | none => simp [sl_zigbee_ezsp_mac_filter_match_message_handler] at h
  | some pkt =>
    cases mc with
    | none => simp [sl_zigbee_ezsp_mac_filter_match_message_handler] at h
    | some mem => exact ⟨rfl, pkt, mem, rfl, rfl⟩

/-- With a frame that holds its MAC header the handler returns, with the event of
the frame when it accepts it and with no event otherwise. -/
theorem handler_no_event_of_not_accepted (tsfn : Bool) (pi : Option sl_zigbee_rx_packet_info_t)
    (L : Nat) (mem : List Nat) (hwf : HoldsMacHeader L mem)
    (hna : ¬ ((macControlOf mem = LONG_DEST_FRAME_CONTROL ∧ InterPanAccepted L mem 13) ∨
              (macControlOf mem = SHORT_DEST_FRAME_CONTROL ∧ InterPanAccepted L mem 7))) :
    sl_zigbee_ezsp_mac_filter_match_message_handler tsfn pi L (some mem) = some [] := by
  obtain ⟨es, hes⟩ := handler_returns tsfn pi L mem hwf
  cases es with
  | nil => exact hes
  | cons e es =>
    exfalso
    obtain ⟨rfl, pkt, mem1, rfl, hm⟩ := handler_emits_available _ _ _ _ _ _ hes
    rw [handler_emits_iff] at hes
    rcases hes.1 with ⟨h1, h2, _⟩ | ⟨h1, h2, _⟩
    · exact hna (Or.inl ⟨h1, h2⟩)
    · exact hna (Or.inr ⟨h1, h2⟩)

/-! ## The layout of an accepted frame -/

theorem srcPanOffset_long {mem : List Nat} (h : macControlOf mem = LONG_DEST_FRAME_CONTROL) :
    srcPanOffset mem = 13 := by
  unfold srcPanOffset; rw [if_pos h]

theorem srcPanOffset_short {mem : List Nat} (h : macControlOf mem = SHORT_DEST_FRAME_CONTROL) :
    srcPanOffset mem = 7 := by
  unfold srcPanOffset
  rw [if_neg (by rw [h]; decide)]

theorem handler_emits_layout (tsfn : Bool) (pi : Option sl_zigbee_rx_packet_info_t) (L : Nat)
    (mem : List Nat) (e : Event) (es : List Event)
    (h : sl_zigbee_ezsp_mac_filter_match_message_handler tsfn pi L (some mem) = some (e :: es)) :
    ∃ pkt, tsfn = true ∧ pi = some pkt ∧
      (macControlOf mem = LONG_DEST_FRAME_CONTROL ∨ macControlOf mem = SHORT_DEST_FRAME_CONTROL) ∧
      InterPanAccepted L mem (srcPanOffset mem) ∧
      e = touchlinkOf pkt L mem (srcPanOffset mem) ∧ es = [] := by
  obtain ⟨rfl, pkt, mem1, rfl, hm⟩ := handler_emits_available _ _ _ _ _ _ h
  rw [handler_emits_iff] at h
  obtain ⟨h1, hes⟩ := h
  rcases h1 with ⟨hmac, hacc, he⟩ | ⟨hmac, hacc, he⟩
  · rw [← srcPanOffset_long hmac] at hacc he
    exact ⟨pkt, rfl, rfl, Or.inl hmac, hacc, he, hes⟩
  · rw [← srcPanOffset_short hmac] at hacc he
    exact ⟨pkt, rfl, rfl, Or.inr hmac, hacc, he, hes⟩

theorem handler_no_event_of_not_accepted_layout (tsfn : Bool)
    (pi : Option sl_zigbee_rx_packet_info_t) (L : Nat) (mem : List Nat)
    (hwf : HoldsMacHeader L mem)
    (hna : srcPanOffset mem + 10 ≤ L → ¬ InterPanAccepted L mem (srcPanOffset mem)) :
    sl_zigbee_ezsp_mac_filter_match_message_handler tsfn pi L (some mem) = some [] := by
  apply handler_no_event_of_not_accepted _ _ _ _ hwf
  rintro (⟨hmac, hacc⟩ | ⟨hmac, hacc⟩)
  · rw [← srcPanOffset_long hmac] at hacc
    exact hna (by rw [srcPanOffset_long hmac]; have := hwf.2.2.2.1 hmac; omega) hacc
  · rw [← srcPanOffset_short hmac] at hacc
    exact hna (by rw [srcPanOffset_short hmac]; have := hwf.2.2.2.2 hmac; omega) hacc

theorem srcPanOffset_cases (mem : List Nat) : srcPanOffset mem = 13 ∨ srcPanOffset mem = 7 := by
  unfold srcPanOffset; split_ifs
  · exact Or.inl rfl
  · exact Or.inr rfl

theorem apsFrameControl_rejected : ∀ a, a < 256 →
    (a &&& intNot INTERPAN_APS_FRAME_DELIVERY_MODE_MASK &&& intNot INTERPAN_APS_FRAME_SECURITY
        ≠ INTERPAN_APS_FRAME_CONTROL_NO_DELIVERY_MODE ∨
      a &&& INTERPAN_APS_FRAME_SECURITY ≠ 0 ∨ a = 0x07) →
    ¬ (a = 0x03 ∨ a = 0x0B ∨ a = 0x0F) := by
  decide

/-! ## Claims on the Inter-PAN handler -/

theorem LONG_DEST_FRAME_CONTROL_eq : LONG_DEST_FRAME_CONTROL = 0xCC01 := by decide

theorem SHORT_DEST_FRAME_CONTROL_eq : SHORT_DEST_FRAME_CONTROL = 0xC801 := by decide

theorem bytesAt_length (mem : List Nat) (off n : Nat) (h : off + n ≤ mem.length) :
    (bytesAt mem off n).length = n := by
  unfold bytesAt
  rw [List.length_map, List.length_take, List.length_drop]
  omega

/-- An accepted unicast or broadcast frame, with the event spelled out. -/
theorem handler_accepts_unicast_broadcast (pkt : sl_zigbee_rx_packet_info_t) (L : Nat)
    (mem : List Nat) (hdr : Nat) (hL : L < 256) (hbuf : L ≤ mem.length)
    (hmac : (macControlOf mem = 0xCC01 ∧ hdr = 13) ∨ (macControlOf mem = 0xC801 ∧ hdr = 7))
    (hnwk : le16At mem (hdr + 10) = 0x000B)
    (haps : byteAt mem (hdr + 12) = 0x03 ∨ byteAt mem (hdr + 12) = 0x0B)
    (hcl : le16At mem (hdr + 13) = 0x1000) (hpr : le16At mem (hdr + 15) = 0xC05E)
    (hmin : hdr + 17 ≤ L) :
    sl_zigbee_ezsp_mac_filter_match_message_handler true (some pkt) L (some mem) =
      some [Event.touchlinkMessage (le16At mem hdr) (Eui64ToHexString (bytesAt mem (hdr + 2) 8))
              0 pkt.last_hop_lqi (bytesAt mem (hdr + 17) (L - (hdr + 17)))] := by
  have hnF : ¬ byteAt mem (hdr + 12) = 0x0F := by omega
  have hg : groupSizeAt mem hdr = 0 := groupSizeAt_of_not_multicast hnF
  have hs17 : subU8 L (hdr + 17) = L - (hdr + 17) := by
    unfold subU8; rcases hmac with ⟨_, rfl⟩ | ⟨_, rfl⟩ <;> omega
  have hacc : InterPanAccepted L mem hdr := by
    refine ⟨?_, hnwk, ?_, ?_, ?_, ?_⟩
    · unfold subU8; rcases hmac with ⟨_, rfl⟩ | ⟨_, rfl⟩ <;> omega
    · rcases haps with h | h
      · exact Or.inl h
      · exact Or.inr (Or.inl h)
    · rw [hg]; exact hcl
    · rw [hg]; exact hpr
    · rw [hg, Nat.add_zero, hs17]; omega
  have hev : touchlinkOf pkt L mem hdr =
      Event.touchlinkMessage (le16At mem hdr) (Eui64ToHexString (bytesAt mem (hdr + 2) 8))
        0 pkt.last_hop_lqi (bytesAt mem (hdr + 17) (L - (hdr + 17))) := by
    unfold touchlinkOf
    rw [hg, if_neg hnF, Nat.add_zero, hs17]
  rw [← hev, handler_emits_iff]
  rcases hmac with ⟨hm, rfl⟩ | ⟨hm, rfl⟩
  · exact ⟨Or.inl ⟨by rw [hm]; decide, hacc, rfl⟩, rfl⟩
  · exact ⟨Or.inr ⟨by rw [hm]; decide, hacc, rfl⟩, rfl⟩

/-- C1, refuted as stated: the declared length 22 is below the 30 bytes of a
long-destination header, yet the handler emits an event, built from the bytes that
lie beyond the declared length (the 8-bit remaining length wraps to 255). -/
theorem interPan_short_declared_length_emits :
    macControlOf exampleLongOverrun = 0xCC01 ∧ 22 < 30 ∧
    sl_zigbee_ezsp_mac_filter_match_message_handler true (some examplePacketInfo) 22
        (some exampleLongOverrun) =
      some [Event.touchlinkMessage 0x1234 "0x8776655443322110" 0 200 (List.replicate 248 0xAA)] := by
  decide

/-- C1, as amended: when the declared length covers the MAC header of the frame's
pattern (23 bytes behind a long destination, 17 behind a short one), which the handler
relies on the stack to ensure, and is below the minimum Inter-PAN header length (30,
respectively 24), the handler returns without an event, whatever bytes lie beyond the
declared length. -/
theorem interPan_below_min_header_no_event (tsfn : Bool)
    (packetInfo : Option sl_zigbee_rx_packet_info_t) (messageLength : Nat) (mem : List Nat)
    (hbuf : messageLength ≤ mem.length)
    (h : (macControlOf mem = 0xCC01 ∧ 23 ≤ messageLength ∧ messageLength < 30) ∨
         (macControlOf mem = 0xC801 ∧ 17 ≤ messageLength ∧ messageLength < 24)) :
    sl_zigbee_ezsp_mac_filter_match_message_handler tsfn packetInfo messageLength (some mem)
      = some [] := by
  apply handler_no_event_of_not_accepted
  · refine ⟨by omega, hbuf, by omega, ?_, ?_⟩
    · intro hl
      rcases h with ⟨_, h, _⟩ | ⟨hm, _, _⟩
      · exact h
      · rw [hm] at hl; exact absurd hl (by decide)
    · intro hs
      rcases h with ⟨hm, h, _⟩ | ⟨_, h, _⟩
      · omega
      · exact h
  · rintro (⟨hm, hacc⟩ | ⟨hm, hacc⟩)
    · have h7 := hacc.1
      rcases h with ⟨_, h1, h2⟩ | ⟨hm2, _, _⟩
      · unfold subU8 at h7; omega
      · rw [hm2] at hm; exact absurd hm (by decide)
    · have h7 := hacc.1
      rcases h with ⟨hm2, _, _⟩ | ⟨_, h1, h2⟩
      · rw [hm2] at hm; exact absurd hm (by decide)
      · unfold subU8 at h7; omega

/-- Witness of C1 as amended: the example header with the declared length 25. -/
theorem interPan_below_min_header_no_event_witness :
    sl_zigbee_ezsp_mac_filter_match_message_handler true (some examplePacketInfo) 25
      (some exampleLongFrame) = some [] :=
  interPan_below_min_header_no_event true (some examplePacketInfo) 25 exampleLongFrame
    (by decide) (Or.inl ⟨by decide, by decide, by decide⟩)

/-- C2: a frame of declared length L with the bridge available, MAC frame control
(ack bit cleared) 0xCC01 or 0xC801, stub NWK control 0x000B, APS frame control 0x03 or
0x0B, cluster 0x1000, profile 0xC05E and L at least 30 (long destination) or 24 (short
destination) yields exactly one TouchlinkMessage: its sourcePanId is the little-endian
16-bit value at offset 13 / 7, its sourceAddress the hex rendering of the next 8 bytes,
its groupId 0, its lastHopLqi that of the packet, its payload the bytes from offset
30 / 24 up to L. -/
theorem interPan_touchlink_unicast_broadcast_event (packetInfo : sl_zigbee_rx_packet_info_t)
    (L : Nat) (mem : List Nat) (hdr : Nat) (hL : L < 256) (hbuf : L ≤ mem.length)
    (hmac : (macControlOf mem = 0xCC01 ∧ hdr = 13) ∨ (macControlOf mem = 0xC801 ∧ hdr = 7))
    (hnwk : le16At mem (hdr + 10) = 0x000B)
    (haps : byteAt mem (hdr + 12) = 0x03 ∨ byteAt mem (hdr + 12) = 0x0B)
    (hcl : le16At mem (hdr + 13) = 0x1000) (hpr : le16At mem (hdr + 15) = 0xC05E)
    (hmin : hdr + 17 ≤ L) :
    sl_zigbee_ezsp_mac_filter_match_message_handler true (some packetInfo) L (some mem) =
      some [Event.touchlinkMessage (le16At mem hdr) (Eui64ToHexString (bytesAt mem (hdr + 2) 8))
              0 packetInfo.last_hop_lqi (bytesAt mem (hdr + 17) (L - (hdr + 17)))] :=
  handler_accepts_unicast_broadcast packetInfo L mem hdr hL hbuf hmac hnwk haps hcl hpr hmin

theorem bytesAt_one (mem : List Nat) (off : Nat) (h : off < mem.length) :
    bytesAt mem off 1 = [byteAt mem off] := by
  unfold bytesAt byteAt
  rw [List.drop_eq_getElem_cons h, List.take_succ_cons, List.take_zero, List.map_cons,
    List.map_nil, List.getD_eq_getElem?_getD, List.getElem?_eq_getElem h, Option.getD_some]

/-- C3, refuted as stated.  Nine bytes cannot hold what the scenario lists: on the
nine bytes made of the listed fields the handler reads the source PAN ID at offsets 13
and 14, outside the buffer; and whatever the buffer, no frame of declared length 9 with
the long-destination MAC control yields a TouchlinkMessage with a payload of one
byte. -/
theorem interPan_scenario_nine_bytes_refuted :
    sl_zigbee_ezsp_mac_filter_match_message_handler true (some examplePacketInfo) 9
        (some exampleNineBytes) = none ∧
    ¬ ∃ (pkt : sl_zigbee_rx_packet_info_t) (mem : List Nat) (pan : Nat) (addr : String)
        (g lqi : Nat) (p : List Nat),
        macControlOf mem = 0xCC01 ∧
        sl_zigbee_ezsp_mac_filter_match_message_handler true (some pkt) 9 (some mem) =
          some [Event.touchlinkMessage pan addr g lqi p] ∧
        p.length = 1 := by
  refine ⟨by decide, ?_⟩
  rintro ⟨pkt, mem, pan, addr, g, lqi, p, hmac, hev, hp⟩
  rw [handler_emits_iff] at hev
  rcases hev.1 with ⟨_, hacc, he⟩ | ⟨hm, _, _⟩
  · unfold touchlinkOf at he
    have hpl := (Event.touchlinkMessage.inj he).2.2.2.2
    have hlen := hacc.2.2.2.2.2
    rw [hpl, bytesAt_length _ _ _ hlen] at hp
    unfold groupSizeAt subU8 at hp
    split_ifs at hp <;> omega
  · rw [hmac] at hm; exact absurd hm (by decide)

/-- C3, as amended: a 31-byte raw frame (declared length 31) with the long-destination
MAC control, the stub NWK control 0x000B, APS control 0x03, cluster 0x1000, profile
0xC05E and a payload of one byte yields exactly one TouchlinkMessage, whose payload is
that one byte and whose source address is the hex rendering of the eight address
bytes. -/
theorem interPan_scenario_31_bytes (packetInfo : sl_zigbee_rx_packet_info_t) (mem : List Nat)
    (hlen : mem.length = 31) (hmac : macControlOf mem = 0xCC01)
    (hnwk : le16At mem 23 = 0x000B) (haps : byteAt mem 25 = 0x03)
    (hcl : le16At mem 26 = 0x1000) (hpr : le16At mem 28 = 0xC05E) :
    sl_zigbee_ezsp_mac_filter_match_message_handler true (some packetInfo) 31 (some mem) =
      some [Event.touchlinkMessage (le16At mem 13) (Eui64ToHexString (bytesAt mem 15 8)) 0
              packetInfo.last_hop_lqi [byteAt mem 30]] := by
  rw [handler_accepts_unicast_broadcast packetInfo 31 mem 13 (by decide) (by omega)
    (Or.inl ⟨hmac, rfl⟩) hnwk (Or.inl haps) hcl hpr (by decide)]
  rw [show 31 - (13 + 17) = 1 from rfl, bytesAt_one mem (13 + 17) (by omega)]

/-- Witness of C3 as amended: the example frame of 31 bytes. -/
theorem interPan_scenario_31_bytes_witness :
    sl_zigbee_ezsp_mac_filter_match_message_handler true (some examplePacketInfo) 31
        (some exampleLongFrame) =
      some [Event.touchlinkMessage (le16At exampleLongFrame 13)
              (Eui64ToHexString (bytesAt exampleLongFrame 15 8)) 0
              examplePacketInfo.last_hop_lqi [byteAt exampleLongFrame 30]] ∧
    le16At exampleLongFrame 13 = 0x1234 ∧
    Eui64ToHexString (bytesAt exampleLongFrame 15 8) = "0x8776655443322110" ∧
    byteAt exampleLongFrame 30 = 0xAA :=
  ⟨interPan_scenario_31_bytes examplePacketInfo exampleLongFrame (by decide) (by decide)
      (by decide) (by decide) (by decide) (by decide),
    by decide, by decide, by decide⟩

/-- Witness of C2: the example frame of 31 bytes, long destination. -/
theorem interPan_touchlink_unicast_broadcast_event_witness :
    sl_zigbee_ezsp_mac_filter_match_message_handler true (some examplePacketInfo) 31
        (some exampleLongFrame) =
      some [Event.touchlinkMessage (le16At exampleLongFrame 13)
              (Eui64ToHexString (bytesAt exampleLongFrame (13 + 2) 8)) 0
              examplePacketInfo.last_hop_lqi (bytesAt exampleLongFrame (13 + 17) (31 - (13 + 17)))] :=
  interPan_touchlink_unicast_broadcast_event examplePacketInfo 31 exampleLongFrame 13
    (by decide) (by decide) (Or.inl ⟨by decide, rfl⟩) (by decide) (Or.inl (by decide))
    (by decide) (by decide) (by decide)

/-! ### The MAC frame control -/

theorem byteAt_congr {mem mem2 : List Nat} (hd : mem.drop 2 = mem2.drop 2) {i : Nat}
    (hi : 2 ≤ i) : byteAt mem i = byteAt mem2 i := by
  unfold byteAt
  have h1 : mem.getD i 0 = (mem.drop 2).getD (i - 2) 0 := by
    rw [List.getD_eq_getElem?_getD, List.getD_eq_getElem?_getD, List.getElem?_drop]
    congr 2; omega
  have h2 : mem2.getD i 0 = (mem2.drop 2).getD (i - 2) 0 := by
    rw [List.getD_eq_getElem?_getD, List.getD_eq_getElem?_getD, List.getElem?_drop]
    congr 2; omega
  rw [h1, h2, hd]

theorem le16At_congr {mem mem2 : List Nat} (hd : mem.drop 2 = mem2.drop 2) {i : Nat}
    (hi : 2 ≤ i) : le16At mem i = le16At mem2 i := by
  unfold le16At
  rw [byteAt_congr hd hi, byteAt_congr hd (show 2 ≤ i + 1 by omega)]

theorem bytesAt_congr {mem mem2 : List Nat} (hd : mem.drop 2 = mem2.drop 2) {off : Nat}
    (ho : 2 ≤ off) (n : Nat) : bytesAt mem off n = bytesAt mem2 off n := by
  unfold bytesAt
  have h1 : mem.drop off = (mem.drop 2).drop (off - 2) := by
    rw [List.drop_drop]; congr 1; omega
  have h2 : mem2.drop off = (mem2.drop 2).drop (off - 2) := by
    rw [List.drop_drop]; congr 1; omega
  rw [h1, h2, hd]

theorem interPanTail_congr {mem mem2 : List Nat} (hd : mem.drop 2 = mem2.drop 2)
    (hl : mem.length = mem2.length) (pkt : sl_zigbee_rx_packet_info_t) (L panId : Nat)
    (la : List Nat) (g f : Nat) (hf : 2 ≤ f) (hf4 : f + 4 < 256) :
    interPanTail pkt L mem panId la g f = interPanTail pkt L mem2 panId la g f := by
  rw [interPanTail_eq _ _ _ _ _ _ _ hf4, interPanTail_eq _ _ _ _ _ _ _ hf4, hl,
    le16At_congr hd hf, le16At_congr hd (show 2 ≤ f + 2 by omega),
    bytesAt_congr hd (show 2 ≤ f + 4 by omega)]

theorem interPanAps_congr {mem mem2 : List Nat} (hd : mem.drop 2 = mem2.drop 2)
    (hl : mem.length = mem2.length) (pkt : sl_zigbee_rx_packet_info_t) (L panId : Nat)
    (la : List Nat) (f rem : Nat) (hf : 2 ≤ f) (hf7 : f + 7 < 256) :
    interPanAps pkt L mem panId la f rem = interPanAps pkt L mem2 panId la f rem := by
  rw [interPanAps_eq, interPanAps_eq, hl, byteAt_congr hd hf,
    le16At_congr hd (show 2 ≤ f + 1 by omega),
    interPanTail_congr hd hl _ _ _ _ _ (f + 1) (by omega) (by omega),
    interPanTail_congr hd hl _ _ _ _ _ (f + 3) (by omega) (by omega)]

theorem interPanStub_congr {mem mem2 : List Nat} (hd : mem.drop 2 = mem2.drop 2)
    (hl : mem.length = mem2.length) (pkt : sl_zigbee_rx_packet_info_t) (L hdr : Nat)
    (hf : 2 ≤ hdr) (hf7 : hdr ≤ 13) :
    interPanStub pkt L mem hdr = interPanStub pkt L mem2 hdr := by
  rw [interPanStub_eq, interPanStub_eq, hl, le16At_congr hd hf,
    le16At_congr hd (show 2 ≤ hdr + 10 by omega), bytesAt_congr hd (show 2 ≤ hdr + 2 by omega),
    interPanAps_congr hd hl _ _ _ _ (hdr + 12) _ (by omega) (by omega)]

theorem handler_congr_mac (tsfn : Bool) (pi : Option sl_zigbee_rx_packet_info_t) (L : Nat)
    (mem mem2 : List Nat) (hd : mem.drop 2 = mem2.drop 2) (hl : mem.length = mem2.length)
    (h : macControlOf mem = macControlOf mem2) :
    sl_zigbee_ezsp_mac_filter_match_message_handler tsfn pi L (some mem) =
      sl_zigbee_ezsp_mac_filter_match_message_handler tsfn pi L (some mem2) := by
  cases tsfn
  · rfl
  cases pi with
  | none => rfl
  | some pkt =>
    rw [handler_eq, handler_eq, hl, h, interPanStub_congr hd hl pkt L 13 (by omega) (by omega),
      interPanStub_congr hd hl pkt L 7 (by omega) (by omega)]

theorem handler_other_mac_control (tsfn : Bool) (pi : Option sl_zigbee_rx_packet_info_t)
    (L : Nat) (mem : List Nat) (hlen : 2 ≤ mem.length)
    (h1 : macControlOf mem ≠ 0xCC01) (h2 : macControlOf mem ≠ 0xC801) :
    sl_zigbee_ezsp_mac_filter_match_message_handler tsfn pi L (some mem) = some [] := by
  cases tsfn
  · rfl
  cases pi with
  | none => rfl
  | some pkt =>
    rw [handler_eq, if_pos hlen, if_neg (by rw [LONG_DEST_FRAME_CONTROL_eq]; exact h1),
      if_neg (by rw [SHORT_DEST_FRAME_CONTROL_eq]; exact h2)]

theorem le16At_lt (mem : List Nat) (i : Nat) : le16At mem i < 65536 := by
  unfold le16At HIGH_LOW_TO_INT
  exact Nat.mod_lt _ (by norm_num)

theorem macControlOf_source_mode (mem : List Nat) :
    macControlOf mem &&& MAC_FRAME_SOURCE_MODE_LONG = le16At mem 0 &&& MAC_FRAME_SOURCE_MODE_LONG := by
  unfold macControlOf
  have hle : le16At mem 0 &&& intNot MAC_ACK_REQUIRED ≤ le16At mem 0 := Nat.and_le_left
  have hlt := le16At_lt mem 0
  rw [Nat.mod_eq_of_lt (by omega), Nat.land_assoc]
  have hc : intNot MAC_ACK_REQUIRED &&& MAC_FRAME_SOURCE_MODE_LONG = MAC_FRAME_SOURCE_MODE_LONG := by
    decide
  rw [hc]

/-- C4: the outcome depends on the MAC frame control only through its value with the
ack-required bit cleared.  Two frames that differ in nothing but the two frame control
bytes and have the same masked value have the same outcome; when the masked value is
neither 0xCC01 nor 0xC801 the handler returns without an event; in particular it does
so for every frame whose source addressing mode is short. -/
theorem interPan_mac_control_masked :
    (∀ (tsfn : Bool) (packetInfo : Option sl_zigbee_rx_packet_info_t) (L b0 b1 c0 c1 : Nat)
        (rest : List Nat),
        macControlOf (b0 :: b1 :: rest) = macControlOf (c0 :: c1 :: rest) →
        sl_zigbee_ezsp_mac_filter_match_message_handler tsfn packetInfo L (some (b0 :: b1 :: rest))
          = sl_zigbee_ezsp_mac_filter_match_message_handler tsfn packetInfo L
              (some (c0 :: c1 :: rest))) ∧
    (∀ (tsfn : Bool) (packetInfo : Option sl_zigbee_rx_packet_info_t) (L : Nat) (mem : List Nat),
        2 ≤ mem.length → macControlOf mem ≠ 0xCC01 → macControlOf mem ≠ 0xC801 →
        sl_zigbee_ezsp_mac_filter_match_message_handler tsfn packetInfo L (some mem) = some []) ∧
    (∀ (tsfn : Bool) (packetInfo : Option sl_zigbee_rx_packet_info_t) (L : Nat) (mem : List Nat),
        2 ≤ mem.length →
        le16At mem 0 &&& MAC_FRAME_SOURCE_MODE_LONG = MAC_FRAME_SOURCE_MODE_SHORT →
        sl_zigbee_ezsp_mac_filter_match_message_handler tsfn packetInfo L (some mem) = some []) := by
  refine ⟨?_, ?_, ?_⟩
  · intro tsfn pi L b0 b1 c0 c1 rest h
    exact handler_congr_mac tsfn pi L _ _ rfl rfl h
  · intro tsfn pi L mem hlen h1 h2
    exact handler_other_mac_control tsfn pi L mem hlen h1 h2
  · intro tsfn pi L mem hlen hs
    have hm := macControlOf_source_mode mem
    rw [hs] at hm
    apply handler_other_mac_control tsfn pi L mem hlen
    · intro h; rw [h] at hm; exact absurd hm (by decide)
    · intro h; rw [h] at hm; exact absurd hm (by decide)

/-- Witness of C4: the example frame with the ack-required bit set and cleared, a
frame with an unknown frame control, and one with a short source address. -/
theorem interPan_mac_control_masked_witness :
    sl_zigbee_ezsp_mac_filter_match_message_handler true (some examplePacketInfo) 31
        (some (0x21 :: 0xCC :: exampleLongFrame.drop 2)) =
      sl_zigbee_ezsp_mac_filter_match_message_handler true (some examplePacketInfo) 31
        (some (0x01 :: 0xCC :: exampleLongFrame.drop 2)) ∧
    sl_zigbee_ezsp_mac_filter_match_message_handler true (some examplePacketInfo) 31
        (some (0x03 :: 0xCC :: exampleLongFrame.drop 2)) = some [] ∧
    sl_zigbee_ezsp_mac_filter_match_message_handler true (some examplePacketInfo) 31
        (some (0x01 :: 0x8C :: exampleLongFrame.drop 2)) = some [] :=
  ⟨interPan_mac_control_masked.1 true (some examplePacketInfo) 31 0x21 0xCC 0x01 0xCC
      (exampleLongFrame.drop 2) (by decide),
    interPan_mac_control_masked.2.1 true (some examplePacketInfo) 31
      (0x03 :: 0xCC :: exampleLongFrame.drop 2) (by decide) (by decide) (by decide),
    interPan_mac_control_masked.2.2 true (some examplePacketInfo) 31
      (0x01 :: 0x8C :: exampleLongFrame.drop 2) (by decide) (by decide)⟩

/-! ### The APS header -/

/-- C5: the handler emits an event only if the APS frame control byte is exactly
0x03, 0x0B or 0x0F.  A byte whose value with the delivery-mode bits (0x0C) and the
security bit (0x20) cleared differs from 0x03, a byte with the security bit set, and
the byte 0x07 (delivery mode 0x04) yield no event; on a frame that holds its MAC
header the handler then returns with no event. -/
theorem interPan_aps_frame_control (tsfn : Bool)
    (packetInfo : Option sl_zigbee_rx_packet_info_t) (L : Nat) (mem : List Nat) :
    (∀ e es, sl_zigbee_ezsp_mac_filter_match_message_handler tsfn packetInfo L (some mem)
          = some (e :: es) →
        byteAt mem (apsControlOffset mem) = 0x03 ∨ byteAt mem (apsControlOffset mem) = 0x0B ∨
          byteAt mem (apsControlOffset mem) = 0x0F) ∧
    ((byteAt mem (apsControlOffset mem) &&& intNot INTERPAN_APS_FRAME_DELIVERY_MODE_MASK
          &&& intNot INTERPAN_APS_FRAME_SECURITY ≠ 0x03 ∨
        byteAt mem (apsControlOffset mem) &&& INTERPAN_APS_FRAME_SECURITY ≠ 0 ∨
        byteAt mem (apsControlOffset mem) = 0x07) →
      (∀ es, sl_zigbee_ezsp_mac_filter_match_message_handler tsfn packetInfo L (some mem)
          = some es → es = []) ∧
      (HoldsMacHeader L mem →
        sl_zigbee_ezsp_mac_filter_match_message_handler tsfn packetInfo L (some mem)
          = some [])) := by
  have key : ∀ e es, sl_zigbee_ezsp_mac_filter_match_message_handler tsfn packetInfo L (some mem)
      = some (e :: es) →
      byteAt mem (apsControlOffset mem) = 0x03 ∨ byteAt mem (apsControlOffset mem) = 0x0B ∨
        byteAt mem (apsControlOffset mem) = 0x0F := by
    intro e es h
    obtain ⟨pkt, _, _, _, hacc, _, _⟩ := handler_emits_layout _ _ _ _ _ _ h
    rcases hacc.2.2.1 with h3 | hB | ⟨hF, _⟩
    · exact Or.inl h3
    · exact Or.inr (Or.inl hB)
    · exact Or.inr (Or.inr hF)
  refine ⟨key, fun hbad => ?_⟩
  have hrej := apsFrameControl_rejected _ (byteAt_lt mem (apsControlOffset mem)) hbad
  refine ⟨?_, ?_⟩
  · intro es h
    cases es with
    | nil => rfl
    | cons e es => exact absurd (key e es h) hrej
  · intro hwf
    apply handler_no_event_of_not_accepted_layout _ _ _ _ hwf
    intro _ hacc
    apply hrej
    rcases hacc.2.2.1 with h3 | hB | ⟨hF, _⟩
    · exact Or.inl h3
    · exact Or.inr (Or.inl hB)
    · exact Or.inr (Or.inr hF)

/-- Witness of C5: the example frame is accepted with its APS frame control 0x03,
and returns without an event once that byte is 0x23 (security bit) or 0x07. -/
theorem interPan_aps_frame_control_witness :
    byteAt exampleLongFrame (apsControlOffset exampleLongFrame) = 0x03 ∧
    sl_zigbee_ezsp_mac_filter_match_message_handler true (some examplePacketInfo) 31
        (some (exampleFrameWithAps 0x23)) = some [] ∧
    sl_zigbee_ezsp_mac_filter_match_message_handler true (some examplePacketInfo) 31
        (some (exampleFrameWithAps 0x07)) = some [] :=
  ⟨by decide,
    ((interPan_aps_frame_control true (some examplePacketInfo) 31 (exampleFrameWithAps 0x23)).2
      (Or.inr (Or.inl (by decide)))).2 (by decide),
    ((interPan_aps_frame_control true (some examplePacketInfo) 31 (exampleFrameWithAps 0x07)).2
      (Or.inr (Or.inr (by decide)))).2 (by decide)⟩

/-- C6: for a multicast frame, one that holds an APS frame control byte 0x0F within
its declared length, the handler returns without an event unless at least 7 bytes
remain counting from the APS frame control byte; whenever an event is emitted for a
frame with APS frame control 0x0F its groupId is the little-endian 16-bit value of the
two bytes right after the APS frame control, and the cluster 0x1000 and the profile
0xC05E are the four bytes after the group ID; for a unicast or broadcast frame the
emitted groupId is 0.  The declared length is a `uint8_t` and the buffer holds the
declared bytes. -/
theorem interPan_multicast_group_id (tsfn : Bool)
    (packetInfo : Option sl_zigbee_rx_packet_info_t) (L : Nat) (mem : List Nat) :
    (L < 256 → L ≤ mem.length → apsControlOffset mem < L →
      byteAt mem (apsControlOffset mem) = 0x0F → L < apsControlOffset mem + 7 →
      sl_zigbee_ezsp_mac_filter_match_message_handler tsfn packetInfo L (some mem) = some []) ∧
    (∀ e es, sl_zigbee_ezsp_mac_filter_match_message_handler tsfn packetInfo L (some mem)
          = some (e :: es) →
      (byteAt mem (apsControlOffset mem) = 0x0F →
        (∃ pan addr lqi payload,
          e = Event.touchlinkMessage pan addr (le16At mem (apsControlOffset mem + 1)) lqi payload) ∧
        le16At mem (apsControlOffset mem + 3) = 0x1000 ∧
        le16At mem (apsControlOffset mem + 5) = 0xC05E) ∧
      (byteAt mem (apsControlOffset mem) = 0x03 ∨ byteAt mem (apsControlOffset mem) = 0x0B →
        ∃ pan addr lqi payload, e = Event.touchlinkMessage pan addr 0 lqi payload)) := by
  unfold apsControlOffset
  refine ⟨?_, ?_⟩
  · intro hL hbuf hholds hF hlt
    have hwf : HoldsMacHeader L mem := by
      refine ⟨hL, hbuf, by omega, fun hm => ?_, fun hm => ?_⟩
      · rw [srcPanOffset_long hm] at hholds; omega
      · rw [srcPanOffset_short hm] at hholds; omega
    apply handler_no_event_of_not_accepted_layout _ _ _ _ hwf
    intro hhdr hacc
    have h9 : 9 ≤ subU8 L (srcPanOffset mem + 10) := by
      rcases hacc.2.2.1 with h | h | ⟨_, h⟩
      · omega
      · omega
      · exact h
    have hL := hwf.1
    unfold subU8 at h9
    rcases srcPanOffset_cases mem with h | h <;> rw [h] at h9 hlt hhdr <;> omega
  · intro e es h
    obtain ⟨pkt, _, _, _, hacc, he, _⟩ := handler_emits_layout _ _ _ _ _ _ h
    refine ⟨?_, ?_⟩
    · intro hF
      have hg := groupSizeAt_of_multicast hF
      obtain ⟨_, _, _, hc, hp, _⟩ := hacc
      rw [hg] at hc hp
      refine ⟨?_, hc, hp⟩
      rw [he]; unfold touchlinkOf; rw [if_pos hF]
      exact ⟨_, _, _, _, rfl⟩
    · intro hU
      have hnF : ¬ byteAt mem (srcPanOffset mem + 12) = 0x0F := by omega
      rw [he]; unfold touchlinkOf; rw [if_neg hnF]
      exact ⟨_, _, _, _, rfl⟩

/-- Witness of C6: the multicast header with one payload byte is accepted with its
group ID 0xBEEF; with the declared length 31 it yields no event. -/
theorem interPan_multicast_group_id_witness :
    sl_zigbee_ezsp_mac_filter_match_message_handler true (some examplePacketInfo) 31
        (some (exampleMulticastHeader ++ [0xBB])) = some [] ∧
    ((∃ pan addr lqi payload,
        Event.touchlinkMessage 0x1234 "0x8776655443322110" 0xBEEF 200 [0xBB] =
          Event.touchlinkMessage pan addr
            (le16At (exampleMulticastHeader ++ [0xBB])
              (apsControlOffset (exampleMulticastHeader ++ [0xBB]) + 1)) lqi payload) ∧
      le16At (exampleMulticastHeader ++ [0xBB])
        (apsControlOffset (exampleMulticastHeader ++ [0xBB]) + 3) = 0x1000 ∧
      le16At (exampleMulticastHeader ++ [0xBB])
        (apsControlOffset (exampleMulticastHeader ++ [0xBB]) + 5) = 0xC05E) :=
  ⟨(interPan_multicast_group_id true (some examplePacketInfo) 31
      (exampleMulticastHeader ++ [0xBB])).1 (by decide) (by decide) (by decide) (by decide)
      (by decide),
    ((interPan_multicast_group_id true (some examplePacketInfo) 33
      (exampleMulticastHeader ++ [0xBB])).2
        (Event.touchlinkMessage 0x1234 "0x8776655443322110" 0xBEEF 200 [0xBB]) []
        (by decide)).1 (by decide)⟩

/-! ### Stub NWK control, cluster and profile -/

/-- C7: every TouchlinkMessage the handler emits comes from a frame whose 2-byte stub
NWK frame control, right after the 8-byte source address, is 0x000B, whose cluster ID is
0x1000 and whose profile ID is 0xC05E; a frame that fails one of the three checks yields
no event, and when it holds its MAC header the handler returns with no event. -/
theorem interPan_touchlink_constants (tsfn : Bool)
    (packetInfo : Option sl_zigbee_rx_packet_info_t) (L : Nat) (mem : List Nat) :
    (∀ e es, sl_zigbee_ezsp_mac_filter_match_message_handler tsfn packetInfo L (some mem)
          = some (e :: es) →
      (∃ pan addr g lqi payload, e = Event.touchlinkMessage pan addr g lqi payload) ∧
      le16At mem (srcPanOffset mem + 2 + 8) = 0x000B ∧
      le16At mem (srcPanOffset mem + 13 + groupSizeAt mem (srcPanOffset mem)) = 0x1000 ∧
      le16At mem (srcPanOffset mem + 15 + groupSizeAt mem (srcPanOffset mem)) = 0xC05E) ∧
    ((le16At mem (srcPanOffset mem + 2 + 8) ≠ 0x000B ∨
        le16At mem (srcPanOffset mem + 13 + groupSizeAt mem (srcPanOffset mem)) ≠ 0x1000 ∨
        le16At mem (srcPanOffset mem + 15 + groupSizeAt mem (srcPanOffset mem)) ≠ 0xC05E) →
      (∀ es, sl_zigbee_ezsp_mac_filter_match_message_handler tsfn packetInfo L (some mem)
          = some es → es = []) ∧
      (HoldsMacHeader L mem →
        sl_zigbee_ezsp_mac_filter_match_message_handler tsfn packetInfo L (some mem)
          = some [])) := by
  have key : ∀ e es, sl_zigbee_ezsp_mac_filter_match_message_handler tsfn packetInfo L (some mem)
      = some (e :: es) →
      (∃ pan addr g lqi payload, e = Event.touchlinkMessage pan addr g lqi payload) ∧
      le16At mem (srcPanOffset mem + 2 + 8) = 0x000B ∧
      le16At mem (srcPanOffset mem + 13 + groupSizeAt mem (srcPanOffset mem)) = 0x1000 ∧
      le16At mem (srcPanOffset mem + 15 + groupSizeAt mem (srcPanOffset mem)) = 0xC05E := by
    intro e es h
    obtain ⟨pkt, _, _, _, hacc, he, _⟩ := handler_emits_layout _ _ _ _ _ _ h
    refine ⟨?_, hacc.2.1, hacc.2.2.2.1, hacc.2.2.2.2.1⟩
    rw [he]; unfold touchlinkOf
    exact ⟨_, _, _, _, _, rfl⟩
  refine ⟨key, fun hbad => ⟨?_, ?_⟩⟩
  · intro es h
    cases es with
    | nil => rfl
    | cons e es =>
      obtain ⟨_, h1, h2, h3⟩ := key e es h
      rcases hbad with hb | hb | hb
      · exact absurd h1 hb
      · exact absurd h2 hb
      · exact absurd h3 hb
  · intro hwf
    apply handler_no_event_of_not_accepted_layout _ _ _ _ hwf
    intro _ hacc
    rcases hbad with hb | hb | hb
    · exact hb hacc.2.1
    · exact hb hacc.2.2.2.1
    · exact hb hacc.2.2.2.2.1

/-- Witness of C7: the example frame with the cluster 0x1001 in place of 0x1000
yields no event. -/
theorem interPan_touchlink_constants_witness :
    sl_zigbee_ezsp_mac_filter_match_message_handler true (some examplePacketInfo) 31
        (some (exampleLongHeader.take 26 ++ 0x01 :: exampleLongFrame.drop 27)) = some [] :=
  ((interPan_touchlink_constants true (some examplePacketInfo) 31
      (exampleLongHeader.take 26 ++ 0x01 :: exampleLongFrame.drop 27)).2
    (Or.inr (Or.inl (by decide)))).2 (by decide)

/-! ## Claims on `Eui64ToHexString` -/

theorem fmt02x_eq_twoHexDigits : ∀ v, v < 256 → fmt02x v = twoHexDigits v := by
  decide

theorem eui64Byte_lt (a : List Nat) (i : Nat) : eui64Byte a i < 256 :=
  Nat.mod_lt _ (by norm_num)

theorem Eui64ToHexString_eq (a : List Nat) :
    Eui64ToHexString a =
      String.mk (['0', 'x'] ++ twoHexDigits (eui64Byte a 7) ++ twoHexDigits (eui64Byte a 6)
        ++ twoHexDigits (eui64Byte a 5) ++ twoHexDigits (eui64Byte a 4)
        ++ twoHexDigits (eui64Byte a 3) ++ twoHexDigits (eui64Byte a 2)
        ++ twoHexDigits (eui64Byte a 1) ++ twoHexDigits (eui64Byte a 0)) := by
  unfold Eui64ToHexString
  simp only [fmt02x_eq_twoHexDigits _ (eui64Byte_lt a _)]
  rfl

theorem eui64Byte_of_lt (a : List Nat) (i : Nat) (hi : i < a.length) (hb : ∀ b ∈ a, b < 256) :
    eui64Byte a i = a.getD i 0 := by
  unfold eui64Byte
  apply Nat.mod_eq_of_lt
  rw [List.getD_eq_getElem?_getD, List.getElem?_eq_getElem hi, Option.getD_some]
  exact hb _ (List.getElem_mem hi)

/-- C9: for every 8-byte address a, Eui64ToHexString yields exactly the 18
characters "0x" followed by the two-digit lowercase hexadecimal rendering, zero-padded,
of a[7], a[6], ..., a[0] in that order, and no other character. -/
theorem Eui64ToHexString_renders (a : List Nat) (hlen : a.length = 8)
    (hbytes : ∀ b ∈ a, b < 256) :
    Eui64ToHexString a =
      String.mk (['0', 'x'] ++ twoHexDigits (a.getD 7 0) ++ twoHexDigits (a.getD 6 0)
        ++ twoHexDigits (a.getD 5 0) ++ twoHexDigits (a.getD 4 0)
        ++ twoHexDigits (a.getD 3 0) ++ twoHexDigits (a.getD 2 0)
        ++ twoHexDigits (a.getD 1 0) ++ twoHexDigits (a.getD 0 0)) ∧
    (Eui64ToHexString a).length = 18 ∧
    ∀ c ∈ (Eui64ToHexString a).toList.drop 2, c ∈ "0123456789abcdef".toList := by
  have h := Eui64ToHexString_eq a
  rw [eui64Byte_of_lt a 7 (by omega) hbytes, eui64Byte_of_lt a 6 (by omega) hbytes,
    eui64Byte_of_lt a 5 (by omega) hbytes, eui64Byte_of_lt a 4 (by omega) hbytes,
    eui64Byte_of_lt a 3 (by omega) hbytes, eui64Byte_of_lt a 2 (by omega) hbytes,
    eui64Byte_of_lt a 1 (by omega) hbytes, eui64Byte_of_lt a 0 (by omega) hbytes] at h
  refine ⟨h, ?_, ?_⟩
  · rw [h]; rfl
  · rw [h]
    have hd : ∀ d, d < 16 → hexDigitLower d ∈ "0123456789abcdef".toList := by decide
    have hb : ∀ i, a.getD i 0 < 256 := by
      intro i
      rw [List.getD_eq_getElem?_getD]
      by_cases hi : i < a.length
      · rw [List.getElem?_eq_getElem hi, Option.getD_some]
        exact hbytes _ (List.getElem_mem hi)
      · rw [List.getElem?_eq_none (not_lt.mp hi), Option.getD_none]
        norm_num
    intro c hc
    simp only [twoHexDigits, String.toList, List.cons_append, List.nil_append, List.drop_succ_cons,
      List.drop_zero, List.mem_cons, List.mem_singleton, List.not_mem_nil, or_false] at hc
    rcases hc with h | h | h | h | h | h | h | h | h | h | h | h | h | h | h | h <;> rw [h] <;>
      first
      | exact hd _ (Nat.div_lt_of_lt_mul (hb _))
      | exact hd _ (Nat.mod_lt _ (by norm_num))

/-- Witness of C9: an address with bytes below 0x10 is zero-padded. -/
theorem Eui64ToHexString_renders_witness :
    Eui64ToHexString exampleEui64 = "0x0b04030201ff000a" ∧
    (Eui64ToHexString exampleEui64).length = 18 :=
  ⟨(Eui64ToHexString_renders exampleEui64 (by decide) (by decide)).1.trans (by decide),
    (Eui64ToHexString_renders exampleEui64 (by decide) (by decide)).2.1⟩

/-! ### What the decoded fields determine -/

theorem hexDigitLower_injective : ∀ d1, d1 < 16 → ∀ d2, d2 < 16 →
    hexDigitLower d1 = hexDigitLower d2 → d1 = d2 := by
  decide

theorem twoHexDigits_injective (x y : Nat) (hx : x < 256) (hy : y < 256)
    (h : twoHexDigits x = twoHexDigits y) : x = y := by
  unfold twoHexDigits at h
  simp only [List.cons.injEq, and_true] at h
  have h1 := hexDigitLower_injective _ (Nat.div_lt_of_lt_mul hx) _ (Nat.div_lt_of_lt_mul hy) h.1
  have h2 := hexDigitLower_injective _ (Nat.mod_lt _ (by norm_num)) _ (Nat.mod_lt _ (by norm_num)) h.2
  omega

theorem Eui64ToHexString_injective (a b : List Nat)
    (h : Eui64ToHexString a = Eui64ToHexString b) :
    ∀ i, i < 8 → eui64Byte a i = eui64Byte b i := by
  rw [Eui64ToHexString_eq, Eui64ToHexString_eq] at h
  have hl : _ = _ := congrArg String.data h
  simp only [twoHexDigits, List.cons_append, List.nil_append, List.cons.injEq, and_true] at hl
  obtain ⟨-, -, a7, b7, a6, b6, a5, b5, a4, b4, a3, b3, a2, b2, a1, b1, a0, b0⟩ := hl
  have inj : ∀ x y, x < 256 → y < 256 → hexDigitLower (x / 16) = hexDigitLower (y / 16) →
      hexDigitLower (x % 16) = hexDigitLower (y % 16) → x = y := by
    intro x y hx hy e1 e2
    apply twoHexDigits_injective x y hx hy
    unfold twoHexDigits; rw [e1, e2]
  intro i hi
  interval_cases i
  · exact inj _ _ (eui64Byte_lt _ _) (eui64Byte_lt _ _) a0 b0
  · exact inj _ _ (eui64Byte_lt _ _) (eui64Byte_lt _ _) a1 b1
  · exact inj _ _ (eui64Byte_lt _ _) (eui64Byte_lt _ _) a2 b2
  · exact inj _ _ (eui64Byte_lt _ _) (eui64Byte_lt _ _) a3 b3
  · exact inj _ _ (eui64Byte_lt _ _) (eui64Byte_lt _ _) a4 b4
  · exact inj _ _ (eui64Byte_lt _ _) (eui64Byte_lt _ _) a5 b5
  · exact inj _ _ (eui64Byte_lt _ _) (eui64Byte_lt _ _) a6 b6
  · exact inj _ _ (eui64Byte_lt _ _) (eui64Byte_lt _ _) a7 b7

theorem eui64Byte_bytesAt (mem : List Nat) (off i : Nat) (hi : i < 8)
    (hlen : off + 8 ≤ mem.length) : eui64Byte (bytesAt mem off 8) i = byteAt mem (off + i) := by
  unfold eui64Byte bytesAt byteAt
  rw [List.getD_eq_getElem?_getD, List.getD_eq_getElem?_getD, List.getElem?_map,
    List.getElem?_take_of_lt hi, List.getElem?_drop,
    List.getElem?_eq_getElem (show off + i < mem.length by omega)]
  simp

theorem le16At_bytes {mem mem2 : List Nat} {i j : Nat} (h : le16At mem i = le16At mem2 j) :
    byteAt mem i = byteAt mem2 j ∧ byteAt mem (i + 1) = byteAt mem2 (j + 1) := by
  unfold le16At HIGH_LOW_TO_INT at h
  have h1 := byteAt_lt mem i
  have h2 := byteAt_lt mem (i + 1)
  have h3 := byteAt_lt mem2 j
  have h4 := byteAt_lt mem2 (j + 1)
  omega

theorem macControlOf_congr {mem mem2 : List Nat} (h0 : byteAt mem 0 = byteAt mem2 0)
    (h1 : byteAt mem 1 = byteAt mem2 1) : macControlOf mem = macControlOf mem2 := by
  unfold macControlOf le16At
  rw [h0, show (0 : Nat) + 1 = 1 from rfl, h1]

/-- C8, refuted as stated: two valid unicast frames that differ in the MAC sequence
number, the destination PAN ID and the destination address decode to the same event,
so the extracted fields do not determine the header. -/
theorem interPan_fields_do_not_determine_header :
    sl_zigbee_ezsp_mac_filter_match_message_handler true (some examplePacketInfo) 31
        (some exampleLongFrame) =
      some [Event.touchlinkMessage 0x1234 "0x8776655443322110" 0 200 [0xAA]] ∧
    sl_zigbee_ezsp_mac_filter_match_message_handler true (some examplePacketInfo) 31
        (some exampleLongFrameOtherSeq) =
      some [Event.touchlinkMessage 0x1234 "0x8776655443322110" 0 200 [0xAA]] ∧
    exampleLongFrame.take 30 ≠ exampleLongFrameOtherSeq.take 30 := by
  decide

/-- C8, as amended: two valid Touchlink unicast or broadcast frames that decode to
the same fields and agree on the header bytes the decoder does not report (the bytes
before the source PAN ID, which are the MAC frame control, the sequence number, the
destination PAN ID and the destination address, and the APS frame control byte) have
identical headers, byte for byte. -/
theorem interPan_fields_determine_rest_of_header (pkt1 pkt2 : sl_zigbee_rx_packet_info_t)
    (L1 L2 : Nat) (mem1 mem2 : List Nat) (e : Event)
    (h1 : sl_zigbee_ezsp_mac_filter_match_message_handler true (some pkt1) L1 (some mem1)
            = some [e])
    (h2 : sl_zigbee_ezsp_mac_filter_match_message_handler true (some pkt2) L2 (some mem2)
            = some [e])
    (hub : byteAt mem1 (apsControlOffset mem1) = 0x03 ∨ byteAt mem1 (apsControlOffset mem1) = 0x0B)
    (hskip : ∀ i, i < srcPanOffset mem1 → byteAt mem1 i = byteAt mem2 i)
    (haps : byteAt mem1 (apsControlOffset mem1) = byteAt mem2 (apsControlOffset mem1)) :
    ∀ i, i < srcPanOffset mem1 + 17 → byteAt mem1 i = byteAt mem2 i := by
  obtain ⟨_, _, _, _, hacc1, he1, _⟩ := handler_emits_layout _ _ _ _ _ _ h1
  obtain ⟨_, _, _, _, hacc2, he2, _⟩ := handler_emits_layout _ _ _ _ _ _ h2
  have h7 : 7 ≤ srcPanOffset mem1 := by
    rcases srcPanOffset_cases mem1 with h | h <;> omega
  have hm : macControlOf mem1 = macControlOf mem2 :=
    macControlOf_congr (hskip 0 (by omega)) (hskip 1 (by omega))
  have hs : srcPanOffset mem2 = srcPanOffset mem1 := by
    unfold srcPanOffset; rw [hm]
  rw [hs] at hacc2 he2
  unfold apsControlOffset at hub haps
  generalize srcPanOffset mem1 = hdr at *
  have hnF1 : ¬ byteAt mem1 (hdr + 12) = 0x0F := by omega
  have hnF2 : ¬ byteAt mem2 (hdr + 12) = 0x0F := by omega
  have hg1 := groupSizeAt_of_not_multicast hnF1
  have hg2 := groupSizeAt_of_not_multicast hnF2
  obtain ⟨_, n1, _, c1, p1, l1⟩ := hacc1
  obtain ⟨_, n2, _, c2, p2, l2⟩ := hacc2
  rw [hg1] at c1 p1 l1
  rw [hg2] at c2 p2 l2
  rw [he1] at he2
  unfold touchlinkOf at he2
  have hinj := Event.touchlinkMessage.inj he2
  have hpan := le16At_bytes hinj.1
  have hnwk := le16At_bytes (n1.trans n2.symm)
  have hcl := le16At_bytes (c1.trans c2.symm)
  have hpr := le16At_bytes (p1.trans p2.symm)
  have haddr : ∀ k, k < 8 → byteAt mem1 (hdr + 2 + k) = byteAt mem2 (hdr + 2 + k) := by
    intro k hk
    rw [← eui64Byte_bytesAt mem1 (hdr + 2) k hk (by omega),
      ← eui64Byte_bytesAt mem2 (hdr + 2) k hk (by omega)]
    exact Eui64ToHexString_injective _ _ hinj.2.1 k hk
  intro i hi
  by_cases hlt : i < hdr
  · exact hskip i hlt
  obtain ⟨k, rfl⟩ : ∃ k, i = hdr + k := ⟨i - hdr, by omega⟩
  have hk : k < 17 := by omega
  interval_cases k
  · exact hpan.1
  · exact hpan.2
  · exact haddr 0 (by norm_num)
  · exact haddr 1 (by norm_num)
  · exact haddr 2 (by norm_num)
  · exact haddr 3 (by norm_num)
  · exact haddr 4 (by norm_num)
  · exact haddr 5 (by norm_num)
  · exact haddr 6 (by norm_num)
  · exact haddr 7 (by norm_num)
  · exact hnwk.1
  · exact hnwk.2
  · exact haps
  · exact hcl.1
  · exact hcl.2
  · exact hpr.1
  · exact hpr.2

/-- Witness of C8 as amended: the example frame, and the same frame in a buffer
with one more byte behind the 31 declared ones; the address byte at offset 15 agrees. -/
theorem interPan_fields_determine_rest_of_header_witness :
    byteAt exampleLongFrame 15 = byteAt (exampleLongFrame ++ [0x00]) 15 :=
  interPan_fields_determine_rest_of_header examplePacketInfo examplePacketInfo 31 31
    exampleLongFrame (exampleLongFrame ++ [0x00])
    (Event.touchlinkMessage 0x1234 "0x8776655443322110" 0 200 [0xAA])
    (by decide) (by decide) (Or.inl (by decide)) (by decide) (by decide) 15 (by decide)

/-! ## Claims on the Green Power handler -/

/-- A payload that does not fit the 8-bit length: the writes leave `msgCopy`. -/
theorem gpepEmit_overflow (uni : Nat) (param : sl_zigbee_gp_params_t) (ci opts : Nat)
    (hlen : 241 ≤ param.gpdCommandPayloadLength) :
    gpepEmit uni param ci opts = none := by
  unfold gpepEmit
  have h := Nat.mod_lt (15 + param.gpdCommandPayloadLength) (by norm_num : 0 < 256)
  rw [if_neg (show ¬ 15 + param.gpdCommandPayloadLength ≤
      (15 + param.gpdCommandPayloadLength) % 256 by omega)]

/-- C11: a Green Power notification whose application ID is the IEEE-address one is
rejected: the handler returns without an event, whatever the command ID, the payload
and the other parameters. -/
theorem gpep_ieee_application_rejected
    (SL_ZIGBEE_GP_APPLICATION_IEEE_ADDRESS SL_ZIGBEE_INCOMING_UNICAST : Nat) (tsfn : Bool)
    (param : sl_zigbee_gp_params_t)
    (h : param.addr.applicationId = SL_ZIGBEE_GP_APPLICATION_IEEE_ADDRESS) :
    sl_zigbee_ezsp_gpep_incoming_message_handler SL_ZIGBEE_GP_APPLICATION_IEEE_ADDRESS
      SL_ZIGBEE_INCOMING_UNICAST tsfn (some param) = some [] := by
  cases tsfn
  · rfl
  · simp [sl_zigbee_ezsp_gpep_incoming_message_handler, h]

/-- Witness of C11: the example commissioning notification when the IEEE application
ID is 0. -/
theorem gpep_ieee_application_rejected_witness :
    sl_zigbee_ezsp_gpep_incoming_message_handler 0 0 true (some (exampleCommissioning 4))
      = some [] :=
  gpep_ieee_application_rejected 0 0 true (exampleCommissioning 4) (by decide)

theorem gpOptions_bound : ∀ a, a < 8 → ∀ b, b < 2 → ∀ s, s < 4 → ∀ t, t < 8 →
    (a ||| (b <<< 3) ||| (s <<< 4) ||| (t <<< 6)) < 65536 ∧
    (a ||| (s <<< 6) ||| (t <<< 8) ||| (b <<< 11)) < 65536 := by
  decide

theorem gpOptionsCommissioning_lt (p : sl_zigbee_gp_params_t) :
    gpOptionsCommissioning p < 65536 :=
  (gpOptions_bound _ (Nat.and_lt_two_pow _ (by norm_num : 7 < 2 ^ 3))
    _ (Nat.and_lt_two_pow _ (by norm_num : 1 < 2 ^ 1))
    _ (Nat.and_lt_two_pow _ (by norm_num : 3 < 2 ^ 2))
    _ (Nat.and_lt_two_pow _ (by norm_num : 7 < 2 ^ 3))).1

theorem gpOptionsOther_lt (p : sl_zigbee_gp_params_t) : gpOptionsOther p < 65536 :=
  (gpOptions_bound _ (Nat.and_lt_two_pow _ (by norm_num : 7 < 2 ^ 3))
    _ (Nat.and_lt_two_pow _ (by norm_num : 1 < 2 ^ 1))
    _ (Nat.and_lt_two_pow _ (by norm_num : 3 < 2 ^ 2))
    _ (Nat.and_lt_two_pow _ (by norm_num : 7 < 2 ^ 3))).2

theorem and_255 (x : Nat) : x &&& 0xFF = x % 256 := Nat.and_pow_two_sub_one_eq_mod x 8

theorem and_65535 (x : Nat) : x &&& 0xffff = x % 65536 := Nat.and_pow_two_sub_one_eq_mod x 16

theorem le32_bytes_eq (x : Nat) :
    [(x &&& 0xFF) % 256, ((x >>> 8) &&& 0xFF) % 256, ((x >>> 16) &&& 0xFF) % 256,
      ((x >>> 24) &&& 0xFF) % 256] = le32Bytes x := by
  unfold le32Bytes
  simp only [and_255, Nat.shiftRight_eq_div_pow, Nat.mod_mod]

/-- The event of a forwarded notification whose serialised message fits the 8-bit
length: the APS frame, the sender and the message are those of the spec. -/
theorem gpepEmit_eq (uni : Nat) (p : sl_zigbee_gp_params_t) (ci opts : Nat)
    (hr : GpParamsInRange p) (hci : ci < 256) (hopts : opts < 65536)
    (hlen : p.gpdCommandPayloadLength ≤ 240)
    (hbuf : p.gpdCommandPayloadLength ≤ p.gpdCommandPayload.length) :
    gpepEmit uni p ci opts =
      some [Event.incomingMessage uni gpApsFrame p.packetInfo.last_hop_lqi
              (p.addr.sourceId % 65536) (gpSerialized p ci opts)] := by
  obtain ⟨h1, h2, h3, h4, h5⟩ := hr
  unfold gpepEmit readBytes
  rw [if_pos (show 15 + p.gpdCommandPayloadLength ≤ (15 + p.gpdCommandPayloadLength) % 256
      by omega),
    if_pos (show 0 + p.gpdCommandPayloadLength ≤ p.gpdCommandPayload.length by omega)]
  have hl : (bytesAt p.gpdCommandPayload 0 p.gpdCommandPayloadLength).length
      = p.gpdCommandPayloadLength := bytesAt_length _ _ _ (by omega)
  have e1 : [(p.addr.sourceId &&& 0xFF) % 256, ((p.addr.sourceId >>> 8) &&& 0xFF) % 256,
      ((p.addr.sourceId >>> 16) &&& 0xFF) % 256, ((p.addr.sourceId >>> 24) &&& 0xFF) % 256]
      = le32Bytes p.addr.sourceId := le32_bytes_eq _
  have e2 : [(p.gpdSecurityFrameCounter &&& 0xFF) % 256,
      ((p.gpdSecurityFrameCounter >>> 8) &&& 0xFF) % 256,
      ((p.gpdSecurityFrameCounter >>> 16) &&& 0xFF) % 256,
      ((p.gpdSecurityFrameCounter >>> 24) &&& 0xFF) % 256]
      = le32Bytes p.gpdSecurityFrameCounter := le32_bytes_eq _
  have e3 : ((opts >>> 8) &&& 0xFF) % 256 = opts / 256 := by
    rw [and_255, Nat.shiftRight_eq_div_pow]; omega
  have e4 : (opts &&& 0xFF) % 256 = opts % 256 := by rw [and_255]; omega
  simp only [Option.bind_eq_bind, Option.some_bind, Option.pure_def, Option.some.injEq,
    List.cons.injEq, List.nil_eq, and_true]
  refine congrArg₂ _ ?_ ?_
  · rw [and_65535]; omega
  · unfold gpSerialized
    have hm : (15 + p.gpdCommandPayloadLength) % 256 = 15 + p.gpdCommandPayloadLength := by
      omega
    rw [hm]
    have hcons : ∀ (a b c d e : Nat) (l1 l2 : List Nat) (x y : Nat) (t : List Nat),
        [a, b, c, d, e] ++ l1 ++ l2 ++ [x, y] ++ t =
          a :: b :: c :: d :: e :: (l1 ++ (l2 ++ (x :: y :: t))) := by
      intros; simp
    rw [hcons, ← e1, ← e2, ← e3, ← e4]
    simp only [List.cons_append, List.nil_append]
    rw [Nat.mod_eq_of_lt h1, Nat.mod_eq_of_lt hci, Nat.mod_eq_of_lt h2, Nat.mod_eq_of_lt h3]
    apply List.take_of_length_le
    simp only [List.length_cons, bytesAt] at hl ⊢
    omega

theorem gpep_forward_commissioning (ieee uni : Nat) (p : sl_zigbee_gp_params_t)
    (hfw : p.addr.applicationId ≠ ieee) (hc : p.gpdCommandId = 0xE0)
    (hl : p.gpdCommandPayloadLength ≠ 0) :
    sl_zigbee_ezsp_gpep_incoming_message_handler ieee uni true (some p) =
      gpepEmit uni p 0x04 (gpOptionsCommissioning p) := by
  have hb := gpOptionsCommissioning_lt p
  unfold gpOptionsCommissioning at hb ⊢
  simp only [sl_zigbee_ezsp_gpep_incoming_message_handler, if_neg hfw, hc, if_pos, if_neg hl,
    Nat.mod_eq_of_lt hb]

theorem gpep_forward_other (ieee uni : Nat) (p : sl_zigbee_gp_params_t)
    (hfw : p.addr.applicationId ≠ ieee) (hc : p.gpdCommandId ≠ 0xE0) :
    sl_zigbee_ezsp_gpep_incoming_message_handler ieee uni true (some p) =
      gpepEmit uni p 0x00 (gpOptionsOther p) := by
  have hb := gpOptionsOther_lt p
  unfold gpOptionsOther at hb ⊢
  simp only [sl_zigbee_ezsp_gpep_incoming_message_handler, if_neg hfw, if_neg hc,
    Nat.mod_eq_of_lt hb]

/-- C12: for every forwarded Green Power notification the command identifier and the
16-bit options are fixed by the command kind.  For command 0xE0 the handler serialises
commandIdentifier 0x04 and options = (applicationId & 7) | (bidirectional & 1) << 3 |
(securityLevel & 3) << 4 | (securityKeyType & 7) << 6; for every other command,
commandIdentifier 0x00 and options = (applicationId & 7) | (securityLevel & 3) << 6 |
(securityKeyType & 7) << 8 | (bidirectional & 1) << 11.  The 16-bit variable holds the
value without loss, and in a message that fits its 8-bit length the two appear as byte
2 and as bytes 3 and 4 (low, high). -/
theorem gpep_options_by_command_kind
    (SL_ZIGBEE_GP_APPLICATION_IEEE_ADDRESS SL_ZIGBEE_INCOMING_UNICAST : Nat)
    (p : sl_zigbee_gp_params_t)
    (hfw : p.addr.applicationId ≠ SL_ZIGBEE_GP_APPLICATION_IEEE_ADDRESS) :
    (p.gpdCommandId = 0xE0 → p.gpdCommandPayloadLength ≠ 0 →
      sl_zigbee_ezsp_gpep_incoming_message_handler SL_ZIGBEE_GP_APPLICATION_IEEE_ADDRESS
          SL_ZIGBEE_INCOMING_UNICAST true (some p) =
        gpepEmit SL_ZIGBEE_INCOMING_UNICAST p 0x04 (gpOptionsCommissioning p) ∧
      (GpParamsInRange p → p.gpdCommandPayloadLength ≤ 240 →
        p.gpdCommandPayloadLength ≤ p.gpdCommandPayload.length →
        sl_zigbee_ezsp_gpep_incoming_message_handler SL_ZIGBEE_GP_APPLICATION_IEEE_ADDRESS
            SL_ZIGBEE_INCOMING_UNICAST true (some p) =
          some [Event.incomingMessage SL_ZIGBEE_INCOMING_UNICAST gpApsFrame
                  p.packetInfo.last_hop_lqi (p.addr.sourceId % 65536)
                  (gpSerialized p 0x04 (gpOptionsCommissioning p))])) ∧
    (p.gpdCommandId ≠ 0xE0 →
      sl_zigbee_ezsp_gpep_incoming_message_handler SL_ZIGBEE_GP_APPLICATION_IEEE_ADDRESS
          SL_ZIGBEE_INCOMING_UNICAST true (some p) =
        gpepEmit SL_ZIGBEE_INCOMING_UNICAST p 0x00 (gpOptionsOther p) ∧
      (GpParamsInRange p → p.gpdCommandPayloadLength ≤ 240 →
        p.gpdCommandPayloadLength ≤ p.gpdCommandPayload.length →
        sl_zigbee_ezsp_gpep_incoming_message_handler SL_ZIGBEE_GP_APPLICATION_IEEE_ADDRESS
            SL_ZIGBEE_INCOMING_UNICAST true (some p) =
          some [Event.incomingMessage SL_ZIGBEE_INCOMING_UNICAST gpApsFrame
                  p.packetInfo.last_hop_lqi (p.addr.sourceId % 65536)
                  (gpSerialized p 0x00 (gpOptionsOther p))])) := by
  refine ⟨fun hc hl => ?_, fun hc => ?_⟩
  · have h := gpep_forward_commissioning _ SL_ZIGBEE_INCOMING_UNICAST p hfw hc hl
    refine ⟨h, fun hr h240 hbuf => ?_⟩
    rw [h]
    exact gpepEmit_eq _ p 4 _ hr (by norm_num) (gpOptionsCommissioning_lt p) h240 hbuf
  · have h := gpep_forward_other _ SL_ZIGBEE_INCOMING_UNICAST p hfw hc
    refine ⟨h, fun hr h240 hbuf => ?_⟩
    rw [h]
    exact gpepEmit_eq _ p 0 _ hr (by norm_num) (gpOptionsOther_lt p) h240 hbuf

/-- Witness of C12: the example commissioning notification (security level 2, key
type 4) carries commandIdentifier 0x04 and options 0x0120. -/
theorem gpep_options_by_command_kind_witness :
    sl_zigbee_ezsp_gpep_incoming_message_handler 2 0 true (some (exampleCommissioning 4)) =
      some [Event.incomingMessage 0 gpApsFrame 200 0x9697
              [0x01, 0x25, 0x04, 0x20, 0x01, 0x97, 0x96, 0x71, 0x01, 0x85, 0x01, 0x00, 0x00,
               0xE0, 0x04, 0x02, 0x85, 0xF2, 0xC9]] :=
  (((gpep_options_by_command_kind 2 0 (exampleCommissioning 4) (by decide)).1
      (by decide) (by decide)).2 (by decide) (by decide) (by decide)).trans (by decide)

/-- C13, the code at a failing input: for a payload of 241 bytes the 8-bit
`messageLength` is (15 + 241) mod 256 = 0, so `msgCopy` has no cell and the 256 bytes of
the serialised message of the claim are written outside it: the handler has no defined
result. -/
theorem gpep_serialized_length_wraps :
    exampleLongPayload.gpdCommandPayloadLength = 241 ∧
    exampleLongPayload.gpdCommandPayload.length = 241 ∧
    (15 + exampleLongPayload.gpdCommandPayloadLength) % 256 = 0 ∧
    sl_zigbee_ezsp_gpep_incoming_message_handler 2 0 true (some exampleLongPayload) = none ∧
    (gpSerialized exampleLongPayload 0x00 (gpOptionsOther exampleLongPayload)).length = 256 := by
  decide

/-- C14: every event the Green Power handler emits is an IncomingMessage of unicast
type whose APS frame has profile 0xA1E0, cluster 0x0021, source and destination
endpoint 0xF2, group 0x0B84, sequence 0, options 0 and radius 0, whose sender is the
source ID modulo 65536 and whose lastHopLqi is that of the notification; there is at
most one. -/
theorem gpep_event_shape
    (SL_ZIGBEE_GP_APPLICATION_IEEE_ADDRESS SL_ZIGBEE_INCOMING_UNICAST : Nat) (tsfn : Bool)
    (param : Option sl_zigbee_gp_params_t) (es : List Event)
    (h : sl_zigbee_ezsp_gpep_incoming_message_handler SL_ZIGBEE_GP_APPLICATION_IEEE_ADDRESS
          SL_ZIGBEE_INCOMING_UNICAST tsfn param = some es) :
    es = [] ∨ ∃ p msg, param = some p ∧
      es = [Event.incomingMessage SL_ZIGBEE_INCOMING_UNICAST
              { profileId := 0xA1E0, clusterId := 0x0021, sourceEndpoint := 0xF2,
                destinationEndpoint := 0xF2, options := 0, groupId := 0x0B84, sequence := 0,
                radius := 0 }
              p.packetInfo.last_hop_lqi (p.addr.sourceId % 65536) msg] := by
  have emit : ∀ (p : sl_zigbee_gp_params_t) (ci opts : Nat),
      gpepEmit SL_ZIGBEE_INCOMING_UNICAST p ci opts = some es →
      ∃ msg, es = [Event.incomingMessage SL_ZIGBEE_INCOMING_UNICAST
              { profileId := 0xA1E0, clusterId := 0x0021, sourceEndpoint := 0xF2,
                destinationEndpoint := 0xF2, options := 0, groupId := 0x0B84, sequence := 0,
                radius := 0 }
              p.packetInfo.last_hop_lqi (p.addr.sourceId % 65536) msg] := by
    intro p ci opts he
    unfold gpepEmit readBytes at he
    by_cases hfit : 15 + p.gpdCommandPayloadLength ≤ (15 + p.gpdCommandPayloadLength) % 256
    · rw [if_pos hfit] at he
      by_cases hb : 0 + p.gpdCommandPayloadLength ≤ p.gpdCommandPayload.length
      · rw [if_pos hb] at he
        simp only [Option.bind_eq_bind, Option.some_bind, Option.pure_def,
          Option.some.injEq] at he
        rw [and_65535, Nat.mod_mod] at he
        exact ⟨_, he.symm⟩
      · rw [if_neg hb] at he
        simp at he
    · rw [if_neg hfit] at he
      simp at he
  cases tsfn with
  | false =>
    left
    cases param <;> simpa [sl_zigbee_ezsp_gpep_incoming_message_handler] using h.symm
  | true =>
    cases param with
    | none => left; simpa [sl_zigbee_ezsp_gpep_incoming_message_handler] using h.symm
    | some p =>
      simp only [sl_zigbee_ezsp_gpep_incoming_message_handler] at h
      split_ifs at h with h1 h2 h3
      · left; simpa using h.symm
      · left; simpa using h.symm
      · obtain ⟨msg, hm⟩ := emit p _ _ h
        exact Or.inr ⟨p, msg, rfl, hm⟩
      · obtain ⟨msg, hm⟩ := emit p _ _ h
        exact Or.inr ⟨p, msg, rfl, hm⟩

/-- Witness of C14: the event of the example commissioning notification. -/
theorem gpep_event_shape_witness :
    [Event.incomingMessage 0 gpApsFrame 200 0x9697
        [0x01, 0x25, 0x04, 0x20, 0x01, 0x97, 0x96, 0x71, 0x01, 0x85, 0x01, 0x00, 0x00,
         0xE0, 0x04, 0x02, 0x85, 0xF2, 0xC9]] = [] ∨
    ∃ p msg, some (exampleCommissioning 4) = some p ∧
      [Event.incomingMessage 0 gpApsFrame 200 0x9697
        [0x01, 0x25, 0x04, 0x20, 0x01, 0x97, 0x96, 0x71, 0x01, 0x85, 0x01, 0x00, 0x00,
         0xE0, 0x04, 0x02, 0x85, 0xF2, 0xC9]] =
      [Event.incomingMessage 0
        { profileId := 0xA1E0, clusterId := 0x0021, sourceEndpoint := 0xF2,
          destinationEndpoint := 0xF2, options := 0, groupId := 0x0B84, sequence := 0,
          radius := 0 }
        p.packetInfo.last_hop_lqi (p.addr.sourceId % 65536) msg] :=
  gpep_event_shape 2 0 true (some (exampleCommissioning 4)) _ (by decide)

/-! ## Claims on `Send` and the message tag -/

theorem ezspNextSequence_tag (g : Globals) :
    (ezspNextSequence g).2 = (g.ezspSequenceNumber + 1) % 128 := by
  unfold ezspNextSequence
  have h : ∀ x, x &&& 0x7F = x % 128 := fun x => Nat.and_pow_two_sub_one_eq_mod x 7
  simp only [h]
  omega

theorem ezspNextSequence_globals (g : Globals) :
    (ezspNextSequence g).1 = { g with ezspSequenceNumber := (g.ezspSequenceNumber + 1) % 256 } :=
  rfl

theorem Send_messageTag (k : SendConstants) (primitive : PrimitiveCall → Nat × Nat)
    (g : Globals) (info : SendArgs) :
    (Send k primitive g info).messageTag = (ezspNextSequence g).2 := by
  have h : (ezspNextSequence g).2 % 65536 = (ezspNextSequence g).2 := by
    rw [ezspNextSequence_tag]; omega
  unfold Send
  simp only []
  split_ifs <;> exact h

theorem Send_globals (k : SendConstants) (primitive : PrimitiveCall → Nat × Nat)
    (g : Globals) (info : SendArgs) :
    (Send k primitive g info).globals = (ezspNextSequence g).1 := by
  unfold Send
  simp only []
  split_ifs <;> rfl

/-- C15, refuted as stated: a Direct call with a payload of 300 bytes makes its one
unicast call with the message length 300 mod 256 = 44, so the primitive is told 44 bytes
of the caller's payload and not the payload. -/
theorem Send_long_payload_length_narrowed :
    exampleLongSendArgs.messageBuffer.length = 300 ∧
    (Send exampleSendConstants examplePrimitive exampleGlobals exampleLongSendArgs).calls =
      [PrimitiveCall.sl_zigbee_ezsp_send_unicast 0 0xFFFD exampleApsFrame 1 44
        (List.replicate 300 0x5A)] := by
  decide

/-- C15, as amended: a Send call whose type, as the 8-bit value the dispatcher keeps,
is Direct, ViaBinding or ViaAddressTable makes exactly one primitive call, to the
unicast primitive, with that type, the destination or index as a 16-bit value, the
caller's APS frame, the caller's payload buffer with its length as an 8-bit value and
the message tag that Send returns; the status and the sequence number the primitive
gives are the returned status and the value set as `sequence` on the caller's APS
frame.  When the type and the payload length are below 256 and the destination below
65536 the call carries them as the caller gave them. -/
theorem Send_unicast_dispatch (k : SendConstants) (primitive : PrimitiveCall → Nat × Nat)
    (g : Globals) (info : SendArgs)
    (h : info.type % 256 = k.SL_ZIGBEE_OUTGOING_DIRECT ∨
      info.type % 256 = k.SL_ZIGBEE_OUTGOING_VIA_BINDING ∨
      info.type % 256 = k.SL_ZIGBEE_OUTGOING_VIA_ADDRESS_TABLE) :
    (Send k primitive g info).calls =
      [PrimitiveCall.sl_zigbee_ezsp_send_unicast (info.type % 256) (info.indexOrDestination % 65536)
        info.apsFrame (Send k primitive g info).messageTag (info.messageBuffer.length % 256)
        info.messageBuffer] ∧
    (Send k primitive g info).status =
      (primitive (PrimitiveCall.sl_zigbee_ezsp_send_unicast (info.type % 256)
        (info.indexOrDestination % 65536) info.apsFrame (Send k primitive g info).messageTag
        (info.messageBuffer.length % 256) info.messageBuffer)).1 ∧
    (Send k primitive g info).apsFrameObjSequence =
      some (primitive (PrimitiveCall.sl_zigbee_ezsp_send_unicast (info.type % 256)
        (info.indexOrDestination % 65536) info.apsFrame (Send k primitive g info).messageTag
        (info.messageBuffer.length % 256) info.messageBuffer)).2 ∧
    (Send k primitive g info).messageTag = (ezspNextSequence g).2 ∧
    (info.type < 256 → info.indexOrDestination < 65536 → info.messageBuffer.length < 256 →
      (Send k primitive g info).calls =
        [PrimitiveCall.sl_zigbee_ezsp_send_unicast info.type info.indexOrDestination
          info.apsFrame (Send k primitive g info).messageTag info.messageBuffer.length
          info.messageBuffer]) := by
  have hc : info.type % 256 = k.SL_ZIGBEE_OUTGOING_VIA_BINDING ∨
      info.type % 256 = k.SL_ZIGBEE_OUTGOING_VIA_ADDRESS_TABLE ∨
      info.type % 256 = k.SL_ZIGBEE_OUTGOING_DIRECT := by
    rcases h with h | h | h
    · exact Or.inr (Or.inr h)
    · exact Or.inl h
    · exact Or.inr (Or.inl h)
  have ht := Send_messageTag k primitive g info
  rw [ht]
  have hm : (ezspNextSequence g).2 % 65536 = (ezspNextSequence g).2 := by
    rw [ezspNextSequence_tag]; omega
  unfold Send
  simp only [if_pos hc, hm, and_self, true_and]
  intro h1 h2 h3
  rw [Nat.mod_eq_of_lt h1, Nat.mod_eq_of_lt h2, Nat.mod_eq_of_lt h3]

/-- Witness of C15 as amended: a Direct call in the example session: one unicast call
with tag 1, and the sequence 0x42 of the example stack set on the caller's frame. -/
theorem Send_unicast_dispatch_witness :
    (Send exampleSendConstants examplePrimitive exampleGlobals (exampleSendArgs 0)).calls =
      [PrimitiveCall.sl_zigbee_ezsp_send_unicast 0 0xFFFD exampleApsFrame 1 3 [0x01, 0x02, 0x03]] ∧
    (Send exampleSendConstants examplePrimitive exampleGlobals (exampleSendArgs 0)).apsFrameObjSequence
      = some 0x42 :=
  ⟨(Send_unicast_dispatch exampleSendConstants examplePrimitive exampleGlobals
      (exampleSendArgs 0) (Or.inl (by decide))).1.trans (by decide),
    (Send_unicast_dispatch exampleSendConstants examplePrimitive exampleGlobals
      (exampleSendArgs 0) (Or.inl (by decide))).2.2.1.trans (by decide)⟩

theorem LabelsDistinct_ne {k : SendConstants} (hd : k.LabelsDistinct) :
    k.SL_ZIGBEE_OUTGOING_MULTICAST ≠ k.SL_ZIGBEE_OUTGOING_VIA_BINDING ∧
    k.SL_ZIGBEE_OUTGOING_MULTICAST ≠ k.SL_ZIGBEE_OUTGOING_VIA_ADDRESS_TABLE ∧
    k.SL_ZIGBEE_OUTGOING_MULTICAST ≠ k.SL_ZIGBEE_OUTGOING_DIRECT ∧
    k.SL_ZIGBEE_OUTGOING_MULTICAST_WITH_ALIAS ≠ k.SL_ZIGBEE_OUTGOING_VIA_BINDING ∧
    k.SL_ZIGBEE_OUTGOING_MULTICAST_WITH_ALIAS ≠ k.SL_ZIGBEE_OUTGOING_VIA_ADDRESS_TABLE ∧
    k.SL_ZIGBEE_OUTGOING_MULTICAST_WITH_ALIAS ≠ k.SL_ZIGBEE_OUTGOING_DIRECT ∧
    k.SL_ZIGBEE_OUTGOING_BROADCAST ≠ k.SL_ZIGBEE_OUTGOING_VIA_BINDING ∧
    k.SL_ZIGBEE_OUTGOING_BROADCAST ≠ k.SL_ZIGBEE_OUTGOING_VIA_ADDRESS_TABLE ∧
    k.SL_ZIGBEE_OUTGOING_BROADCAST ≠ k.SL_ZIGBEE_OUTGOING_DIRECT ∧
    k.SL_ZIGBEE_OUTGOING_BROADCAST ≠ k.SL_ZIGBEE_OUTGOING_MULTICAST ∧
    k.SL_ZIGBEE_OUTGOING_BROADCAST ≠ k.SL_ZIGBEE_OUTGOING_MULTICAST_WITH_ALIAS ∧
    k.SL_ZIGBEE_OUTGOING_BROADCAST_WITH_ALIAS ≠ k.SL_ZIGBEE_OUTGOING_VIA_BINDING ∧
    k.SL_ZIGBEE_OUTGOING_BROADCAST_WITH_ALIAS ≠ k.SL_ZIGBEE_OUTGOING_VIA_ADDRESS_TABLE ∧
    k.SL_ZIGBEE_OUTGOING_BROADCAST_WITH_ALIAS ≠ k.SL_ZIGBEE_OUTGOING_DIRECT ∧
    k.SL_ZIGBEE_OUTGOING_BROADCAST_WITH_ALIAS ≠ k.SL_ZIGBEE_OUTGOING_MULTICAST ∧
    k.SL_ZIGBEE_OUTGOING_BROADCAST_WITH_ALIAS ≠ k.SL_ZIGBEE_OUTGOING_MULTICAST_WITH_ALIAS ∧
    k.SL_ZIGBEE_OUTGOING_MULTICAST ≠ k.SL_ZIGBEE_OUTGOING_MULTICAST_WITH_ALIAS ∧
    k.SL_ZIGBEE_OUTGOING_BROADCAST ≠ k.SL_ZIGBEE_OUTGOING_BROADCAST_WITH_ALIAS ∧
    k.SL_ZIGBEE_OUTGOING_MULTICAST ≠ k.SL_ZIGBEE_OUTGOING_BROADCAST_WITH_ALIAS := by
  unfold SendConstants.LabelsDistinct at hd
  simp only [List.nodup_cons, List.mem_cons, List.mem_singleton, List.not_mem_nil, not_or,
    or_false, List.nodup_nil, and_true, not_false_eq_true] at hd
  obtain ⟨⟨a1, a2, a3, a4, a5, a6⟩, ⟨b2, b3, b4, b5, b6⟩, ⟨c3, c4, c5, c6⟩, ⟨d4, d5, d6⟩,
    ⟨e5, e6⟩, f6⟩ := hd
  refine ⟨?_, ?_, ?_, ?_, ?_, ?_, ?_, ?_, ?_, ?_, ?_, ?_, ?_, ?_, ?_, ?_, ?_, ?_, ?_⟩ <;>
    first
    | assumption
    | (intro h; first
        | exact a1 h.symm | exact a2 h.symm | exact a3 h.symm | exact a4 h.symm
        | exact a5 h.symm | exact a6 h.symm | exact b2 h.symm | exact b3 h.symm
        | exact b4 h.symm | exact b5 h.symm | exact b6 h.symm | exact c3 h.symm
        | exact c4 h.symm | exact c5 h.symm | exact c6 h.symm | exact d4 h.symm
        | exact d5 h.symm | exact d6 h.symm | exact e5 h.symm | exact e6 h.symm)

/-- The primitive call of a Send of a multicast or broadcast type, with every
argument. -/
theorem Send_route_calls (k : SendConstants) (hd : k.LabelsDistinct)
    (primitive : PrimitiveCall → Nat × Nat) (g : Globals) (info : SendArgs) :
    (info.type % 256 = k.SL_ZIGBEE_OUTGOING_MULTICAST ∨
        info.type % 256 = k.SL_ZIGBEE_OUTGOING_MULTICAST_WITH_ALIAS →
      (Send k primitive g info).calls =
        [PrimitiveCall.sl_zigbee_ezsp_send_multicast info.apsFrame (sendRoute k info).1 0
          (sendRoute k info).2 (info.callerSequence % 256) (Send k primitive g info).messageTag
          (info.messageBuffer.length % 256) info.messageBuffer]) ∧
    (info.type % 256 = k.SL_ZIGBEE_OUTGOING_BROADCAST ∨
        info.type % 256 = k.SL_ZIGBEE_OUTGOING_BROADCAST_WITH_ALIAS →
      (Send k primitive g info).calls =
        [PrimitiveCall.sl_zigbee_ezsp_send_broadcast (sendRoute k info).2
          (info.indexOrDestination % 65536) (info.callerSequence % 256) info.apsFrame
          (sendRoute k info).1 (Send k primitive g info).messageTag
          (info.messageBuffer.length % 256) info.messageBuffer]) ∧
    (SendWantsAlias k info →
      sendRoute k info = (info.apsFrame.radius % 256, info.callerAlias % 65536)) ∧
    (¬ SendWantsAlias k info → sendRoute k info = (12, k.SL_ZIGBEE_NULL_NODE_ID)) ∧
    (info.type % 256 = k.SL_ZIGBEE_OUTGOING_BROADCAST →
      ¬ (info.apsFrame.sourceEndpoint = k.SL_ZIGBEE_GP_ENDPOINT ∧
          info.apsFrame.destinationEndpoint = k.SL_ZIGBEE_GP_ENDPOINT ∧
          info.apsFrame.options &&& k.SL_ZIGBEE_APS_OPTION_USE_ALIAS_SEQUENCE_NUMBER ≠ 0) →
      (Send k primitive g info).calls =
        [PrimitiveCall.sl_zigbee_ezsp_send_broadcast k.SL_ZIGBEE_NULL_NODE_ID
          (info.indexOrDestination % 65536) (info.callerSequence % 256) info.apsFrame 12
          (Send k primitive g info).messageTag (info.messageBuffer.length % 256) info.messageBuffer]) := by
  obtain ⟨m1, m2, m3, ma1, ma2, ma3, b1, b2, b3, b4, b5, ba1, ba2, ba3, ba4, ba5, mma, bba, mba⟩ :=
    LabelsDistinct_ne hd
  have ht := Send_messageTag k primitive g info
  have hm : (ezspNextSequence g).2 % 65536 = (ezspNextSequence g).2 := by
    rw [ezspNextSequence_tag]; omega
  have hmulti : info.type % 256 = k.SL_ZIGBEE_OUTGOING_MULTICAST ∨
        info.type % 256 = k.SL_ZIGBEE_OUTGOING_MULTICAST_WITH_ALIAS →
      (Send k primitive g info).calls =
        [PrimitiveCall.sl_zigbee_ezsp_send_multicast info.apsFrame (sendRoute k info).1 0
          (sendRoute k info).2 (info.callerSequence % 256) (Send k primitive g info).messageTag
          (info.messageBuffer.length % 256) info.messageBuffer] := by
    intro h
    have hnu : ¬ (info.type % 256 = k.SL_ZIGBEE_OUTGOING_VIA_BINDING ∨
        info.type % 256 = k.SL_ZIGBEE_OUTGOING_VIA_ADDRESS_TABLE ∨
        info.type % 256 = k.SL_ZIGBEE_OUTGOING_DIRECT) := by
      rcases h with h | h <;> rw [h] <;> simp [m1, m2, m3, ma1, ma2, ma3]
    have hw : (info.type % 256 = k.SL_ZIGBEE_OUTGOING_MULTICAST_WITH_ALIAS ∨
          (info.apsFrame.sourceEndpoint = k.SL_ZIGBEE_GP_ENDPOINT ∧
            info.apsFrame.destinationEndpoint = k.SL_ZIGBEE_GP_ENDPOINT ∧
            info.apsFrame.options &&& k.SL_ZIGBEE_APS_OPTION_USE_ALIAS_SEQUENCE_NUMBER ≠ 0))
        ↔ SendWantsAlias k info := by
      unfold SendWantsAlias
      constructor
      · rintro (h1 | h1)
        · exact Or.inl (Or.inl h1)
        · exact Or.inr h1
      · rintro ((h1 | h1) | h1)
        · exact Or.inl h1
        · rcases h with h | h
          · exact absurd (h.symm.trans h1) mba
          · exact absurd (h1.symm.trans h) ba5
        · exact Or.inr h1
    rw [ht]
    unfold Send sendRoute
    simp only [if_neg hnu, if_pos h, hm, hw]
  have hbroad : info.type % 256 = k.SL_ZIGBEE_OUTGOING_BROADCAST ∨
        info.type % 256 = k.SL_ZIGBEE_OUTGOING_BROADCAST_WITH_ALIAS →
      (Send k primitive g info).calls =
        [PrimitiveCall.sl_zigbee_ezsp_send_broadcast (sendRoute k info).2
          (info.indexOrDestination % 65536) (info.callerSequence % 256) info.apsFrame
          (sendRoute k info).1 (Send k primitive g info).messageTag
          (info.messageBuffer.length % 256) info.messageBuffer] := by
    intro h
    have hnu : ¬ (info.type % 256 = k.SL_ZIGBEE_OUTGOING_VIA_BINDING ∨
        info.type % 256 = k.SL_ZIGBEE_OUTGOING_VIA_ADDRESS_TABLE ∨
        info.type % 256 = k.SL_ZIGBEE_OUTGOING_DIRECT) := by
      rcases h with h | h <;> rw [h] <;> simp [b1, b2, b3, ba1, ba2, ba3]
    have hnm : ¬ (info.type % 256 = k.SL_ZIGBEE_OUTGOING_MULTICAST ∨
        info.type % 256 = k.SL_ZIGBEE_OUTGOING_MULTICAST_WITH_ALIAS) := by
      rcases h with h | h <;> rw [h] <;> simp [b4, b5, ba4, ba5]
    have hw : (info.type % 256 = k.SL_ZIGBEE_OUTGOING_BROADCAST_WITH_ALIAS ∨
          (info.apsFrame.sourceEndpoint = k.SL_ZIGBEE_GP_ENDPOINT ∧
            info.apsFrame.destinationEndpoint = k.SL_ZIGBEE_GP_ENDPOINT ∧
            info.apsFrame.options &&& k.SL_ZIGBEE_APS_OPTION_USE_ALIAS_SEQUENCE_NUMBER ≠ 0))
        ↔ SendWantsAlias k info := by
      unfold SendWantsAlias
      constructor
      · rintro (h1 | h1)
        · exact Or.inl (Or.inr h1)
        · exact Or.inr h1
      · rintro ((h1 | h1) | h1)
        · rcases h with h | h
          · exact absurd (h.symm.trans h1) b5
          · exact absurd (h.symm.trans h1) ba5
        · exact Or.inl h1
        · exact Or.inr h1
    rw [ht]
    unfold Send sendRoute
    simp only [if_neg hnu, if_neg hnm, if_pos h, hm, hw]
  refine ⟨hmulti, hbroad, ?_, ?_, ?_⟩
  · intro h; unfold sendRoute; rw [if_pos h]
  · intro h; unfold sendRoute; rw [if_neg h]
  · intro hb hngp
    have hnw : ¬ SendWantsAlias k info := by
      unfold SendWantsAlias
      rintro ((h1 | h1) | h1)
      · exact absurd (hb.symm.trans h1) b5
      · exact absurd (hb.symm.trans h1) bba
      · exact hngp h1
    have hr : sendRoute k info = (12, k.SL_ZIGBEE_NULL_NODE_ID) := by
      unfold sendRoute; rw [if_neg hnw]
    have := hbroad (Or.inl hb)
    rw [hr] at this
    exact this

/-- C16: for a Send call of type Multicast, MulticastWithAlias, Broadcast or
BroadcastWithAlias (the type as the 8-bit value the dispatcher keeps) there is exactly
one primitive call, to the multicast respectively the broadcast primitive, and the
radius and the alias handed to it are the APS frame radius and the caller's alias (as
the `uint8_t` and `uint16_t` they are held in) exactly when the type is a with-alias
type or the APS frame has source and destination endpoint equal to the Green Power
endpoint and the use-alias-sequence-number option bit set, and are 12 and the null node
ID otherwise; a Broadcast call with an APS frame outside Green Power uses the null node
ID and 12 whatever the alias argument. -/
theorem Send_multicast_broadcast_route (k : SendConstants) (hd : k.LabelsDistinct)
    (primitive : PrimitiveCall → Nat × Nat) (g : Globals) (info : SendArgs) :
    (info.type % 256 = k.SL_ZIGBEE_OUTGOING_MULTICAST ∨
        info.type % 256 = k.SL_ZIGBEE_OUTGOING_MULTICAST_WITH_ALIAS →
      ∃ apsFrame nonmemberRadius nwkSequence messageTag messageLength messageContents,
        (Send k primitive g info).calls =
          [PrimitiveCall.sl_zigbee_ezsp_send_multicast apsFrame (sendRoute k info).1
            nonmemberRadius (sendRoute k info).2 nwkSequence messageTag messageLength
            messageContents]) ∧
    (info.type % 256 = k.SL_ZIGBEE_OUTGOING_BROADCAST ∨
        info.type % 256 = k.SL_ZIGBEE_OUTGOING_BROADCAST_WITH_ALIAS →
      ∃ destination nwkSequence apsFrame messageTag messageLength messageContents,
        (Send k primitive g info).calls =
          [PrimitiveCall.sl_zigbee_ezsp_send_broadcast (sendRoute k info).2 destination
            nwkSequence apsFrame (sendRoute k info).1 messageTag messageLength
            messageContents]) ∧
    (SendWantsAlias k info →
      sendRoute k info = (info.apsFrame.radius % 256, info.callerAlias % 65536)) ∧
    (¬ SendWantsAlias k info → sendRoute k info = (12, k.SL_ZIGBEE_NULL_NODE_ID)) ∧
    (info.type % 256 = k.SL_ZIGBEE_OUTGOING_BROADCAST →
      ¬ (info.apsFrame.sourceEndpoint = k.SL_ZIGBEE_GP_ENDPOINT ∧
          info.apsFrame.destinationEndpoint = k.SL_ZIGBEE_GP_ENDPOINT ∧
          info.apsFrame.options &&& k.SL_ZIGBEE_APS_OPTION_USE_ALIAS_SEQUENCE_NUMBER ≠ 0) →
      ∃ destination nwkSequence apsFrame messageTag messageLength messageContents,
        (Send k primitive g info).calls =
          [PrimitiveCall.sl_zigbee_ezsp_send_broadcast k.SL_ZIGBEE_NULL_NODE_ID destination
            nwkSequence apsFrame 12 messageTag messageLength messageContents]) := by
  obtain ⟨h1, h2, h3, h4, h5⟩ := Send_route_calls k hd primitive g info
  exact ⟨fun h => ⟨_, _, _, _, _, _, h1 h⟩, fun h => ⟨_, _, _, _, _, _, h2 h⟩, h3, h4,
    fun hb hn => ⟨_, _, _, _, _, _, h5 hb hn⟩⟩

/-- Witness of C16: in the example session a Broadcast call with the APS frame
outside Green Power and the alias argument 0x1234 hands the null node ID 0xFFFF and the
radius 12 to the broadcast primitive. -/
theorem Send_multicast_broadcast_route_witness :
    (Send exampleSendConstants examplePrimitive exampleGlobals (exampleSendArgs 6)).calls =
      [PrimitiveCall.sl_zigbee_ezsp_send_broadcast 0xFFFF 0xFFFD 0x17 exampleApsFrame 12 1 3
        [0x01, 0x02, 0x03]] ∧
    ∃ destination nwkSequence apsFrame messageTag messageLength messageContents,
      (Send exampleSendConstants examplePrimitive exampleGlobals (exampleSendArgs 6)).calls =
        [PrimitiveCall.sl_zigbee_ezsp_send_broadcast
          exampleSendConstants.SL_ZIGBEE_NULL_NODE_ID destination nwkSequence apsFrame 12
          messageTag messageLength messageContents] :=
  ⟨by decide,
   (Send_multicast_broadcast_route exampleSendConstants (by decide) examplePrimitive
      exampleGlobals (exampleSendArgs 6)).2.2.2.2 (by decide) (by decide)⟩

/-- C17, refuted as stated: the type 256 is none of the seven outgoing message types,
yet the dispatcher keeps it as the 8-bit value 0, which is Direct, makes a unicast call
and returns the status of the primitive, not the invalid-parameter status. -/
theorem Send_type_256_sends_unicast :
    ¬ SendTypeRecognised exampleSendConstants 256 ∧
    (Send exampleSendConstants examplePrimitive exampleGlobals (exampleSendArgs 256)).calls =
      [PrimitiveCall.sl_zigbee_ezsp_send_unicast 0 0xFFFD exampleApsFrame 1 3
        [0x01, 0x02, 0x03]] ∧
    (Send exampleSendConstants examplePrimitive exampleGlobals (exampleSendArgs 256)).status
      = 0 ∧
    exampleSendConstants.SL_STATUS_INVALID_PARAMETER = 0x21 := by
  decide

/-- C17, as amended: a Send call whose type, as the 8-bit value the dispatcher keeps,
is none of the seven outgoing message types returns the invalid-parameter status and
calls no primitive. -/
theorem Send_unrecognised_type (k : SendConstants) (primitive : PrimitiveCall → Nat × Nat)
    (g : Globals) (info : SendArgs) (h : ¬ SendTypeRecognised k (info.type % 256)) :
    (Send k primitive g info).status = k.SL_STATUS_INVALID_PARAMETER ∧
    (Send k primitive g info).calls = [] := by
  unfold SendTypeRecognised at h
  simp only [not_or] at h
  obtain ⟨h1, h2, h3, h4, h5, h6, h7⟩ := h
  unfold Send
  simp only [h1, h2, h3, h4, h5, h6, h7, or_self, if_false, and_self]

/-- Witness of C17 as amended: the type 99 in the example session. -/
theorem Send_unrecognised_type_witness :
    (Send exampleSendConstants examplePrimitive exampleGlobals (exampleSendArgs 99)).status
      = 0x21 ∧
    (Send exampleSendConstants examplePrimitive exampleGlobals (exampleSendArgs 99)).calls = [] :=
  Send_unrecognised_type exampleSendConstants examplePrimitive exampleGlobals
    (exampleSendArgs 99) (by decide)

/-- C18, refuted as stated: in the example session a Send call with the unrecognised
type 99 leaves the counter at 1 instead of 0, and the next Direct call receives the tag
2 where it would have received the tag 1 without the invalid call. -/
theorem Send_unrecognised_type_draws_tag :
    ¬ SendTypeRecognised exampleSendConstants 99 ∧
    (Send exampleSendConstants examplePrimitive exampleGlobals (exampleSendArgs 99)).globals
      ≠ exampleGlobals ∧
    (Send exampleSendConstants examplePrimitive
      (Send exampleSendConstants examplePrimitive exampleGlobals (exampleSendArgs 99)).globals
      (exampleSendArgs 0)).messageTag = 2 ∧
    (Send exampleSendConstants examplePrimitive exampleGlobals (exampleSendArgs 0)).messageTag
      = 1 := by
  decide

/-- C18, as amended: a Send call with an unrecognised message type (a type whose 8-bit
value, the one the dispatcher keeps, is none of the seven) calls no primitive and sets
nothing on the caller's APS frame, but it draws a message tag: the counter is advanced
by one (as a `uint8_t`), every other global is unchanged, and the next Send receives
the tag after the one the invalid call returned. -/
theorem Send_unrecognised_type_effects (k : SendConstants)
    (primitive : PrimitiveCall → Nat × Nat) (g : Globals) (info next : SendArgs)
    (h : ¬ SendTypeRecognised k (info.type % 256)) :
    (Send k primitive g info).calls = [] ∧
    (Send k primitive g info).apsFrameObjSequence = none ∧
    (Send k primitive g info).globals =
      { g with ezspSequenceNumber := (g.ezspSequenceNumber + 1) % 256 } ∧
    (Send k primitive g info).messageTag = (g.ezspSequenceNumber + 1) % 128 ∧
    (Send k primitive (Send k primitive g info).globals next).messageTag
      = (g.ezspSequenceNumber + 2) % 128 := by
  have hg := Send_globals k primitive g info
  refine ⟨?_, ?_, ?_, ?_, ?_⟩
  · unfold SendTypeRecognised at h
    simp only [not_or] at h
    obtain ⟨h1, h2, h3, h4, h5, h6, h7⟩ := h
    unfold Send
    simp only [h1, h2, h3, h4, h5, h6, h7, or_self, if_false]
  · unfold SendTypeRecognised at h
    simp only [not_or] at h
    obtain ⟨h1, h2, h3, h4, h5, h6, h7⟩ := h
    unfold Send
    simp only [h1, h2, h3, h4, h5, h6, h7, or_self, if_false]
  · rw [hg, ezspNextSequence_globals]
  · rw [Send_messageTag, ezspNextSequence_tag]
  · rw [Send_messageTag, ezspNextSequence_tag, hg, ezspNextSequence_globals]
    simp only []
    omega

/-- Witness of C18 as amended: the type 99 in the example session, followed by a
Direct call. -/
theorem Send_unrecognised_type_effects_witness :
    (Send exampleSendConstants examplePrimitive exampleGlobals (exampleSendArgs 99)).globals =
      { exampleGlobals with ezspSequenceNumber := (exampleGlobals.ezspSequenceNumber + 1) % 256 } ∧
    (Send exampleSendConstants examplePrimitive
      (Send exampleSendConstants examplePrimitive exampleGlobals (exampleSendArgs 99)).globals
      (exampleSendArgs 0)).messageTag = (exampleGlobals.ezspSequenceNumber + 2) % 128 :=
  ⟨(Send_unrecognised_type_effects exampleSendConstants examplePrimitive exampleGlobals
      (exampleSendArgs 99) (exampleSendArgs 0) (by decide)).2.2.1,
    (Send_unrecognised_type_effects exampleSendConstants examplePrimitive exampleGlobals
      (exampleSendArgs 99) (exampleSendArgs 0) (by decide)).2.2.2.2⟩

/-! ### The sequence of message tags -/

theorem issueTags_getElem? (n : Nat) : ∀ (g : Globals) (i : Nat), i < n →
    (issueTags n g).2[i]? = some ((g.ezspSequenceNumber + 1 + i) % 128) := by
  induction n with
  | zero => intro g i hi; omega
  | succ n ih =>
    intro g i hi
    have e : issueTags (n + 1) g =
        ((issueTags n (ezspNextSequence g).1).1,
          (ezspNextSequence g).2 :: (issueTags n (ezspNextSequence g).1).2) := rfl
    rw [e]
    cases i with
    | zero =>
      rw [List.getElem?_cons_zero, ezspNextSequence_tag]
    | succ j =>
      rw [List.getElem?_cons_succ, ih _ j (by omega), ezspNextSequence_globals]
      simp only [Option.some.injEq]
      omega

theorem issueTags_length (n : Nat) : ∀ (g : Globals), (issueTags n g).2.length = n := by
  induction n with
  | zero => intro g; rfl
  | succ n ih =>
    intro g
    have e : issueTags (n + 1) g =
        ((issueTags n (ezspNextSequence g).1).1,
          (ezspNextSequence g).2 :: (issueTags n (ezspNextSequence g).1).2) := rfl
    rw [e, List.length_cons, ih]

theorem Start_resets (success initStatus : Nat) (g : Globals) (hinit : g.initialized = true) :
    (Start success initStatus g).1.ezspSequenceNumber = 0 ∧
    (Start success initStatus g).2 = some initStatus := by
  unfold Start
  rw [if_neg (by rw [hinit]; decide)]
  constructor
  · simp only []
    split_ifs <;> rfl
  · rfl

/-- C19: for every k >= 1 the k-th message tag issued by `ezspNextSequence` after
`Start`, which resets the 8-bit counter to 0, is k mod 128; so the first tag of a
session is 1, every tag is below 128, and the tag after 127 is 0, followed by 1. -/
theorem ezspNextSequence_kth_tag (SL_ZIGBEE_EZSP_SUCCESS initStatus : Nat) (g : Globals)
    (hinit : g.initialized = true) (n : Nat) :
    (Start SL_ZIGBEE_EZSP_SUCCESS initStatus g).1.ezspSequenceNumber = 0 ∧
    (∀ k, 1 ≤ k → k ≤ n →
      (issueTags n (Start SL_ZIGBEE_EZSP_SUCCESS initStatus g).1).2[k - 1]? = some (k % 128)) ∧
    (∀ t ∈ (issueTags n (Start SL_ZIGBEE_EZSP_SUCCESS initStatus g).1).2, t < 128) ∧
    (129 ≤ n →
      (issueTags n (Start SL_ZIGBEE_EZSP_SUCCESS initStatus g).1).2[0]? = some 1 ∧
      (issueTags n (Start SL_ZIGBEE_EZSP_SUCCESS initStatus g).1).2[126]? = some 127 ∧
      (issueTags n (Start SL_ZIGBEE_EZSP_SUCCESS initStatus g).1).2[127]? = some 0 ∧
      (issueTags n (Start SL_ZIGBEE_EZSP_SUCCESS initStatus g).1).2[128]? = some 1) := by
  have h0 := (Start_resets SL_ZIGBEE_EZSP_SUCCESS initStatus g hinit).1
  have key : ∀ i, i < n →
      (issueTags n (Start SL_ZIGBEE_EZSP_SUCCESS initStatus g).1).2[i]? = some ((i + 1) % 128) := by
    intro i hi
    rw [issueTags_getElem? n _ i hi, h0]
    congr 2; omega
  refine ⟨h0, ?_, ?_, ?_⟩
  · intro k hk1 hkn
    rw [key (k - 1) (by omega)]
    congr 2; omega
  · intro t ht
    obtain ⟨i, hi, rfl⟩ := List.getElem_of_mem ht
    rw [issueTags_length] at hi
    have := key i hi
    rw [List.getElem?_eq_getElem (by rw [issueTags_length]; exact hi)] at this
    rw [Option.some.inj this]
    omega
  · intro hn
    exact ⟨key 0 (by omega), key 126 (by omega), key 127 (by omega), key 128 (by omega)⟩

/-- Witness of C19: a session started from globals whose counter stood at 77; the
tags 1, 127, 128 and 129 of 130 are 1, 127, 0 and 1. -/
theorem ezspNextSequence_kth_tag_witness :
    (issueTags 130 (Start 0 0 { exampleGlobals with ezspSequenceNumber := 77 }).1).2[0]?
      = some 1 ∧
    (issueTags 130 (Start 0 0 { exampleGlobals with ezspSequenceNumber := 77 }).1).2[126]?
      = some 127 ∧
    (issueTags 130 (Start 0 0 { exampleGlobals with ezspSequenceNumber := 77 }).1).2[127]?
      = some 0 ∧
    (issueTags 130 (Start 0 0 { exampleGlobals with ezspSequenceNumber := 77 }).1).2[128]?
      = some 1 :=
  (ezspNextSequence_kth_tag 0 0 { exampleGlobals with ezspSequenceNumber := 77 } (by decide)
    130).2.2.2 (by decide)

/-- C20, refuted as stated: the 128th call of `ezspNextSequence` after `Start` returns
0. -/
theorem ezspNextSequence_issues_zero :
    (Start 0 0 exampleGlobals).1.ezspSequenceNumber = 0 ∧
    (issueTags 128 (Start 0 0 exampleGlobals).1).2[127]? = some 0 := by
  decide

/-- C20, as amended: the value 0 is excluded from the first 127 tags of a session
only; the k-th tag after `Start` is 0 exactly when k is a multiple of 128. -/
theorem ezspNextSequence_zero_iff (SL_ZIGBEE_EZSP_SUCCESS initStatus : Nat) (g : Globals)
    (hinit : g.initialized = true) (n k : Nat) (hk1 : 1 ≤ k) (hkn : k ≤ n) :
    ((issueTags n (Start SL_ZIGBEE_EZSP_SUCCESS initStatus g).1).2[k - 1]? = some 0 ↔ 128 ∣ k) ∧
    (k < 128 →
      (issueTags n (Start SL_ZIGBEE_EZSP_SUCCESS initStatus g).1).2[k - 1]? ≠ some 0) := by
  have h0 := (Start_resets SL_ZIGBEE_EZSP_SUCCESS initStatus g hinit).1
  have key : (issueTags n (Start SL_ZIGBEE_EZSP_SUCCESS initStatus g).1).2[k - 1]?
      = some (k % 128) := by
    rw [issueTags_getElem? n _ (k - 1) (by omega), h0]
    congr 2; omega
  rw [key]
  refine ⟨?_, ?_⟩
  · rw [Option.some.injEq]
    exact Nat.dvd_iff_mod_eq_zero.symm
  · intro hk
    rw [Ne, Option.some.injEq]
    omega

/-- Witness of C20 as amended: the 127th and the 256th tag of the example session. -/
theorem ezspNextSequence_zero_iff_witness :
    (issueTags 300 (Start 0 0 exampleGlobals).1).2[127 - 1]? ≠ some 0 ∧
    (issueTags 300 (Start 0 0 exampleGlobals).1).2[256 - 1]? = some 0 :=
  ⟨(ezspNextSequence_zero_iff 0 0 exampleGlobals (by decide) 300 127 (by decide)
      (by decide)).2 (by decide),
    (ezspNextSequence_zero_iff 0 0 exampleGlobals (by decide) 300 256 (by decide)
      (by decide)).1.2 (by decide)⟩

/-! ## The error classifier -/

theorem error_handler_flag (k : ErrorCodes) (tsfn : Bool) (status : Nat) :
    (sl_zigbee_ezsp_error_handler k tsfn status).ncpNeedsResetAndInit = true ↔
      (status ≠ k.SL_ZIGBEE_EZSP_ERROR_SECURITY_PARAMETERS_INVALID ∧
        status ≠ k.SL_ZIGBEE_EZSP_ERROR_OVERFLOW ∧
        status ≠ k.SL_ZIGBEE_EZSP_ERROR_QUEUE_FULL) := by
  unfold sl_zigbee_ezsp_error_handler
  simp only []
  split_ifs with h
  · exact ⟨fun _ => h, fun _ => rfl⟩
  · exact ⟨fun hf => absurd hf (by decide), fun hc => absurd hc h⟩

theorem error_handler_events (k : ErrorCodes) (tsfn : Bool) (status : Nat) :
    (sl_zigbee_ezsp_error_handler k tsfn status).events =
      if (status ≠ k.SL_ZIGBEE_EZSP_ERROR_SECURITY_PARAMETERS_INVALID ∧
          status ≠ k.SL_ZIGBEE_EZSP_ERROR_OVERFLOW ∧
          status ≠ k.SL_ZIGBEE_EZSP_ERROR_QUEUE_FULL) ∧ tsfn = true then
        [Event.ncpNeedsResetAndInit status]
      else [] := by
  unfold sl_zigbee_ezsp_error_handler
  simp only []
  by_cases h : status ≠ k.SL_ZIGBEE_EZSP_ERROR_SECURITY_PARAMETERS_INVALID ∧
      status ≠ k.SL_ZIGBEE_EZSP_ERROR_OVERFLOW ∧ status ≠ k.SL_ZIGBEE_EZSP_ERROR_QUEUE_FULL
  · simp [h]
  · simp [h]

theorem error_handler_log (k : ErrorCodes) (tsfn : Bool) (status : Nat) :
    (sl_zigbee_ezsp_error_handler k tsfn status).log =
      (if status ≠ k.SL_ZIGBEE_EZSP_ERROR_QUEUE_FULL then errorEntry status else []) ++
      (if status = k.SL_ZIGBEE_EZSP_ERROR_OVERFLOW then congestionWarning else []) := rfl

/-- C21: the error handler requests a reset exactly for the codes outside the set of
security-parameters-invalid, overflow and queue-full.  With the bridge available a
code outside the set yields exactly one ncpNeedsResetAndInit event that carries the
code as its status, and a code inside the set yields no event. -/
theorem error_handler_reset_classifier (k : ErrorCodes) (status : Nat) :
    (∀ tsfn, (sl_zigbee_ezsp_error_handler k tsfn status).ncpNeedsResetAndInit = true ↔
      (status ≠ k.SL_ZIGBEE_EZSP_ERROR_SECURITY_PARAMETERS_INVALID ∧
        status ≠ k.SL_ZIGBEE_EZSP_ERROR_OVERFLOW ∧
        status ≠ k.SL_ZIGBEE_EZSP_ERROR_QUEUE_FULL)) ∧
    (sl_zigbee_ezsp_error_handler k true status).events =
      (if status = k.SL_ZIGBEE_EZSP_ERROR_SECURITY_PARAMETERS_INVALID ∨
          status = k.SL_ZIGBEE_EZSP_ERROR_OVERFLOW ∨
          status = k.SL_ZIGBEE_EZSP_ERROR_QUEUE_FULL then []
        else [Event.ncpNeedsResetAndInit status]) := by
  refine ⟨fun tsfn => error_handler_flag k tsfn status, ?_⟩
  rw [error_handler_events]
  by_cases h1 : status = k.SL_ZIGBEE_EZSP_ERROR_SECURITY_PARAMETERS_INVALID
  · simp [h1]
  by_cases h2 : status = k.SL_ZIGBEE_EZSP_ERROR_OVERFLOW
  · simp [h2]
  by_cases h3 : status = k.SL_ZIGBEE_EZSP_ERROR_QUEUE_FULL
  · simp [h3]
  simp [h1, h2, h3]

/-- C22, refuted as stated: for the queue-full code the handler makes no logging
call at all, whether or not the bridge is available. -/
theorem error_handler_queue_full_not_logged :
    exampleErrorCodes.Distinct ∧
    (sl_zigbee_ezsp_error_handler exampleErrorCodes true
      exampleErrorCodes.SL_ZIGBEE_EZSP_ERROR_QUEUE_FULL).log = [] ∧
    (sl_zigbee_ezsp_error_handler exampleErrorCodes false
      exampleErrorCodes.SL_ZIGBEE_EZSP_ERROR_QUEUE_FULL).log = [] := by
  decide

/-- C22, amended: of the three non-reset codes, security-parameters-invalid is logged
with the error entry alone, overflow with the error entry followed by the congestion
warning, and queue-full is not logged: the handler makes no logging call for it. -/
theorem error_handler_non_reset_log (k : ErrorCodes) (hd : k.Distinct) (tsfn : Bool) :
    (sl_zigbee_ezsp_error_handler k tsfn
        k.SL_ZIGBEE_EZSP_ERROR_SECURITY_PARAMETERS_INVALID).log =
      errorEntry k.SL_ZIGBEE_EZSP_ERROR_SECURITY_PARAMETERS_INVALID ∧
    (sl_zigbee_ezsp_error_handler k tsfn k.SL_ZIGBEE_EZSP_ERROR_OVERFLOW).log =
      errorEntry k.SL_ZIGBEE_EZSP_ERROR_OVERFLOW ++ congestionWarning ∧
    (sl_zigbee_ezsp_error_handler k tsfn k.SL_ZIGBEE_EZSP_ERROR_QUEUE_FULL).log = [] := by
  obtain ⟨h1, h2, h3⟩ := hd
  refine ⟨?_, ?_, ?_⟩ <;> rw [error_handler_log]
  · rw [if_pos h2, if_neg h1, List.append_nil]
  · rw [if_pos h3, if_pos (show k.SL_ZIGBEE_EZSP_ERROR_OVERFLOW = k.SL_ZIGBEE_EZSP_ERROR_OVERFLOW from rfl)]
  · rw [if_neg (show ¬ k.SL_ZIGBEE_EZSP_ERROR_QUEUE_FULL ≠ k.SL_ZIGBEE_EZSP_ERROR_QUEUE_FULL
        from fun h => h rfl),
      if_neg (show ¬ k.SL_ZIGBEE_EZSP_ERROR_QUEUE_FULL = k.SL_ZIGBEE_EZSP_ERROR_OVERFLOW
        from fun h => h3 h.symm), List.append_nil]

theorem error_handler_non_reset_log_witness :
    exampleErrorCodes.Distinct ∧
    (sl_zigbee_ezsp_error_handler exampleErrorCodes true 0x45).log = errorEntry 0x45 ∧
    (sl_zigbee_ezsp_error_handler exampleErrorCodes true 0x34).log =
      errorEntry 0x34 ++ congestionWarning ∧
    (sl_zigbee_ezsp_error_handler exampleErrorCodes true 0x41).log = [] :=
  ⟨by decide, error_handler_non_reset_log exampleErrorCodes (by decide) true⟩

/-! ## The incoming message handler -/

theorem readBytes_zero (mem : List Nat) (n : Nat) (h : n ≤ mem.length) :
    readBytes mem 0 n = some (bytesAt mem 0 n) := by
  unfold readBytes bytesAt
  rw [if_pos (by omega)]

/-- C30: with the bridge available and none of its arguments null, the incoming
message handler emits no event for the two loopback types; for every other type it
emits exactly one event, zdoResponse when the profile ID of the APS frame is 0 and
incomingMessage otherwise, which carries the APS frame unchanged, the short ID of the
sender and the first messageLength bytes of the message. -/
theorem incoming_message_classified
    (SL_ZIGBEE_INCOMING_BROADCAST_LOOPBACK SL_ZIGBEE_INCOMING_MULTICAST_LOOPBACK : Nat)
    (type : Nat) (apsFrame : sl_zigbee_aps_frame_t) (packetInfo : sl_zigbee_rx_packet_info_t)
    (messageLength : Nat) (message : List Nat) (hbuf : messageLength ≤ message.length) :
    sl_zigbee_ezsp_incoming_message_handler SL_ZIGBEE_INCOMING_BROADCAST_LOOPBACK
        SL_ZIGBEE_INCOMING_MULTICAST_LOOPBACK true type (some apsFrame) (some packetInfo)
        messageLength (some message) =
      some
        (if type = SL_ZIGBEE_INCOMING_BROADCAST_LOOPBACK ∨
            type = SL_ZIGBEE_INCOMING_MULTICAST_LOOPBACK then []
          else if apsFrame.profileId = 0 then
            [Event.zdoResponse apsFrame packetInfo.sender_short_id
              (bytesAt message 0 messageLength)]
          else
            [Event.incomingMessage type apsFrame packetInfo.last_hop_lqi
              packetInfo.sender_short_id (bytesAt message 0 messageLength)]) := by
  unfold sl_zigbee_ezsp_incoming_message_handler
  simp only [readBytes_zero message messageLength hbuf]
  by_cases h1 : type = SL_ZIGBEE_INCOMING_BROADCAST_LOOPBACK
  · simp [h1]
  by_cases h2 : type = SL_ZIGBEE_INCOMING_MULTICAST_LOOPBACK
  · simp [h2]
  by_cases h3 : apsFrame.profileId = 0
  · simp [h1, h2, h3]
  · simp [h1, h2, h3]

theorem incoming_message_classified_witness :
    sl_zigbee_ezsp_incoming_message_handler 7 6 true 0 (some exampleZdoFrame)
        (some examplePacketInfo) 4 (some [0x21, 0x00, 0x00, 0x01, 0x99]) =
      some [Event.zdoResponse exampleZdoFrame examplePacketInfo.sender_short_id
              [0x21, 0x00, 0x00, 0x01]] ∧
    sl_zigbee_ezsp_incoming_message_handler 7 6 true 0 (some exampleApsFrame)
        (some examplePacketInfo) 4 (some [0x21, 0x00, 0x00, 0x01, 0x99]) =
      some [Event.incomingMessage 0 exampleApsFrame examplePacketInfo.last_hop_lqi
              examplePacketInfo.sender_short_id [0x21, 0x00, 0x00, 0x01]] ∧
    sl_zigbee_ezsp_incoming_message_handler 7 6 true 6 (some exampleApsFrame)
        (some examplePacketInfo) 4 (some [0x21, 0x00, 0x00, 0x01, 0x99]) = some [] :=
  ⟨(incoming_message_classified 7 6 0 exampleZdoFrame examplePacketInfo 4
      [0x21, 0x00, 0x00, 0x01, 0x99] (by decide)).trans (by decide),
   (incoming_message_classified 7 6 0 exampleApsFrame examplePacketInfo 4
      [0x21, 0x00, 0x00, 0x01, 0x99] (by decide)).trans (by decide),
   (incoming_message_classified 7 6 6 exampleApsFrame examplePacketInfo 4
      [0x21, 0x00, 0x00, 0x01, 0x99] (by decide)).trans (by decide)⟩

/-! ## Teardown and the availability of the bridge -/

theorem Stop_effects (r : Bool) (g : Globals) :
    (Stop r g).effects =
      (if g.tickTimerActive = true then
          [StopEffect.uv_timer_stop, StopEffect.uv_close, StopEffect.tickTimerActive_false]
        else []) ++
      (if g.initialized = true then [StopEffect.ashStop, StopEffect.initialized_false]
        else []) ++
      (if g.tsfn = true then [StopEffect.tsfn_Release] else []) := by
  obtain ⟨t, i, a, n⟩ := g
  cases t <;> cases i <;> cases a <;> rfl

theorem Stop_globals (r : Bool) (g : Globals) :
    (Stop r g).globals =
      { tsfn := g.tsfn && r, initialized := false, tickTimerActive := false,
        ezspSequenceNumber := g.ezspSequenceNumber } := by
  obtain ⟨t, i, a, n⟩ := g
  cases t <;> cases i <;> cases a <;> rfl

theorem getElem?_some_lt {α : Type} (l : List α) (i : Nat) (x : α) (h : l[i]? = some x) :
    i < l.length := by
  by_contra hc
  rw [List.getElem?_eq_none (by omega)] at h
  exact Option.noConfusion h

/-- Whatever the values of the three variables `Stop` tests, a release among its
effects comes after every effect on the tick timer. -/
theorem stopEffects_order (t i a : Bool) : ∀ p, p < 6 → ∀ q, q < 6 →
    ((if a = true then
          [StopEffect.uv_timer_stop, StopEffect.uv_close, StopEffect.tickTimerActive_false]
        else []) ++
      (if i = true then [StopEffect.ashStop, StopEffect.initialized_false] else []) ++
      (if t = true then [StopEffect.tsfn_Release] else []))[p]? = some StopEffect.tsfn_Release ∧
    (((if a = true then
          [StopEffect.uv_timer_stop, StopEffect.uv_close, StopEffect.tickTimerActive_false]
        else []) ++
      (if i = true then [StopEffect.ashStop, StopEffect.initialized_false] else []) ++
      (if t = true then [StopEffect.tsfn_Release] else []))[q]? = some StopEffect.uv_timer_stop ∨
     ((if a = true then
          [StopEffect.uv_timer_stop, StopEffect.uv_close, StopEffect.tickTimerActive_false]
        else []) ++
      (if i = true then [StopEffect.ashStop, StopEffect.initialized_false] else []) ++
      (if t = true then [StopEffect.tsfn_Release] else []))[q]? = some StopEffect.uv_close ∨
     ((if a = true then
          [StopEffect.uv_timer_stop, StopEffect.uv_close, StopEffect.tickTimerActive_false]
        else []) ++
      (if i = true then [StopEffect.ashStop, StopEffect.initialized_false] else []) ++
      (if t = true then [StopEffect.tsfn_Release] else []))[q]? =
        some StopEffect.tickTimerActive_false) →
    q < p := by
  cases t <;> cases i <;> cases a <;>
    simp only [Bool.false_eq_true, if_false, if_true, List.append_nil, List.nil_append,
      List.cons_append] <;> decide

theorem stopEffects_release_last (t i a : Bool) : ∀ p, p < 6 →
    ((if a = true then
          [StopEffect.uv_timer_stop, StopEffect.uv_close, StopEffect.tickTimerActive_false]
        else []) ++
      (if i = true then [StopEffect.ashStop, StopEffect.initialized_false] else []) ++
      (if t = true then [StopEffect.tsfn_Release] else []))[p]? = some StopEffect.tsfn_Release →
    p + 1 =
      ((if a = true then
          [StopEffect.uv_timer_stop, StopEffect.uv_close, StopEffect.tickTimerActive_false]
        else []) ++
      (if i = true then [StopEffect.ashStop, StopEffect.initialized_false] else []) ++
      (if t = true then [StopEffect.tsfn_Release] else [])).length := by
  cases t <;> cases i <;> cases a <;>
    simp only [Bool.false_eq_true, if_false, if_true, List.append_nil, List.nil_append,
      List.cons_append] <;> decide

theorem Stop_effects_length (r : Bool) (g : Globals) : (Stop r g).effects.length ≤ 6 := by
  rw [Stop_effects]
  generalize g.tsfn = t
  generalize g.initialized = i
  generalize g.tickTimerActive = a
  cases t <;> cases i <;> cases a <;> decide

/-- C25: in every execution of Stop the tick timer is stopped and its active flag
cleared before the bridge is released: in the sequence of effects of Stop no release
of the bridge precedes the stopping of the tick or the clearing of the flag, the
release is the last effect, an active tick is stopped first of all, and the flag is
clear afterwards. -/
theorem Stop_tick_before_release (r : Bool) (g : Globals) :
    (∀ i j : Nat, (Stop r g).effects[i]? = some StopEffect.tsfn_Release →
      ((Stop r g).effects[j]? = some StopEffect.uv_timer_stop ∨
        (Stop r g).effects[j]? = some StopEffect.uv_close ∨
        (Stop r g).effects[j]? = some StopEffect.tickTimerActive_false) → j < i) ∧
    (∀ i : Nat, (Stop r g).effects[i]? = some StopEffect.tsfn_Release →
      i + 1 = (Stop r g).effects.length) ∧
    (g.tickTimerActive = true →
      (Stop r g).effects.take 3 =
        [StopEffect.uv_timer_stop, StopEffect.uv_close, StopEffect.tickTimerActive_false]) ∧
    (g.tsfn = true → StopEffect.tsfn_Release ∈ (Stop r g).effects) ∧
    (Stop r g).globals.tickTimerActive = false := by
  have hlen := Stop_effects_length r g
  rw [Stop_globals]
  refine ⟨?_, ?_, ?_, ?_, rfl⟩
  · intro p q hp hq
    have hp1 := getElem?_some_lt _ _ _ hp
    have hq1 := hq.elim (getElem?_some_lt _ _ _)
      (fun h => h.elim (getElem?_some_lt _ _ _) (getElem?_some_lt _ _ _))
    rw [Stop_effects] at hp hq
    exact stopEffects_order g.tsfn g.initialized g.tickTimerActive p (by omega) q (by omega)
      ⟨hp, hq⟩
  · intro p hp
    have hp1 := getElem?_some_lt _ _ _ hp
    rw [Stop_effects] at hp ⊢
    exact stopEffects_release_last g.tsfn g.initialized g.tickTimerActive p (by omega) hp
  · intro ha
    rw [Stop_effects, if_pos ha]
    rfl
  · intro ht
    rw [Stop_effects, if_pos ht]
    exact List.mem_append_right _ (List.mem_singleton.mpr rfl)

theorem Stop_tick_before_release_witness :
    (Stop true exampleGlobals).effects =
      [StopEffect.uv_timer_stop, StopEffect.uv_close, StopEffect.tickTimerActive_false,
       StopEffect.ashStop, StopEffect.initialized_false, StopEffect.tsfn_Release] ∧
    (0 : Nat) < 5 :=
  ⟨by decide,
   (Stop_tick_before_release true exampleGlobals).1 5 0 (by decide) (Or.inl (by decide))⟩

theorem payloadOffsetAt_cases (mem : List Nat) :
    payloadOffsetAt mem = 24 ∨ payloadOffsetAt mem = 26 ∨ payloadOffsetAt mem = 30 ∨
      payloadOffsetAt mem = 32 := by
  unfold payloadOffsetAt groupSizeAt
  rcases srcPanOffset_cases mem with h | h <;> rw [h] <;> split_ifs <;> simp

/-- C27: for every frame for which the Inter-PAN handler emits an event and whose
declared length is at least the size of the MAC header of its pattern (23 for the
long-destination pattern, 17 for the short one), the payload offset is one of 24, 26,
30 and 32, never 0, and at most the declared length; the 8-bit payload length is the
declared length minus the payload offset, computed without wrap-around; and the
payload of the event is the bytes of the frame from the payload offset up to the
declared length, which lie inside the buffer. -/
theorem interPan_payload_inside_frame (tsfn : Bool)
    (pi : Option sl_zigbee_rx_packet_info_t) (L : Nat) (mem : List Nat) (e : Event)
    (es : List Event)
    (h : sl_zigbee_ezsp_mac_filter_match_message_handler tsfn pi L (some mem) = some (e :: es))
    (hL : L < 256)
    (hlong : macControlOf mem = LONG_DEST_FRAME_CONTROL → 23 ≤ L)
    (hshort : macControlOf mem = SHORT_DEST_FRAME_CONTROL → 17 ≤ L) :
    (payloadOffsetAt mem = 24 ∨ payloadOffsetAt mem = 26 ∨ payloadOffsetAt mem = 30 ∨
      payloadOffsetAt mem = 32) ∧
    payloadOffsetAt mem ≠ 0 ∧
    payloadOffsetAt mem ≤ L ∧
    subU8 L (payloadOffsetAt mem) = L - payloadOffsetAt mem ∧
    payloadOffsetAt mem + (L - payloadOffsetAt mem) = L ∧
    L ≤ mem.length ∧
    (∃ pan addr group lqi,
      e = Event.touchlinkMessage pan addr group lqi
            (bytesAt mem (payloadOffsetAt mem) (L - payloadOffsetAt mem))) ∧
    (bytesAt mem (payloadOffsetAt mem) (L - payloadOffsetAt mem)).length
      = L - payloadOffsetAt mem ∧
    es = [] := by
  obtain ⟨pkt, -, -, hmac, hacc, he, hes⟩ := handler_emits_layout _ _ _ _ _ _ h
  have hcases := payloadOffsetAt_cases mem
  obtain ⟨h7, -, haps, -, -, hend⟩ := hacc
  have hle : payloadOffsetAt mem ≤ L := by
    unfold payloadOffsetAt
    rcases hmac with hm | hm
    · have h23 := hlong hm
      rw [srcPanOffset_long hm] at h7 haps ⊢
      unfold subU8 at h7 haps
      by_cases hg : byteAt mem (13 + 12) = 0x0F
      · rw [groupSizeAt_of_multicast hg]
        rcases haps with h3 | h3 | ⟨-, h9⟩
        · rw [hg] at h3; exact absurd h3 (by decide)
        · rw [hg] at h3; exact absurd h3 (by decide)
        · omega
      · rw [groupSizeAt_of_not_multicast hg]
        omega
    · have h17 := hshort hm
      rw [srcPanOffset_short hm] at h7 haps ⊢
      unfold subU8 at h7 haps
      by_cases hg : byteAt mem (7 + 12) = 0x0F
      · rw [groupSizeAt_of_multicast hg]
        rcases haps with h3 | h3 | ⟨-, h9⟩
        · rw [hg] at h3; exact absurd h3 (by decide)
        · rw [hg] at h3; exact absurd h3 (by decide)
        · omega
      · rw [groupSizeAt_of_not_multicast hg]
        omega
  have hsub : subU8 L (payloadOffsetAt mem) = L - payloadOffsetAt mem := by
    unfold subU8
    omega
  have hend2 : payloadOffsetAt mem + subU8 L (payloadOffsetAt mem) ≤ mem.length := hend
  rw [hsub] at hend2
  refine ⟨hcases, by omega, hle, hsub, by omega, by omega, ?_, bytesAt_length _ _ _ hend2, hes⟩
  rw [he]
  unfold touchlinkOf
  rw [← hsub]
  exact ⟨_, _, _, _, rfl⟩

theorem interPan_payload_inside_frame_witness :
    payloadOffsetAt exampleLongFrame = 30 ∧
    subU8 31 (payloadOffsetAt exampleLongFrame) = 1 ∧
    bytesAt exampleLongFrame (payloadOffsetAt exampleLongFrame)
      (31 - payloadOffsetAt exampleLongFrame) = [0xAA] ∧
    payloadOffsetAt exampleLongFrame ≤ 31 :=
  have h := interPan_payload_inside_frame true (some examplePacketInfo) 31 exampleLongFrame
    (Event.touchlinkMessage 0x1234 "0x8776655443322110" 0 200 [0xAA]) [] (by decide)
    (by decide) (by decide) (by decide)
  ⟨by decide, h.2.2.2.1.trans (by decide), by decide, h.2.2.1⟩

/-! ## The bit fields of the Green Power options -/

theorem gpOptions_commissioning_low : ∀ a, a < 8 → ∀ b, b < 2 → ∀ s, s < 4 → ∀ t, t < 8 →
    (a ||| (b <<< 3) ||| (s <<< 4) ||| (t <<< 6)) &&& 7 = a ∧
    ((a ||| (b <<< 3) ||| (s <<< 4) ||| (t <<< 6)) >>> 3) &&& 1 = b := by
  decide

theorem gpOptions_commissioning_high : ∀ a, a < 8 → ∀ b, b < 2 → ∀ s, s < 4 → ∀ t, t < 8 →
    ((a ||| (b <<< 3) ||| (s <<< 4) ||| (t <<< 6)) >>> 4) &&& 3 = s ∧
    ((a ||| (b <<< 3) ||| (s <<< 4) ||| (t <<< 6)) >>> 6) &&& 7 = t := by
  decide

theorem gpOptions_commissioning_sum : ∀ a, a < 8 → ∀ b, b < 2 → ∀ s, s < 4 → ∀ t, t < 8 →
    (a ||| (b <<< 3) ||| (s <<< 4) ||| (t <<< 6)) = a + 8 * b + 16 * s + 64 * t ∧
    (a ||| (b <<< 3) ||| (s <<< 4) ||| (t <<< 6)) ≤ 0x01FF := by
  decide

theorem gpOptions_commissioning_fields (a b s t : Nat) (ha : a < 8) (hb : b < 2) (hs : s < 4)
    (ht : t < 8) :
    (a ||| (b <<< 3) ||| (s <<< 4) ||| (t <<< 6)) &&& 7 = a ∧
    ((a ||| (b <<< 3) ||| (s <<< 4) ||| (t <<< 6)) >>> 3) &&& 1 = b ∧
    ((a ||| (b <<< 3) ||| (s <<< 4) ||| (t <<< 6)) >>> 4) &&& 3 = s ∧
    ((a ||| (b <<< 3) ||| (s <<< 4) ||| (t <<< 6)) >>> 6) &&& 7 = t ∧
    (a ||| (b <<< 3) ||| (s <<< 4) ||| (t <<< 6)) = a + 8 * b + 16 * s + 64 * t ∧
    (a ||| (b <<< 3) ||| (s <<< 4) ||| (t <<< 6)) ≤ 0x01FF :=
  ⟨(gpOptions_commissioning_low a ha b hb s hs t ht).1,
   (gpOptions_commissioning_low a ha b hb s hs t ht).2,
   (gpOptions_commissioning_high a ha b hb s hs t ht).1,
   (gpOptions_commissioning_high a ha b hb s hs t ht).2,
   (gpOptions_commissioning_sum a ha b hb s hs t ht).1,
   (gpOptions_commissioning_sum a ha b hb s hs t ht).2⟩

theorem gpOptions_other_low : ∀ a, a < 8 → ∀ b, b < 2 → ∀ s, s < 4 → ∀ t, t < 8 →
    (a ||| (s <<< 6) ||| (t <<< 8) ||| (b <<< 11)) &&& 7 = a ∧
    ((a ||| (s <<< 6) ||| (t <<< 8) ||| (b <<< 11)) >>> 6) &&& 3 = s := by
  decide

theorem gpOptions_other_high : ∀ a, a < 8 → ∀ b, b < 2 → ∀ s, s < 4 → ∀ t, t < 8 →
    ((a ||| (s <<< 6) ||| (t <<< 8) ||| (b <<< 11)) >>> 8) &&& 7 = t ∧
    ((a ||| (s <<< 6) ||| (t <<< 8) ||| (b <<< 11)) >>> 11) &&& 1 = b := by
  decide

theorem gpOptions_other_sum : ∀ a, a < 8 → ∀ b, b < 2 → ∀ s, s < 4 → ∀ t, t < 8 →
    (a ||| (s <<< 6) ||| (t <<< 8) ||| (b <<< 11)) = a + 64 * s + 256 * t + 2048 * b ∧
    (a ||| (s <<< 6) ||| (t <<< 8) ||| (b <<< 11)) ≤ 0x0FC7 := by
  decide

theorem gpOptions_other_gap : ∀ a, a < 8 → ∀ b, b < 2 → ∀ s, s < 4 → ∀ t, t < 8 →
    (a ||| (s <<< 6) ||| (t <<< 8) ||| (b <<< 11)) &&& 0x38 = 0 := by
  decide

theorem gpOptions_other_fields (a b s t : Nat) (ha : a < 8) (hb : b < 2) (hs : s < 4)
    (ht : t < 8) :
    (a ||| (s <<< 6) ||| (t <<< 8) ||| (b <<< 11)) &&& 7 = a ∧
    ((a ||| (s <<< 6) ||| (t <<< 8) ||| (b <<< 11)) >>> 6) &&& 3 = s ∧
    ((a ||| (s <<< 6) ||| (t <<< 8) ||| (b <<< 11)) >>> 8) &&& 7 = t ∧
    ((a ||| (s <<< 6) ||| (t <<< 8) ||| (b <<< 11)) >>> 11) &&& 1 = b ∧
    (a ||| (s <<< 6) ||| (t <<< 8) ||| (b <<< 11)) = a + 64 * s + 256 * t + 2048 * b ∧
    (a ||| (s <<< 6) ||| (t <<< 8) ||| (b <<< 11)) ≤ 0x0FC7 ∧
    (a ||| (s <<< 6) ||| (t <<< 8) ||| (b <<< 11)) &&& 0x38 = 0 :=
  ⟨(gpOptions_other_low a ha b hb s hs t ht).1,
   (gpOptions_other_low a ha b hb s hs t ht).2,
   (gpOptions_other_high a ha b hb s hs t ht).1,
   (gpOptions_other_high a ha b hb s hs t ht).2,
   (gpOptions_other_sum a ha b hb s hs t ht).1,
   (gpOptions_other_sum a ha b hb s hs t ht).2,
   gpOptions_other_gap a ha b hb s hs t ht⟩

/-- C29: within each command kind the options encoding loses no information.  The
options the handler serialises for a forwarded notification are, for command 0xE0,
a value of at most 0x01FF and, for every other command, a value of at most 0x0FC7
with bits 3 to 5 clear; its fields do not overlap (the value is the sum of the
shifted fields), and applicationId & 7, bidirectional & 1, securityLevel & 3 and
securityKeyType & 7 are recovered from it by the shifts and masks of the kind. -/
theorem gpep_options_lossless
    (SL_ZIGBEE_GP_APPLICATION_IEEE_ADDRESS SL_ZIGBEE_INCOMING_UNICAST : Nat)
    (p : sl_zigbee_gp_params_t)
    (hfw : p.addr.applicationId ≠ SL_ZIGBEE_GP_APPLICATION_IEEE_ADDRESS) :
    (p.gpdCommandId = 0xE0 → p.gpdCommandPayloadLength ≠ 0 →
      sl_zigbee_ezsp_gpep_incoming_message_handler SL_ZIGBEE_GP_APPLICATION_IEEE_ADDRESS
          SL_ZIGBEE_INCOMING_UNICAST true (some p) =
        gpepEmit SL_ZIGBEE_INCOMING_UNICAST p 0x04 (gpOptionsCommissioning p)) ∧
    (p.gpdCommandId ≠ 0xE0 →
      sl_zigbee_ezsp_gpep_incoming_message_handler SL_ZIGBEE_GP_APPLICATION_IEEE_ADDRESS
          SL_ZIGBEE_INCOMING_UNICAST true (some p) =
        gpepEmit SL_ZIGBEE_INCOMING_UNICAST p 0x00 (gpOptionsOther p)) ∧
    (gpOptionsCommissioning p &&& 7 = p.addr.applicationId &&& 7 ∧
      (gpOptionsCommissioning p >>> 3) &&& 1 = p.bidirectionalInfo &&& 1 ∧
      (gpOptionsCommissioning p >>> 4) &&& 3 = p.gpdfSecurityLevel &&& 3 ∧
      (gpOptionsCommissioning p >>> 6) &&& 7 = p.gpdfSecurityKeyType &&& 7 ∧
      gpOptionsCommissioning p =
        (p.addr.applicationId &&& 7) + 8 * (p.bidirectionalInfo &&& 1)
          + 16 * (p.gpdfSecurityLevel &&& 3) + 64 * (p.gpdfSecurityKeyType &&& 7) ∧
      gpOptionsCommissioning p ≤ 0x01FF) ∧
    (gpOptionsOther p &&& 7 = p.addr.applicationId &&& 7 ∧
      (gpOptionsOther p >>> 6) &&& 3 = p.gpdfSecurityLevel &&& 3 ∧
      (gpOptionsOther p >>> 8) &&& 7 = p.gpdfSecurityKeyType &&& 7 ∧
      (gpOptionsOther p >>> 11) &&& 1 = p.bidirectionalInfo &&& 1 ∧
      gpOptionsOther p =
        (p.addr.applicationId &&& 7) + 64 * (p.gpdfSecurityLevel &&& 3)
          + 256 * (p.gpdfSecurityKeyType &&& 7) + 2048 * (p.bidirectionalInfo &&& 1) ∧
      gpOptionsOther p ≤ 0x0FC7 ∧
      gpOptionsOther p &&& 0x38 = 0) :=
  ⟨fun hc hl => gpep_forward_commissioning _ _ p hfw hc hl,
   fun hc => gpep_forward_other _ _ p hfw hc,
   gpOptions_commissioning_fields _ _ _ _ (Nat.and_lt_two_pow _ (by norm_num : 7 < 2 ^ 3))
    (Nat.and_lt_two_pow _ (by norm_num : 1 < 2 ^ 1))
    (Nat.and_lt_two_pow _ (by norm_num : 3 < 2 ^ 2))
    (Nat.and_lt_two_pow _ (by norm_num : 7 < 2 ^ 3)),
   gpOptions_other_fields _ _ _ _ (Nat.and_lt_two_pow _ (by norm_num : 7 < 2 ^ 3))
    (Nat.and_lt_two_pow _ (by norm_num : 1 < 2 ^ 1))
    (Nat.and_lt_two_pow _ (by norm_num : 3 < 2 ^ 2))
    (Nat.and_lt_two_pow _ (by norm_num : 7 < 2 ^ 3))⟩

theorem gpep_options_lossless_witness :
    gpOptionsCommissioning (exampleCommissioning 4) = 0x0120 ∧
    (gpOptionsCommissioning (exampleCommissioning 4) >>> 4) &&& 3 = 2 ∧
    (gpOptionsCommissioning (exampleCommissioning 4) >>> 6) &&& 7 = 4 ∧
    gpOptionsOther exampleLongPayload = 0x0480 ∧
    (gpOptionsOther exampleLongPayload >>> 6) &&& 3 = 2 ∧
    (gpOptionsOther exampleLongPayload >>> 8) &&& 7 = 4 :=
  have h := gpep_options_lossless 2 0 (exampleCommissioning 4) (by decide)
  have h2 := gpep_options_lossless 2 0 exampleLongPayload (by decide)
  ⟨by decide, h.2.2.1.2.2.1.trans (by decide), h.2.2.1.2.2.2.1.trans (by decide), by decide,
   h2.2.2.2.2.1.trans (by decide), h2.2.2.2.2.2.1.trans (by decide)⟩

/-! ## Parsing an address from its text -/

theorem Eui64FromHexString_isSome_iff (s : String) :
    (Eui64FromHexString s).isSome = true ↔
      ((Utf8Value s).length = 18 ∧ (Utf8Value s).getD 0 0 = '0'.toNat ∧
        (Utf8Value s).getD 1 0 = 'x'.toNat) := by
  unfold Eui64FromHexString
  simp only []
  split_ifs with h
  · simp only [Option.isSome_none, Bool.false_eq_true, false_iff]
    intro hc
    rcases h with h | h | h
    · exact h hc.1
    · exact h hc.2.1
    · exact h hc.2.2
  · simp only [Option.isSome_some, true_iff]
    by_contra hc
    apply h
    by_cases h1 : (Utf8Value s).length = 18
    · by_cases h2 : (Utf8Value s).getD 0 0 = '0'.toNat
      · exact Or.inr (Or.inr (fun h3 => hc ⟨h1, h2, h3⟩))
      · exact Or.inr (Or.inl h2)
    · exact Or.inl h1

/-- The cells written for a text of 18 bytes that starts with `0x`. -/
theorem Eui64FromHexString_of_bytes (s : String)
    (b0 b1 b2 b3 b4 b5 b6 b7 b8 b9 b10 b11 b12 b13 b14 b15 : Nat)
    (h : Utf8Value s =
      [48, 120, b0, b1, b2, b3, b4, b5, b6, b7, b8, b9, b10, b11, b12, b13, b14, b15]) :
    Eui64FromHexString s =
      some [parsedByte b14 b15, parsedByte b12 b13, parsedByte b10 b11, parsedByte b8 b9,
            parsedByte b6 b7, parsedByte b4 b5, parsedByte b2 b3, parsedByte b0 b1] := by
  unfold Eui64FromHexString
  rw [h]
  rfl

/-- C26, the code at a failing input: the text `0x` followed by sixteen letters `Z`
is not in the documented format, yet the function returns true, with all eight cells
set to 0. -/
theorem Eui64FromHexString_accepts_non_hex :
    ¬ IsEui64Text "0xZZZZZZZZZZZZZZZZ" ∧
    Eui64FromHexString "0xZZZZZZZZZZZZZZZZ" = some [0, 0, 0, 0, 0, 0, 0, 0] := by
  decide

theorem utf8Encode_ascii (c : Char) (h : c.toNat < 128) : utf8Encode c.toNat = [c.toNat] := by
  unfold utf8Encode
  rw [if_pos h]

theorem Utf8Value_ascii (cs : List Char) (h : ∀ c ∈ cs, c.toNat < 128) :
    Utf8Value (String.mk cs) = cs.map Char.toNat := by
  unfold Utf8Value
  induction cs with
  | nil => rfl
  | cons c cs ih =>
    have hc := utf8Encode_ascii c (h c (List.mem_cons_self _ _))
    have ht := ih (fun d hd => h d (List.mem_cons_of_mem _ hd))
    simp only [List.map_cons, List.flatten_cons] at ht ⊢
    rw [hc, ht]
    rfl

theorem hexDigitLower_ascii (d : Nat) : (hexDigitLower d).toNat < 128 := by
  by_cases h : d < 16
  · revert d
    decide
  · unfold hexDigitLower
    rw [List.getD_eq_default _ _ (by simp only [not_lt] at h; exact h)]
    decide

theorem lowerHexDigit_ascii : ∀ c ∈ "0123456789abcdef".toList, c.toNat < 128 := by
  decide

theorem parsedByte_twoHexDigits : ∀ b, b < 256 →
    parsedByte (hexDigitLower (b / 16)).toNat (hexDigitLower (b % 16)).toNat = b := by
  decide

theorem twoHexDigits_parsedByte : ∀ c1 ∈ "0123456789abcdef".toList,
    ∀ c2 ∈ "0123456789abcdef".toList,
      twoHexDigits (parsedByte c1.toNat c2.toNat % 256) = [c1, c2] := by
  decide

theorem parsedByte_lt (hi lo : Nat) : parsedByte hi lo < 256 := by
  unfold parsedByte
  have h := Int.emod_lt_of_pos (strtol16 [hi, lo, 0]) (by norm_num : (0 : Int) < 256)
  have h0 := Int.emod_nonneg (strtol16 [hi, lo, 0]) (by norm_num : (256 : Int) ≠ 0)
  omega

/-- The cells written for a text of the characters `0x` and sixteen ASCII characters. -/
theorem Eui64FromHexString_mk (d : List Char) (hd : ∀ c ∈ d, c.toNat < 128)
    (d0 d1 d2 d3 d4 d5 d6 d7 d8 d9 d10 d11 d12 d13 d14 d15 : Char)
    (he : d = [d0, d1, d2, d3, d4, d5, d6, d7, d8, d9, d10, d11, d12, d13, d14, d15]) :
    Eui64FromHexString (String.mk ('0' :: 'x' :: d)) =
      some [parsedByte d14.toNat d15.toNat, parsedByte d12.toNat d13.toNat,
            parsedByte d10.toNat d11.toNat, parsedByte d8.toNat d9.toNat,
            parsedByte d6.toNat d7.toNat, parsedByte d4.toNat d5.toNat,
            parsedByte d2.toNat d3.toNat, parsedByte d0.toNat d1.toNat] := by
  apply Eui64FromHexString_of_bytes
  rw [Utf8Value_ascii]
  · rw [he]
    rfl
  · intro c hc
    rcases List.mem_cons.mp hc with h | hc
    · rw [h]; decide
    rcases List.mem_cons.mp hc with h | hc
    · rw [h]; decide
    exact hd c hc

theorem Eui64FromHexString_ToHexString (a0 a1 a2 a3 a4 a5 a6 a7 : Nat)
    (h0 : a0 < 256) (h1 : a1 < 256) (h2 : a2 < 256) (h3 : a3 < 256) (h4 : a4 < 256)
    (h5 : a5 < 256) (h6 : a6 < 256) (h7 : a7 < 256) :
    Eui64FromHexString (Eui64ToHexString [a0, a1, a2, a3, a4, a5, a6, a7]) =
      some [a0, a1, a2, a3, a4, a5, a6, a7] := by
  rw [Eui64ToHexString_eq]
  have e : ∀ i b, [a0, a1, a2, a3, a4, a5, a6, a7].getD i 0 = b → b < 256 →
      eui64Byte [a0, a1, a2, a3, a4, a5, a6, a7] i = b := by
    intro i b hb hlt
    unfold eui64Byte
    rw [hb]
    exact Nat.mod_eq_of_lt hlt
  rw [e 7 a7 rfl h7, e 6 a6 rfl h6, e 5 a5 rfl h5, e 4 a4 rfl h4, e 3 a3 rfl h3, e 2 a2 rfl h2,
    e 1 a1 rfl h1, e 0 a0 rfl h0]
  unfold twoHexDigits
  have hm := Eui64FromHexString_mk
    [hexDigitLower (a7 / 16), hexDigitLower (a7 % 16), hexDigitLower (a6 / 16),
      hexDigitLower (a6 % 16), hexDigitLower (a5 / 16), hexDigitLower (a5 % 16),
      hexDigitLower (a4 / 16), hexDigitLower (a4 % 16), hexDigitLower (a3 / 16),
      hexDigitLower (a3 % 16), hexDigitLower (a2 / 16), hexDigitLower (a2 % 16),
      hexDigitLower (a1 / 16), hexDigitLower (a1 % 16), hexDigitLower (a0 / 16),
      hexDigitLower (a0 % 16)]
    (by
      intro c hc
      simp only [List.mem_cons, List.mem_singleton, List.not_mem_nil, or_false] at hc
      rcases hc with h | h | h | h | h | h | h | h | h | h | h | h | h | h | h | h <;>
        rw [h] <;> exact hexDigitLower_ascii _)
    _ _ _ _ _ _ _ _ _ _ _ _ _ _ _ _ rfl
  rw [parsedByte_twoHexDigits a0 h0, parsedByte_twoHexDigits a1 h1,
    parsedByte_twoHexDigits a2 h2, parsedByte_twoHexDigits a3 h3,
    parsedByte_twoHexDigits a4 h4, parsedByte_twoHexDigits a5 h5,
    parsedByte_twoHexDigits a6 h6, parsedByte_twoHexDigits a7 h7] at hm
  exact hm

theorem list_eq_of_length_eight {α : Type} (a : List α) (h : a.length = 8) :
    ∃ a0 a1 a2 a3 a4 a5 a6 a7, a = [a0, a1, a2, a3, a4, a5, a6, a7] := by
  rcases a with _ | ⟨a0, _ | ⟨a1, _ | ⟨a2, _ | ⟨a3, _ | ⟨a4, _ | ⟨a5, _ | ⟨a6, _ | ⟨a7, _ | ⟨a8, t⟩⟩⟩⟩⟩⟩⟩⟩⟩ <;>
    simp only [List.length_cons, List.length_nil] at h <;> try omega
  exact ⟨a0, a1, a2, a3, a4, a5, a6, a7, rfl⟩

theorem ToHexString_FromHexString_chars
    (d0 d1 d2 d3 d4 d5 d6 d7 d8 d9 d10 d11 d12 d13 d14 d15 : Char)
    (hd : ∀ c ∈ [d0, d1, d2, d3, d4, d5, d6, d7, d8, d9, d10, d11, d12, d13, d14, d15],
      IsLowerHexDigit c) :
    ∃ a, Eui64FromHexString
          (String.mk ['0', 'x', d0, d1, d2, d3, d4, d5, d6, d7, d8, d9, d10, d11, d12, d13,
            d14, d15]) = some a ∧
      a.length = 8 ∧ (∀ b ∈ a, b < 256) ∧
      Eui64ToHexString a =
        String.mk ['0', 'x', d0, d1, d2, d3, d4, d5, d6, d7, d8, d9, d10, d11, d12, d13,
          d14, d15] := by
  have hm := Eui64FromHexString_mk
    [d0, d1, d2, d3, d4, d5, d6, d7, d8, d9, d10, d11, d12, d13, d14, d15]
    (fun c hc => lowerHexDigit_ascii c (hd c hc)) _ _ _ _ _ _ _ _ _ _ _ _ _ _ _ _ rfl
  refine ⟨_, hm, rfl, ?_, ?_⟩
  · intro b hb
    simp only [List.mem_cons, List.mem_singleton, List.not_mem_nil, or_false] at hb
    rcases hb with h | h | h | h | h | h | h | h <;> rw [h] <;> exact parsedByte_lt _ _
  · rw [Eui64ToHexString_eq]
    have m : ∀ i, i < 16 →
        IsLowerHexDigit
          ([d0, d1, d2, d3, d4, d5, d6, d7, d8, d9, d10, d11, d12, d13, d14, d15].getD i '0') := by
      intro i hi
      apply hd
      rw [List.getD_eq_getElem _ _ (by simpa using hi)]
      exact List.getElem_mem _
    have t := fun (i j : Nat) (hi : i < 16) (hj : j < 16) =>
      twoHexDigits_parsedByte _ (m i hi) _ (m j hj)
    have t0 := t 0 1 (by norm_num) (by norm_num)
    have t1 := t 2 3 (by norm_num) (by norm_num)
    have t2 := t 4 5 (by norm_num) (by norm_num)
    have t3 := t 6 7 (by norm_num) (by norm_num)
    have t4 := t 8 9 (by norm_num) (by norm_num)
    have t5 := t 10 11 (by norm_num) (by norm_num)
    have t6 := t 12 13 (by norm_num) (by norm_num)
    have t7 := t 14 15 (by norm_num) (by norm_num)
    simp only [List.getD_cons_zero, List.getD_cons_succ] at t0 t1 t2 t3 t4 t5 t6 t7
    unfold eui64Byte
    simp only [List.getD_cons_zero, List.getD_cons_succ]
    rw [t0, t1, t2, t3, t4, t5, t6, t7]
    rfl

theorem list_eq_of_length_sixteen {α : Type} (d : List α) (h : d.length = 16) :
    ∃ d0 d1 d2 d3 d4 d5 d6 d7 d8 d9 d10 d11 d12 d13 d14 d15,
      d = [d0, d1, d2, d3, d4, d5, d6, d7, d8, d9, d10, d11, d12, d13, d14, d15] := by
  obtain ⟨x, hx⟩ := list_eq_of_length_eight (d.take 8)
    (by rw [List.length_take]; omega)
  obtain ⟨y, hy⟩ := list_eq_of_length_eight (d.drop 8)
    (by rw [List.length_drop]; omega)
  obtain ⟨x1, x2, x3, x4, x5, x6, x7, hx⟩ := hx
  obtain ⟨y1, y2, y3, y4, y5, y6, y7, hy⟩ := hy
  refine ⟨x, x1, x2, x3, x4, x5, x6, x7, y, y1, y2, y3, y4, y5, y6, y7, ?_⟩
  rw [← List.take_append_drop 8 d, hx, hy]
  rfl

/-- C28: parsing inverts rendering, and rendering inverts parsing on lowercase text.
For every 8-byte address a, Eui64FromHexString applied to Eui64ToHexString a succeeds
and yields a; and for every string s made of "0x" followed by exactly 16 lowercase
hexadecimal digits, Eui64FromHexString succeeds on s with an 8-byte address whose
rendering by Eui64ToHexString is s again. -/
theorem Eui64_text_roundtrip :
    (∀ a : List Nat, a.length = 8 → (∀ b ∈ a, b < 256) →
      Eui64FromHexString (Eui64ToHexString a) = some a) ∧
    (∀ s : String, IsLowerEui64Text s →
      ∃ a, Eui64FromHexString s = some a ∧ a.length = 8 ∧ (∀ b ∈ a, b < 256) ∧
        Eui64ToHexString a = s) := by
  constructor
  · intro a hlen hb
    obtain ⟨a0, a1, a2, a3, a4, a5, a6, a7, rfl⟩ := list_eq_of_length_eight a hlen
    exact Eui64FromHexString_ToHexString a0 a1 a2 a3 a4 a5 a6 a7
      (hb _ (by simp)) (hb _ (by simp)) (hb _ (by simp)) (hb _ (by simp))
      (hb _ (by simp)) (hb _ (by simp)) (hb _ (by simp)) (hb _ (by simp))
  · rintro ⟨l⟩ ⟨hl, ht, hc⟩
    simp only at hl ht hc
    rcases l with _ | ⟨c0, _ | ⟨c1, d⟩⟩
    · simp at hl
    · simp at hl
    simp only [List.length_cons] at hl
    simp only [List.take_succ_cons, List.take_zero, List.cons.injEq, and_true] at ht
    simp only [List.drop_succ_cons, List.drop_zero] at hc
    obtain ⟨rfl, rfl⟩ := ht
    obtain ⟨d0, d1, d2, d3, d4, d5, d6, d7, d8, d9, d10, d11, d12, d13, d14, d15, rfl⟩ :=
      list_eq_of_length_sixteen d (by omega)
    exact ToHexString_FromHexString_chars d0 d1 d2 d3 d4 d5 d6 d7 d8 d9 d10 d11 d12 d13 d14 d15
      hc

theorem Eui64_text_roundtrip_witness :
    Eui64FromHexString (Eui64ToHexString exampleEui64) = some exampleEui64 ∧
    Eui64ToHexString exampleEui64 = "0x0b04030201ff000a" ∧
    (∃ a, Eui64FromHexString "0x00124b0012345678" = some a ∧ a.length = 8 ∧
      (∀ b ∈ a, b < 256) ∧ Eui64ToHexString a = "0x00124b0012345678") :=
  ⟨Eui64_text_roundtrip.1 exampleEui64 (by decide) (by decide), by decide,
   Eui64_text_roundtrip.2 "0x00124b0012345678" (by decide)⟩

end EzspNapi
